import Mathlib

/-!
# ClusterTask (DQM/EcalBarrelMonitorTasks/src/ClusterTask.cc)

A shallow embedding of the ECAL cluster monitoring worker.

Conventions of the embedding.

* Numbers. The C++ `float`/`double` quantities are values of an arbitrary linearly
  ordered field `F` (exact arithmetic); the results about square roots and
  trigonometric functions are stated for `F = ℝ`.  The C library functions the source
  calls (`sin`, `cos`, `sqrt`, `log`, `atan2`) are the fields of a record `Libm F`.
  The rounding of an arithmetic operation is not modelled, and a `float` variable holds
  the exact value it is initialised with, with one exception: in the tracking of the two
  leading superclusters (lines 277-284) a value narrowed to `float` (`energy` of line
  250, `et` of line 277) is compared with the same quantity recomputed in `double`
  (`reco::CaloCluster::energy()` and `theta()` of `math::XYZPoint` return `double`),
  so there the conversion of a `double` to `float` is the field `toFloat` of `Libm F`.
* Side effects. `MEs_[k]->fill(...)` appends one `Fill` to a list, in program order.
* Pointers. A pointer member that the constructor sets to `0` is an `Option`;
  dereferencing `none` is the error `Error.nullDereference`.  A pointer into the input
  collection (`&(*bcItr)`) is the index of the element paired with the element.
* Loops. A `for` loop over a collection is a recursion over the list that threads the
  loop variables; `continue` returns the loop variables reached so far.
* Integers. The counters `nBC`, `nSC` are natural numbers and `ievt_`,
  `massCalcPrescale_` are integers, without wrap-around; `%` is the truncating remainder.
* Declarations that live outside `ClusterTask.cc` (the enums of `ClusterTask.h`,
  `DetId`, the cluster classes, `BinService`) are represented by the values the
  source reads from them.
-/

namespace ecaldqm

/-! ## Data model -/

/-- The error kinds: the two `cms::Exception` categories thrown by the source, a missing
configuration parameter, and the dereference of a null pointer. -/
inductive Error where
  | invalidConfiguration
  | eventSetup
  | missingParameter
  | nullDereference
  deriving DecidableEq, Repr

/-- The members of the enum `Collections` that `ClusterTask.cc` names. -/
inductive Collections where
  | kRun
  | kEBRecHit
  | kEERecHit
  | kEBBasicCluster
  | kEEBasicCluster
  | kEBSuperCluster
  | kEESuperCluster
  deriving DecidableEq, Repr

/-- The members of the enum `MESets` of `ClusterTask.h` that `ClusterTask.cc` names. -/
inductive MESets where
  | kBCEMap
  | kBCEMapProjEta
  | kBCEMapProjPhi
  | kBCOccupancy
  | kBCOccupancyProjEta
  | kBCOccupancyProjPhi
  | kBCSizeMap
  | kBCSizeMapProjEta
  | kBCSizeMapProjPhi
  | kBCE
  | kBCNum
  | kBCSize
  | kSCE
  | kSCELow
  | kSCSeedEnergy
  | kSCClusterVsSeed
  | kSCSeedOccupancy
  | kSingleCrystalCluster
  | kSCNum
  | kSCNBCs
  | kSCNcrystals
  | kSCR9
  | kPi0
  | kJPsi
  | kZ
  | kHighMass
  deriving DecidableEq, Repr

/-- The members of `BinService`'s object enum that `ClusterTask.cc` names.  The bin
index `(unsigned)BinService::k + 1` is kept symbolic as `FillArgs.bin k`. -/
inductive BinService where
  | kEB
  | kEE
  | kEEm
  | kEEp
  deriving DecidableEq, Repr

/-- The values of `DetId::subdetId()`, as far as the source distinguishes them: the
enumerators `EcalBarrel` and `EcalEndcap` of `EcalSubdetector.h`, and any other value. -/
inductive EcalSubdetector where
  | EcalBarrel
  | EcalEndcap
  | other (value : Nat)
  deriving DecidableEq, Repr

/-- A detector cell identifier, as far as the source observes it: `null()`,
`subdetId()` and its identity (the raw value). -/
structure DetId where
  null : Bool
  subdetId : EcalSubdetector
  rawId : Nat
  deriving DecidableEq, Repr

/-- A `math::XYZPoint`, as far as the source observes it: the coordinates and the values
of the accessors `theta()`, `phi()` and `eta()`. -/
structure XYZPoint (F : Type) where
  x : F
  y : F
  z : F
  theta : F
  phi : F
  eta : F

/-- A `GlobalPoint(x, y, z)`. -/
structure GlobalPoint (F : Type) where
  x : F
  y : F
  z : F

/-- A `reco::BasicCluster`: `position()`, `energy()`, `size()` and `seed()`.  Its
`eta()` and `phi()` are those of the position. -/
structure BasicCluster (F : Type) where
  position : XYZPoint F
  energy : F
  size : Nat
  seed : DetId

/-- A `reco::SuperCluster`: `position()`, `energy()`, `size()`, `clustersSize()` and the
basic cluster that `seed()` points to. -/
structure SuperCluster (F : Type) where
  position : XYZPoint F
  energy : F
  size : Nat
  clustersSize : Nat
  seed : BasicCluster F

/-- An `EcalRecHit`: its cell identifier and `energy()`. -/
structure EcalRecHit (F : Type) where
  id : DetId
  energy : F

/-- An `EcalRecHitCollection`. -/
abbrev EcalRecHitCollection (F : Type) := List (EcalRecHit F)

/-- `EcalRecHitCollection::find(id)`: the hit of that cell; `none` stands for `end()`. -/
def EcalRecHitCollection.find {F : Type} (hits : EcalRecHitCollection F) (id : DetId) :
    Option (EcalRecHit F) :=
  List.find? (fun h => h.id == id) hits

/-- A `CaloSubdetectorGeometry`: its `getClosestCell`. -/
structure CaloSubdetectorGeometry (F : Type) where
  getClosestCell : GlobalPoint F → DetId

/-- A `CaloTopology`: a handle that is only passed on to `EcalClusterTools::e3x3`. -/
structure CaloTopology where
  handle : Nat
  deriving DecidableEq, Repr

/-- The functions of `<cmath>` that the source calls, and the conversion of a `double`
to `float` that initialising a `float` variable performs. -/
structure Libm (F : Type) where
  sin : F → F
  cos : F → F
  sqrt : F → F
  log : F → F
  atan2 : F → F → F
  toFloat : F → F

/-- The arguments of one `MESet::fill` call, one constructor per shape used in the
source. -/
inductive FillArgs (F : Type) where
  /-- The call `fill(id)`. -/
  | id (id : DetId)
  /-- The call `fill(id, w)`. -/
  | idW (id : DetId) (w : F)
  /-- The call `fill(id, x, y)`. -/
  | idXY (id : DetId) (x y : F)
  /-- The call `fill(x)` on a number. -/
  | x (x : F)
  /-- The call `fill(x, w)` on numbers. -/
  | xW (x w : F)
  /-- The call `fill((unsigned)BinService::k + 1, n)` with an integer count `n`. -/
  | bin (k : BinService) (n : Nat)

/-- One call `MEs_[me]->fill(args)`. -/
structure Fill (F : Type) where
  me : MESets
  args : FillArgs F

/-- The untracked `int` parameters of an `edm::ParameterSet`, by name. -/
abbrev ParameterSet := String → Option Int

/-- `getUntrackedParameter<int>(name)` without a default: a missing parameter throws. -/
def ParameterSet.getUntrackedParameter (ps : ParameterSet) (name : String) :
    Except Error Int :=
  match ps name with
  | some v => .ok v
  | none => .error .missingParameter

/-- The data members of `ClusterTask` that `ClusterTask.cc` uses. -/
structure ClusterTask (F : Type) where
  collectionMask : List Collections
  topology : Option CaloTopology
  ebGeometry : Option (CaloSubdetectorGeometry F)
  eeGeometry : Option (CaloSubdetectorGeometry F)
  ebHits : Option (EcalRecHitCollection F)
  eeHits : Option (EcalRecHitCollection F)
  ievt : Int
  massCalcPrescale : Int

/-- The geometry and topology products of an `edm::EventSetup`. -/
structure EventSetup (F : Type) where
  topology : Option CaloTopology
  ebGeometry : Option (CaloSubdetectorGeometry F)
  eeGeometry : Option (CaloSubdetectorGeometry F)

/-! ## Lifecycle -/

/-- `ClusterTask::ClusterTask`: the member initialisers, the collection mask and the check
of the prescale. -/
def ClusterTask.new (F : Type) (_workerParams : ParameterSet) : Except Error (ClusterTask F) :=
  match _workerParams.getUntrackedParameter "massCalcPrescale" with
  | .error e => .error e
  | .ok massCalcPrescale =>
    if massCalcPrescale = 0 then .error .invalidConfiguration
    else .ok
      { collectionMask := [.kRun, .kEBRecHit, .kEERecHit, .kEBBasicCluster,
          .kEEBasicCluster, .kEBSuperCluster, .kEESuperCluster]
        topology := none
        ebGeometry := none
        eeGeometry := none
        ebHits := none
        eeHits := none
        ievt := 0
        massCalcPrescale := massCalcPrescale }

/-- `ClusterTask::setDependencies`: the pairs pushed onto the dependency set. -/
def setDependencies (_dependencies : List (Collections × Collections)) :
    List (Collections × Collections) :=
  _dependencies ++ [(.kEBSuperCluster, .kEBRecHit)] ++ [(.kEESuperCluster, .kEERecHit)]

/-- `ClusterTask::beginRun`. -/
def ClusterTask.beginRun {F : Type} (st : ClusterTask F) (_es : EventSetup F) :
    Except Error (ClusterTask F) :=
  match _es.topology with
  | none => .error .eventSetup
  | some topo =>
    match _es.ebGeometry, _es.eeGeometry with
    | some eb, some ee =>
      .ok { st with topology := some topo, ebGeometry := some eb, eeGeometry := some ee,
                    ievt := 0 }
    | _, _ => .error .eventSetup

/-- `ClusterTask::beginEvent`. -/
def ClusterTask.beginEvent {F : Type} (st : ClusterTask F) : ClusterTask F :=
  { st with ebHits := none, eeHits := none, ievt := st.ievt + 1 }

/-- `ClusterTask::runOnRecHits`. -/
def ClusterTask.runOnRecHits {F : Type} (st : ClusterTask F) (_hits : EcalRecHitCollection F)
    (_collection : Collections) : ClusterTask F :=
  match _collection with
  | .kEBRecHit => { st with ebHits := some _hits }
  | .kEERecHit => { st with eeHits := some _hits }
  | _ => st

/-- The test `ievt_ % massCalcPrescale_ != 0` (C++ remainder truncates towards zero). -/
def ClusterTask.prescaled {F : Type} (st : ClusterTask F) : Bool :=
  decide (Int.tmod st.ievt st.massCalcPrescale ≠ 0)

/-! ## Cell resolution, shared by both analyses -/

/-- The lines `DetId id(seed); if(id.null()){ ... id = subgeom->getClosestCell(gp); }`:
the seed, or the closest cell of the region's geometry when the seed is null. -/
def resolveId {F : Type} (subgeom : Option (CaloSubdetectorGeometry F)) (seed : DetId)
    (position : XYZPoint F) : Except Error DetId :=
  if seed.null then
    match subgeom with
    | none => .error .nullDereference
    | some g => .ok (g.getClosestCell ⟨position.x, position.y, position.z⟩)
  else .ok seed

/-- The condition of the `continue` that follows the resolution:
`id.null() || (id.subdetId() == EcalBarrel && !isBarrel) ||
(id.subdetId() == EcalEndcap && isBarrel)`. -/
def regionMismatch (isBarrel : Bool) (id : DetId) : Bool :=
  id.null || (id.subdetId == .EcalBarrel && !isBarrel) || (id.subdetId == .EcalEndcap && isBarrel)

/-- The C++ test `a / b > c` on floating-point numbers.  For `b = 0` the quotient is not
a number of the field: IEEE division by zero gives `+inf` for `a > 0` (the test holds) and
`-inf` or NaN for `a <= 0` (the test fails).  The sign of a zero is not modelled. -/
def quotientGt {F : Type} [LinearOrderedField F] (a b c : F) : Bool :=
  if b = 0 then decide (0 < a) else decide (a / b > c)

/-! ## Basic clusters -/

section BasicClusters

variable {F : Type} [LinearOrderedField F]

/-- The variables of the cluster loop of `runOnBasicClusters`: the fills made so far,
`nBC[0]`, `nBC[1]` and `lowMassCands`. -/
structure BCLoop (F : Type) where
  fills : List (Fill F)
  nBC0 : Nat
  nBC1 : Nat
  lowMassCands : List (Nat × BasicCluster F)

/-- The eleven fills of lines 132-148 for a retained cluster. -/
def bcFills (id : DetId) (bc : BasicCluster F) : List (Fill F) :=
  [ ⟨.kBCE, .idW id bc.energy⟩,
    ⟨.kBCEMap, .idW id bc.energy⟩,
    ⟨.kBCEMapProjEta, .xW bc.position.eta bc.energy⟩,
    ⟨.kBCEMapProjPhi, .idW id bc.energy⟩,
    ⟨.kBCOccupancy, .id id⟩,
    ⟨.kBCOccupancyProjEta, .x bc.position.eta⟩,
    ⟨.kBCOccupancyProjPhi, .id id⟩,
    ⟨.kBCSize, .idW id (bc.size : F)⟩,
    ⟨.kBCSizeMap, .idW id (bc.size : F)⟩,
    ⟨.kBCSizeMapProjEta, .xW bc.position.eta (bc.size : F)⟩,
    ⟨.kBCSizeMapProjPhi, .idW id (bc.size : F)⟩ ]

/-- Lines 153-165: the selection of a retained cluster as a low-mass candidate.
`ok true`/`ok false`: the cluster is pushed / skipped; the error is the dereference
of a null hit collection at `ebHits_->find(id)`. -/
def bcSelect (st : ClusterTask F) (isBarrel : Bool) (id : DetId) (energy : F) :
    Except Error Bool :=
  if st.prescaled then .ok false
  else if energy > 10 then .ok false
  else
    match (if isBarrel then st.ebHits else st.eeHits) with
    | none => .error .nullDereference
    | some hits =>
      match hits.find id with
      | none => .ok false
      | some hit =>
        if hit.energy < 0.5 then .ok false
        else if quotientGt hit.energy energy 0.95 then .ok false
        else .ok true

/-- The body of the cluster loop of `runOnBasicClusters` (lines 118-165) for the
cluster `bc` at position `i` of the collection. -/
def bcBody (st : ClusterTask F) (isBarrel : Bool) (i : Nat) (bc : BasicCluster F)
    (s : BCLoop F) : Except Error (BCLoop F) :=
  match resolveId (if isBarrel then st.ebGeometry else st.eeGeometry) bc.seed bc.position with
  | .error e => .error e
  | .ok id =>
    if regionMismatch isBarrel id then .ok s
    else
      let s1 : BCLoop F :=
        { fills := s.fills ++ bcFills id bc
          nBC0 := if bc.position.z > 0 then s.nBC0 else s.nBC0 + 1
          nBC1 := if bc.position.z > 0 then s.nBC1 + 1 else s.nBC1
          lowMassCands := s.lowMassCands }
      match bcSelect st isBarrel id bc.energy with
      | .error e => .error e
      | .ok false => .ok s1
      | .ok true => .ok { s1 with lowMassCands := s1.lowMassCands ++ [(i, bc)] }

/-- The cluster loop of `runOnBasicClusters`, from position `i` on. -/
def bcLoop (st : ClusterTask F) (isBarrel : Bool) :
    Nat → List (BasicCluster F) → BCLoop F → Except Error (BCLoop F)
  | _, [], s => .ok s
  | i, bc :: rest, s =>
    match bcBody st isBarrel i bc s with
    | .error e => .error e
    | .ok s1 => bcLoop st isBarrel (i + 1) rest s1

/-- Lines 168-173: the fills of `kBCNum` after the loop. -/
def bcNumFills (isBarrel : Bool) (s : BCLoop F) : List (Fill F) :=
  if isBarrel then [⟨.kBCNum, .bin .kEB (s.nBC0 + s.nBC1)⟩]
  else [⟨.kBCNum, .bin .kEEm s.nBC0⟩, ⟨.kBCNum, .bin .kEEp s.nBC1⟩]

/-- The x component `energy * sin(theta) * cos(phi)` of a cluster (lines 180, 188). -/
def px (lib : Libm F) (bc : BasicCluster F) : F :=
  bc.energy * lib.sin bc.position.theta * lib.cos bc.position.phi

/-- The y component `energy * sin(theta) * sin(phi)` of a cluster (lines 181, 189). -/
def py (lib : Libm F) (bc : BasicCluster F) : F :=
  bc.energy * lib.sin bc.position.theta * lib.sin bc.position.phi

/-- The z component `energy * cos(theta)` of a cluster (lines 182, 190). -/
def pz (lib : Libm F) (bc : BasicCluster F) : F :=
  bc.energy * lib.cos bc.position.theta

/-- Line 192: `ptpair`. -/
def ptpair (lib : Libm F) (bc1 bc2 : BasicCluster F) : F :=
  lib.sqrt ((px lib bc1 + px lib bc2) * (px lib bc1 + px lib bc2)
    + (py lib bc1 + py lib bc2) * (py lib bc1 + py lib bc2))

/-- Line 195: `epair`. -/
def epair (bc1 bc2 : BasicCluster F) : F :=
  bc1.energy + bc2.energy

/-- Line 196: `pzpair`. -/
def pzpair (lib : Libm F) (bc1 bc2 : BasicCluster F) : F :=
  |pz lib bc1 + pz lib bc2|

/-- Line 199: `eta`. -/
def pairEta (lib : Libm F) (bc1 bc2 : BasicCluster F) : F :=
  0.5 * lib.log ((epair bc1 bc2 + pzpair lib bc1 bc2) / (epair bc1 bc2 - pzpair lib bc1 bc2))

/-- Line 200: `phi`, with the arguments in the order of the source. -/
def pairPhi (lib : Libm F) (bc1 bc2 : BasicCluster F) : F :=
  lib.atan2 (px lib bc1 + px lib bc2) (py lib bc1 + py lib bc2)

/-- Lines 204-206: one step of the isolation loop. -/
def isoStep (lib : Libm F) (eta phi : F) (iso : F) (bc : BasicCluster F) : F :=
  let dEta := bc.position.eta - eta
  let dPhi := bc.position.phi - phi
  if lib.sqrt (dEta * dEta + dPhi * dPhi) < 0.2 then
    iso + bc.energy * lib.sin bc.position.theta
  else iso

/-- Lines 202-207: `iso`, summed over the whole input collection. -/
def pairIso (lib : Libm F) (_bcs : List (BasicCluster F)) (bc1 bc2 : BasicCluster F) : F :=
  _bcs.foldl (isoStep lib (pairEta lib bc1 bc2) (pairPhi lib bc1 bc2)) 0

/-- Line 210: the argument of the square root,
`epair * epair - pzpair * pzpair - ptpair * ptpair`. -/
def pairMassSq (lib : Libm F) (bc1 bc2 : BasicCluster F) : F :=
  epair bc1 bc2 * epair bc1 bc2 - pzpair lib bc1 bc2 * pzpair lib bc1 bc2
    - ptpair lib bc1 bc2 * ptpair lib bc1 bc2

/-- Line 210: `mass`. -/
def pairMass (lib : Libm F) (bc1 bc2 : BasicCluster F) : F :=
  lib.sqrt (pairMassSq lib bc1 bc2)

/-- How far the body of the inner pair loop gets for one ordered pair. -/
inductive PairOutcome (F : Type) where
  /-- Line 185: the two iterators point to the same cluster. -/
  | samePointer
  /-- Line 193: `ptpair < 2.5`. -/
  | lowPt
  /-- Line 198: `epair < pzpair + 1.e-10`; `eta` is not computed. -/
  | energyBelowPz
  /-- Line 208: `iso > 0.5`, after `eta`, `phi` and `iso` were computed. -/
  | notIsolated (eta phi iso : F)
  /-- Lines 210-212: the mass is computed and filled. -/
  | filled (eta phi iso mass : F)

/-- The body of the inner pair loop (lines 185-212) for the candidates `c1`, `c2`. -/
def pairOutcome (lib : Libm F) (_bcs : List (BasicCluster F))
    (c1 c2 : Nat × BasicCluster F) : PairOutcome F :=
  if c1.1 = c2.1 then .samePointer
  else if ptpair lib c1.2 c2.2 < 2.5 then .lowPt
  else if epair c1.2 c2.2 < pzpair lib c1.2 c2.2 + 1e-10 then .energyBelowPz
  else
    let eta := pairEta lib c1.2 c2.2
    let phi := pairPhi lib c1.2 c2.2
    let iso := pairIso lib _bcs c1.2 c2.2
    if iso > 0.5 then .notIsolated eta phi iso
    else .filled eta phi iso (pairMass lib c1.2 c2.2)

/-- The fills made by one pass of the inner loop body: `kPi0` and `kJPsi` when the
mass is reached. -/
def pairFills (lib : Libm F) (_bcs : List (BasicCluster F))
    (c1 c2 : Nat × BasicCluster F) : List (Fill F) :=
  match pairOutcome lib _bcs c1 c2 with
  | .filled _ _ _ mass => [⟨.kPi0, .x mass⟩, ⟨.kJPsi, .x mass⟩]
  | _ => []

/-- The two nested loops over `lowMassCands` (lines 177-214). -/
def pairLoop (lib : Libm F) (_bcs : List (BasicCluster F))
    (lowMassCands : List (Nat × BasicCluster F)) : List (Fill F) :=
  lowMassCands.foldl
    (fun acc c1 => lowMassCands.foldl (fun acc c2 => acc ++ pairFills lib _bcs c1 c2) acc) []

/-- `ClusterTask::runOnBasicClusters`: all fills of one call, in order. -/
def runOnBasicClusters (lib : Libm F) (st : ClusterTask F) (_bcs : List (BasicCluster F))
    (_collection : Collections) : Except Error (List (Fill F)) :=
  let isBarrel := decide (_collection = .kEBBasicCluster)
  match bcLoop st isBarrel 0 _bcs ⟨[], 0, 0, []⟩ with
  | .error e => .error e
  | .ok s =>
    let fills := s.fills ++ bcNumFills isBarrel s
    if st.prescaled then .ok fills
    else .ok (fills ++ pairLoop lib _bcs s.lowMassCands)

end BasicClusters

/-! ## Superclusters -/

section SuperClusters

variable {F : Type} [LinearOrderedField F]

/-- The variables of the loop of `runOnSuperClusters`: the fills made so far, `nSC`,
`leading` and `subLeading` (`none` is the null pointer). -/
structure SCLoop (F : Type) where
  fills : List (Fill F)
  nSC : Nat
  leading : Option (SuperCluster F)
  subLeading : Option (SuperCluster F)

/-- The transverse energy `energy() * sin(position().theta())` of a supercluster, as
recomputed in `double` for `leading` and `subLeading` on lines 278 and 282. -/
def scEt (lib : Libm F) (sc : SuperCluster F) : F :=
  sc.energy * lib.sin sc.position.theta

/-- The value of the `float` variable `et` of line 277: the `float` variable `energy` of
line 250 times the sine, narrowed to `float`. -/
def etFloat (lib : Libm F) (sc : SuperCluster F) : F :=
  lib.toFloat (lib.toFloat sc.energy * lib.sin sc.position.theta)

/-- Lines 277-284: the update of `leading` and `subLeading` by the supercluster `sc`.
The `float` value `et` is compared with the `double` value recomputed for the
supercluster pointed to. -/
def trackLeading (lib : Libm F) (sc : SuperCluster F)
    (leading subLeading : Option (SuperCluster F)) :
    Option (SuperCluster F) × Option (SuperCluster F) :=
  let et := etFloat lib sc
  let first : Bool :=
    match leading with
    | none => true
    | some l => decide (et > scEt lib l)
  if first then (some sc, leading)
  else
    let second : Bool :=
      match subLeading with
      | none => true
      | some sl => decide (et > scEt lib sl)
    if second then (leading, some sc) else (leading, subLeading)

/-- The four fills of lines 252-256 for a retained supercluster. -/
def scFills (id : DetId) (sc : SuperCluster F) : List (Fill F) :=
  [ ⟨.kSCE, .idW id sc.energy⟩,
    ⟨.kSCELow, .idW id sc.energy⟩,
    ⟨.kSCNBCs, .idW id (sc.clustersSize : F)⟩,
    ⟨.kSCNcrystals, .idW id (sc.size : F)⟩ ]

/-- The fills of lines 262-271 for a retained supercluster whose seed hit was found;
`size` is `_scs.size()`.  The quotient `e3x3 / energy` is the quotient of the field. -/
def scSeedFills (e3x3 : BasicCluster F → EcalRecHitCollection F → Option CaloTopology → F)
    (st : ClusterTask F) (hits : EcalRecHitCollection F) (size : Nat) (id : DetId)
    (seedHit : EcalRecHit F) (sc : SuperCluster F) : List (Fill F) :=
  [ ⟨.kSCSeedEnergy, .idW id seedHit.energy⟩,
    ⟨.kSCClusterVsSeed, .idXY id seedHit.energy sc.energy⟩,
    ⟨.kSCSeedOccupancy, .id id⟩ ]
  ++ (if size = 1 then [⟨.kSingleCrystalCluster, .id id⟩] else [])
  ++ [ ⟨.kSCR9, .idW id (e3x3 sc.seed hits st.topology / sc.energy)⟩ ]

/-- The body of the loop of `runOnSuperClusters` (lines 238-284); `hits` is the local
pointer of line 222 and `size` is `_scs.size()`. -/
def scBody (lib : Libm F)
    (e3x3 : BasicCluster F → EcalRecHitCollection F → Option CaloTopology → F)
    (st : ClusterTask F) (isBarrel : Bool) (hits : Option (EcalRecHitCollection F))
    (size : Nat) (sc : SuperCluster F) (s : SCLoop F) : Except Error (SCLoop F) :=
  match resolveId (if isBarrel then st.ebGeometry else st.eeGeometry) sc.seed.seed
      sc.position with
  | .error e => .error e
  | .ok id =>
    if regionMismatch isBarrel id then .ok s
    else
      let s1 : SCLoop F := { s with fills := s.fills ++ scFills id sc }
      match hits with
      | none => .ok s1
      | some h =>
        match h.find id with
        | none => .ok s1
        | some seedHit =>
          let s2 : SCLoop F :=
            { s1 with fills := s1.fills ++ scSeedFills e3x3 st h size id seedHit sc
                      nSC := s1.nSC + 1 }
          if st.prescaled then .ok s2
          else
            let lead := trackLeading lib sc s2.leading s2.subLeading
            .ok { s2 with leading := lead.1, subLeading := lead.2 }

/-- The loop of `runOnSuperClusters` over the collection. -/
def scLoop (lib : Libm F)
    (e3x3 : BasicCluster F → EcalRecHitCollection F → Option CaloTopology → F)
    (st : ClusterTask F) (isBarrel : Bool) (hits : Option (EcalRecHitCollection F))
    (size : Nat) : List (SuperCluster F) → SCLoop F → Except Error (SCLoop F)
  | [], s => .ok s
  | sc :: rest, s =>
    match scBody lib e3x3 st isBarrel hits size sc s with
    | .error e => .error e
    | .ok s1 => scLoop lib e3x3 st isBarrel hits size rest s1

/-- Lines 296-300: the argument of the square root, `e * e - px * px - py * py - pz * pz`,
for the leading and sub-leading superclusters. -/
def scMassSq (lib : Libm F) (leading subLeading : SuperCluster F) : F :=
  let e := leading.energy + subLeading.energy
  let px := leading.energy * lib.sin leading.position.theta * lib.cos leading.position.phi
    + subLeading.energy * lib.sin subLeading.position.theta * lib.cos subLeading.position.phi
  let py := leading.energy * lib.sin leading.position.theta * lib.sin leading.position.phi
    + subLeading.energy * lib.sin subLeading.position.theta * lib.sin subLeading.position.phi
  let pz := leading.energy * lib.cos leading.position.theta
    + subLeading.energy * lib.cos subLeading.position.theta
  e * e - px * px - py * py - pz * pz

/-- Line 300: `mass`. -/
def scMass (lib : Libm F) (leading subLeading : SuperCluster F) : F :=
  lib.sqrt (scMassSq lib leading subLeading)

/-- Lines 295-302: the fills of `kZ` and `kHighMass` after the loop. -/
def scMassFills (lib : Libm F) (s : SCLoop F) : List (Fill F) :=
  match s.leading, s.subLeading with
  | some leading, some subLeading =>
    [⟨.kZ, .x (scMass lib leading subLeading)⟩, ⟨.kHighMass, .x (scMass lib leading subLeading)⟩]
  | _, _ => []

/-- `ClusterTask::runOnSuperClusters`: all fills of one call, in order. -/
def runOnSuperClusters (lib : Libm F)
    (e3x3 : BasicCluster F → EcalRecHitCollection F → Option CaloTopology → F)
    (st : ClusterTask F) (_scs : List (SuperCluster F)) (_collection : Collections) :
    Except Error (List (Fill F)) :=
  let isEB := decide (_collection = .kEBSuperCluster)
  let hits := if isEB then st.ebHits else st.eeHits
  let isBarrel := isEB
  match scLoop lib e3x3 st isBarrel hits _scs.length _scs ⟨[], 0, none, none⟩ with
  | .error e => .error e
  | .ok s =>
    let fills := s.fills ++ [⟨.kSCNum, .bin (if isEB then .kEB else .kEE) s.nSC⟩]
    if st.prescaled then .ok fills
    else .ok (fills ++ scMassFills lib s)

end SuperClusters

/-! ## Metric ordering -/

/-- A `std::map<std::string, unsigned>`: the list of its entries, each name at most once.
The `unsigned` value of an entry is kept as the enumerator of `MESets` it was converted
from; the entries are listed in the order of their insertion. -/
abbrev NameToIndex := List (String × MESets)

/-- The statement `_nameToIndex[name] = value;`: the entry of that name is overwritten, or
created when there is none. -/
def NameToIndex.assign (m : NameToIndex) (name : String) (value : MESets) : NameToIndex :=
  if m.any (fun e => e.1 == name) then
    m.map (fun e => if e.1 == name then (name, value) else e)
  else m ++ [(name, value)]

/-- `ClusterTask::setMEOrdering`. -/
def setMEOrdering (_nameToIndex : NameToIndex) : NameToIndex :=
  let m := _nameToIndex.assign "BCEMap" .kBCEMap
  let m := m.assign "BCEMapProjEta" .kBCEMapProjEta
  let m := m.assign "BCEMapProjPhi" .kBCEMapProjPhi
  let m := m.assign "BCOccupancy" .kBCOccupancy
  let m := m.assign "BCOccupancyProjEta" .kBCOccupancyProjEta
  let m := m.assign "BCOccupancyProjPhi" .kBCOccupancyProjPhi
  let m := m.assign "BCSizeMap" .kBCSizeMap
  let m := m.assign "BCSizeMapProjEta" .kBCSizeMapProjEta
  let m := m.assign "BCSizeMapProjPhi" .kBCSizeMapProjPhi
  let m := m.assign "BCE" .kBCE
  let m := m.assign "BCNum" .kBCNum
  let m := m.assign "BCSize" .kBCSize
  let m := m.assign "SCE" .kSCE
  let m := m.assign "SCELow" .kSCELow
  let m := m.assign "SCSeedEnergy" .kSCSeedEnergy
  let m := m.assign "SCClusterVsSeed" .kSCClusterVsSeed
  let m := m.assign "SCSeedOccupancy" .kSCSeedOccupancy
  let m := m.assign "SingleCrystalCluster" .kSingleCrystalCluster
  let m := m.assign "SCNum" .kSCNum
  let m := m.assign "SCNBCs" .kSCNBCs
  let m := m.assign "SCNcrystals" .kSCNcrystals
  let m := m.assign "SCR9" .kSCR9
  let m := m.assign "Pi0" .kPi0
  let m := m.assign "JPsi" .kJPsi
  let m := m.assign "Z" .kZ
  m.assign "HighMass" .kHighMass

/-! ## Vocabulary of the statements

The definitions below are not part of the program: they name the notions in which the
properties are stated (the resolved cell, a retained cluster, the value of the loop
variables after a pass). -/

/-- The resolved cell identifier: the seed, or the geometry's closest cell when the seed
is null. -/
def resolvedCell {F : Type} (g : CaloSubdetectorGeometry F) (seed : DetId) (position : XYZPoint F) :
    DetId :=
  if seed.null then g.getClosestCell ⟨position.x, position.y, position.z⟩ else seed

/-- The subdetector tag of the region that is not being analysed. -/
def otherRegionTag (isBarrel : Bool) : EcalSubdetector :=
  if isBarrel then .EcalEndcap else .EcalBarrel

/-- A cell survives the region filter: it is not null and does not carry the tag of the
other region. -/
def retainedCell (isBarrel : Bool) (id : DetId) : Bool :=
  !id.null && id.subdetId != otherRegionTag isBarrel

section Vocabulary

variable {F : Type} [LinearOrderedField F]

/-- The resolved cell of a basic cluster. -/
def bcCell (g : CaloSubdetectorGeometry F) (bc : BasicCluster F) : DetId :=
  resolvedCell g bc.seed bc.position

/-- A basic cluster retained after region-mismatch filtering. -/
def bcRetained (g : CaloSubdetectorGeometry F) (isBarrel : Bool) (bc : BasicCluster F) : Bool :=
  retainedCell isBarrel (bcCell g bc)

/-- The selection of lines 153-165 pushes the cluster (and does not fail). -/
def bcSelected (st : ClusterTask F) (isBarrel : Bool) (id : DetId) (energy : F) : Bool :=
  match bcSelect st isBarrel id energy with
  | .ok true => true
  | _ => false

/-- The loop variables of `runOnBasicClusters` after the body ran on `bc` without error. -/
def bcNext (st : ClusterTask F) (isBarrel : Bool) (g : CaloSubdetectorGeometry F) (i : Nat)
    (bc : BasicCluster F) (s : BCLoop F) : BCLoop F :=
  { fills := s.fills ++ (if bcRetained g isBarrel bc then bcFills (bcCell g bc) bc else [])
    nBC0 := s.nBC0 + (if bcRetained g isBarrel bc && !decide (bc.position.z > 0) then 1 else 0)
    nBC1 := s.nBC1 + (if bcRetained g isBarrel bc && decide (bc.position.z > 0) then 1 else 0)
    lowMassCands := s.lowMassCands ++
      (if bcRetained g isBarrel bc && bcSelected st isBarrel (bcCell g bc) bc.energy
        then [(i, bc)] else []) }

/-- The loop variables of `runOnBasicClusters` after the loop ran over `bcs` without
error, the first cluster being at position `i`. -/
def bcFinal (st : ClusterTask F) (isBarrel : Bool) (g : CaloSubdetectorGeometry F) (i : Nat)
    (bcs : List (BasicCluster F)) (s : BCLoop F) : BCLoop F :=
  { fills := s.fills ++
      bcs.flatMap (fun bc => if bcRetained g isBarrel bc then bcFills (bcCell g bc) bc else [])
    nBC0 := s.nBC0 + bcs.countP (fun bc => bcRetained g isBarrel bc && !decide (bc.position.z > 0))
    nBC1 := s.nBC1 + bcs.countP (fun bc => bcRetained g isBarrel bc && decide (bc.position.z > 0))
    lowMassCands := s.lowMassCands ++
      (bcs.enumFrom i).filter (fun p =>
        bcRetained g isBarrel p.2 && bcSelected st isBarrel (bcCell g p.2) p.2.energy) }

/-- The resolved cell of a supercluster. -/
def scCell (g : CaloSubdetectorGeometry F) (sc : SuperCluster F) : DetId :=
  resolvedCell g sc.seed.seed sc.position

/-- A supercluster retained after region-mismatch filtering. -/
def scRetained (g : CaloSubdetectorGeometry F) (isBarrel : Bool) (sc : SuperCluster F) : Bool :=
  retainedCell isBarrel (scCell g sc)

/-- The hit of the resolved cell of `sc` in the hit buffer, when the buffer is present and
holds one. -/
def scSeedHit (g : CaloSubdetectorGeometry F) (hits : Option (EcalRecHitCollection F))
    (sc : SuperCluster F) : Option (EcalRecHit F) :=
  match hits with
  | none => none
  | some h => h.find (scCell g sc)

/-- A supercluster that is retained and whose resolved cell has a hit in the buffer. -/
def scMatched (g : CaloSubdetectorGeometry F) (isBarrel : Bool)
    (hits : Option (EcalRecHitCollection F)) (sc : SuperCluster F) : Bool :=
  scRetained g isBarrel sc && (scSeedHit g hits sc).isSome

/-- All the fills of the loop body of `runOnSuperClusters` for one supercluster. -/
def scAllFills (e3x3 : BasicCluster F → EcalRecHitCollection F → Option CaloTopology → F)
    (st : ClusterTask F) (g : CaloSubdetectorGeometry F) (isBarrel : Bool)
    (hits : Option (EcalRecHitCollection F)) (size : Nat) (sc : SuperCluster F) :
    List (Fill F) :=
  if scRetained g isBarrel sc then
    scFills (scCell g sc) sc ++
      (match hits with
       | none => []
       | some h =>
         match h.find (scCell g sc) with
         | none => []
         | some seedHit => scSeedFills e3x3 st h size (scCell g sc) seedHit sc)
  else []

/-- One step of the tracking of `leading` and `subLeading`, on the pair of the two. -/
def trackStep (lib : Libm F) (p : Option (SuperCluster F) × Option (SuperCluster F))
    (sc : SuperCluster F) : Option (SuperCluster F) × Option (SuperCluster F) :=
  trackLeading lib sc p.1 p.2

/-- The loop variables of `runOnSuperClusters` after the body ran on `sc`. -/
def scNext (lib : Libm F)
    (e3x3 : BasicCluster F → EcalRecHitCollection F → Option CaloTopology → F)
    (st : ClusterTask F) (g : CaloSubdetectorGeometry F) (isBarrel : Bool)
    (hits : Option (EcalRecHitCollection F)) (size : Nat) (sc : SuperCluster F)
    (s : SCLoop F) : SCLoop F :=
  { fills := s.fills ++ scAllFills e3x3 st g isBarrel hits size sc
    nSC := s.nSC + (if scMatched g isBarrel hits sc then 1 else 0)
    leading := if scMatched g isBarrel hits sc && !st.prescaled
      then (trackStep lib (s.leading, s.subLeading) sc).1 else s.leading
    subLeading := if scMatched g isBarrel hits sc && !st.prescaled
      then (trackStep lib (s.leading, s.subLeading) sc).2 else s.subLeading }

/-- The loop variables of `runOnSuperClusters` after the loop ran over `scs`. -/
def scFinal (lib : Libm F)
    (e3x3 : BasicCluster F → EcalRecHitCollection F → Option CaloTopology → F)
    (st : ClusterTask F) (g : CaloSubdetectorGeometry F) (isBarrel : Bool)
    (hits : Option (EcalRecHitCollection F)) (size : Nat) (scs : List (SuperCluster F))
    (s : SCLoop F) : SCLoop F :=
  { fills := s.fills ++ scs.flatMap (scAllFills e3x3 st g isBarrel hits size)
    nSC := s.nSC + scs.countP (scMatched g isBarrel hits)
    leading := if st.prescaled then s.leading else
      ((scs.filter (scMatched g isBarrel hits)).foldl (trackStep lib) (s.leading, s.subLeading)).1
    subLeading := if st.prescaled then s.subLeading else
      ((scs.filter (scMatched g isBarrel hits)).foldl (trackStep lib) (s.leading, s.subLeading)).2 }

/-- The pair `p` holds the two superclusters of highest transverse energy of the list `l`:
its first component is the element of highest transverse energy, the earliest one on a
tie, and its second component is the element of highest transverse energy among all the
other positions, the earliest one on a tie; a component is absent when there is no such
element. -/
def IsLeadingPair (lib : Libm F) (l : List (SuperCluster F))
    (p : Option (SuperCluster F) × Option (SuperCluster F)) : Prop :=
  (l = [] → p = (none, none)) ∧
  (l ≠ [] → ∃ (i : Nat) (a : SuperCluster F),
    l[i]? = some a ∧ p.1 = some a ∧
    (∀ (j : Nat) (y : SuperCluster F), l[j]? = some y → scEt lib y ≤ scEt lib a) ∧
    (∀ (j : Nat) (y : SuperCluster F), j < i → l[j]? = some y → scEt lib y < scEt lib a) ∧
    (l.length < 2 → p.2 = none) ∧
    (2 ≤ l.length → ∃ (k : Nat) (b : SuperCluster F),
      k ≠ i ∧ l[k]? = some b ∧ p.2 = some b ∧
      (∀ (j : Nat) (y : SuperCluster F), j ≠ i → l[j]? = some y → scEt lib y ≤ scEt lib b) ∧
      (∀ (j : Nat) (y : SuperCluster F), j < k → j ≠ i → l[j]? = some y →
        scEt lib y < scEt lib b)))

end Vocabulary

/-- Two workers agree on everything but the geometry pointers. -/
def SameButGeometry {F : Type} (st1 st2 : ClusterTask F) : Prop :=
  st1.topology = st2.topology ∧ st1.ebHits = st2.ebHits ∧ st1.eeHits = st2.eeHits ∧
  st1.ievt = st2.ievt ∧ st1.massCalcPrescale = st2.massCalcPrescale

/-- The metrics filled by the pair reconstruction of either analysis. -/
def MESets.isMass : MESets → Bool
  | .kPi0 => true
  | .kJPsi => true
  | .kZ => true
  | .kHighMass => true
  | _ => false

/-! ## The real numbers and a sample event

The functions of `<cmath>` are interpreted by the functions of the same name on `ℝ`.
Outside their domain (the logarithm of a number that is not positive, the square root of a
negative number) the functions on `ℝ` return a conventional value where the C functions
return an infinity or NaN; the properties below that involve them state that the argument
is inside the domain. -/

/-- The conversion of a `double` to `float`: the nearest number with a significand of 24
binary digits and an exponent of at least -126, a tie going to the even significand.
Numbers beyond the largest finite `float`, which the conversion takes to an infinity, are
outside the model. -/
noncomputable def toBinary32 (x : ℝ) : ℝ :=
  let e : ℤ := max (Int.log 2 |x|) (-126)
  let ulp : ℝ := (2:ℝ) ^ (e - 23)
  let q : ℝ := |x| / ulp
  let n : ℤ := ⌊q⌋
  let m : ℤ :=
    if q - n < 1 / 2 then n
    else if 1 / 2 < q - n then n + 1
    else if n % 2 = 0 then n else n + 1
  if x < 0 then -(m * ulp) else m * ulp

/-- The functions of `<cmath>` on the real numbers; `atan2 y x` is the argument of the
complex number `x + y i`; `toFloat` rounds to the nearest `float`. -/
noncomputable def realLibm : Libm ℝ :=
  { sin := Real.sin
    cos := Real.cos
    sqrt := Real.sqrt
    log := Real.log
    atan2 := fun y x => Complex.arg ⟨x, y⟩
    toFloat := toBinary32 }

/-- The barrel cell number `n`. -/
def ebCell (n : Nat) : DetId := ⟨false, .EcalBarrel, n⟩

/-- The endcap cell number `n`. -/
def eeCell (n : Nat) : DetId := ⟨false, .EcalEndcap, n⟩

/-- The null cell identifier. -/
def nullCell : DetId := ⟨true, .other 0, 0⟩

/-- A worker after `beginRun`, with the given event counter, prescale and hit buffers; the
closest barrel cell is always cell 7 and the closest endcap cell always cell 8. -/
noncomputable def exTask (ievt massCalcPrescale : Int)
    (ebHits eeHits : Option (EcalRecHitCollection ℝ)) : ClusterTask ℝ :=
  { collectionMask := [.kRun, .kEBRecHit, .kEERecHit, .kEBBasicCluster,
      .kEEBasicCluster, .kEBSuperCluster, .kEESuperCluster]
    topology := some ⟨0⟩
    ebGeometry := some ⟨fun _ => ebCell 7⟩
    eeGeometry := some ⟨fun _ => eeCell 8⟩
    ebHits := ebHits
    eeHits := eeHits
    ievt := ievt
    massCalcPrescale := massCalcPrescale }

/-- A barrel cluster of energy 5 at `theta = pi/2`, `phi = 0`, seeded by barrel cell 1. -/
noncomputable def exBC1 : BasicCluster ℝ :=
  { position := ⟨1, 0, 0, Real.pi / 2, 0, 0⟩, energy := 5, size := 9, seed := ebCell 1 }

/-- A barrel cluster of energy 2 at `theta = pi/2`, `phi = pi`, seeded by barrel cell 2. -/
noncomputable def exBC2 : BasicCluster ℝ :=
  { position := ⟨-1, 0, 0, Real.pi / 2, Real.pi, 0⟩, energy := 2, size := 9, seed := ebCell 2 }

/-- A cluster of energy 1 seeded by endcap cell 3. -/
noncomputable def exBC3 : BasicCluster ℝ :=
  { position := ⟨0, 1, 3, Real.pi / 4, Real.pi / 2, 1⟩, energy := 1, size := 4,
    seed := eeCell 3 }

/-- A barrel hit collection: energy 1 in each of the barrel cells 1 and 2. -/
noncomputable def exHits : EcalRecHitCollection ℝ := [⟨ebCell 1, 1⟩, ⟨ebCell 2, 1⟩]

/-- A supercluster of energy 50 at `theta = pi/2`, `phi = 0` whose seed cluster is
`exBC1`. -/
noncomputable def exSC1 : SuperCluster ℝ :=
  { position := ⟨1, 0, 0, Real.pi / 2, 0, 0⟩, energy := 50, size := 20, clustersSize := 2,
    seed := exBC1 }

/-- A supercluster whose seed cluster is `exBC3`, seeded by an endcap cell. -/
noncomputable def exSC3 : SuperCluster ℝ :=
  { position := ⟨0, 1, 3, Real.pi / 4, Real.pi / 2, 1⟩, energy := 30, size := 12,
    clustersSize := 1, seed := exBC3 }

/-- A stand-in for `EcalClusterTools::e3x3`: the energy of the seed cluster. -/
def exE3x3 : BasicCluster ℝ → EcalRecHitCollection ℝ → Option CaloTopology → ℝ :=
  fun seed _ _ => seed.energy

/-- A cluster of energy 2 on the positive z axis (`theta = 0`). -/
noncomputable def exBCz1 : BasicCluster ℝ :=
  { position := ⟨0, 0, 1, 0, 0, 22757⟩, energy := 2, size := 1, seed := eeCell 21 }

/-- A cluster of energy 3 on the positive z axis (`theta = 0`). -/
noncomputable def exBCz2 : BasicCluster ℝ :=
  { position := ⟨0, 0, 1, 0, 0, 22757⟩, energy := 3, size := 1, seed := eeCell 22 }

/-- A barrel supercluster of transverse energy 5, seeded in barrel cell 1. -/
noncomputable def exSCa : SuperCluster ℝ :=
  { position := ⟨1, 0, 0, Real.pi / 2, 0, 0⟩, energy := 5, size := 20, clustersSize := 2,
    seed := exBC1 }

/-- A barrel supercluster of transverse energy 10, seeded in barrel cell 2. -/
noncomputable def exSCb : SuperCluster ℝ :=
  { position := ⟨-1, 0, 0, Real.pi / 2, Real.pi, 0⟩, energy := 10, size := 25,
    clustersSize := 3, seed := exBC2 }

/-- A barrel supercluster of transverse energy 3, seeded in barrel cell 5. -/
noncomputable def exSCc : SuperCluster ℝ :=
  { position := ⟨0, 1, 0, Real.pi / 2, Real.pi / 2, 0⟩, energy := 3, size := 10,
    clustersSize := 1,
    seed := { position := ⟨0, 1, 0, Real.pi / 2, Real.pi / 2, 0⟩, energy := 2, size := 9,
              seed := ebCell 5 } }

/-- A barrel hit collection: energy 1 in each of the barrel cells 1, 2 and 5. -/
noncomputable def exHits3 : EcalRecHitCollection ℝ :=
  [⟨ebCell 1, 1⟩, ⟨ebCell 2, 1⟩, ⟨ebCell 5, 1⟩]

/-- A parameter set with `massCalcPrescale = 1`. -/
def exParams : ParameterSet :=
  fun name => if name = "massCalcPrescale" then some 1 else none

/-- An event setup with a topology and both subdetector geometries. -/
def exSetup : EventSetup ℝ :=
  { topology := some ⟨0⟩
    ebGeometry := some ⟨fun _ => ebCell 7⟩
    eeGeometry := some ⟨fun _ => eeCell 8⟩ }

/-- The reflection `z -> -z` of a cluster: `theta` becomes `pi - theta` and `eta`
becomes `-eta`. -/
noncomputable def mirrorZ (bc : BasicCluster ℝ) : BasicCluster ℝ :=
  { bc with position := ⟨bc.position.x, bc.position.y, -bc.position.z,
      Real.pi - bc.position.theta, bc.position.phi, -bc.position.eta⟩ }

/-- A barrel supercluster of energy 50.2 at `theta = pi/2`, seeded in barrel cell 1. -/
noncomputable def exSCt1 : SuperCluster ℝ :=
  { position := ⟨1, 0, 0, Real.pi / 2, 0, 0⟩, energy := 50.2, size := 20, clustersSize := 2,
    seed := exBC1 }

/-- A second barrel supercluster of energy 50.2 at `theta = pi/2`, seeded in barrel
cell 2. -/
noncomputable def exSCt2 : SuperCluster ℝ :=
  { position := ⟨-1, 0, 0, Real.pi / 2, Real.pi, 0⟩, energy := 50.2, size := 25,
    clustersSize := 3, seed := exBC2 }

/-- A barrel supercluster of energy 50.2000005 at `theta = pi/2`, seeded in barrel
cell 1. -/
noncomputable def exSCn1 : SuperCluster ℝ :=
  { position := ⟨1, 0, 0, Real.pi / 2, 0, 0⟩, energy := 50.2000005, size := 20,
    clustersSize := 2, seed := exBC1 }

/-- A barrel supercluster of energy 50.2000001 at `theta = pi/2`, seeded in barrel
cell 2. -/
noncomputable def exSCn2 : SuperCluster ℝ :=
  { position := ⟨-1, 0, 0, Real.pi / 2, Real.pi, 0⟩, energy := 50.2000001, size := 25,
    clustersSize := 3, seed := exBC2 }

/-- A barrel supercluster of energy 50.2 at `theta = pi/2`, seeded in barrel cell 5. -/
noncomputable def exSCn3 : SuperCluster ℝ :=
  { position := ⟨0, 1, 0, Real.pi / 2, Real.pi / 2, 0⟩, energy := 50.2, size := 10,
    clustersSize := 1,
    seed := { position := ⟨0, 1, 0, Real.pi / 2, Real.pi / 2, 0⟩, energy := 2, size := 9,
              seed := ebCell 5 } }

/-! ## The loops, characterised -/

theorem resolveId_some {F : Type} (g : CaloSubdetectorGeometry F) (seed : DetId)
    (position : XYZPoint F) :
    resolveId (some g) seed position = .ok (resolvedCell g seed position) := by
  unfold resolveId resolvedCell
  split <;> rfl

section LoopLemmas

variable {F : Type} [LinearOrderedField F]

theorem regionMismatch_eq (isBarrel : Bool) (id : DetId) :
    regionMismatch isBarrel id = !retainedCell isBarrel id := by
  cases isBarrel <;> cases h : id.null <;>
    simp [regionMismatch, retainedCell, otherRegionTag, h, bne]

theorem bcBody_eq (st : ClusterTask F) (isBarrel : Bool) (g : CaloSubdetectorGeometry F)
    (hg : (if isBarrel then st.ebGeometry else st.eeGeometry) = some g)
    (i : Nat) (bc : BasicCluster F) (s : BCLoop F) (b : Bool)
    (hb : bcSelect st isBarrel (bcCell g bc) bc.energy = .ok b) :
    bcBody st isBarrel i bc s = .ok
      { fills := s.fills ++ (if bcRetained g isBarrel bc then bcFills (bcCell g bc) bc else [])
        nBC0 := s.nBC0 + (if bcRetained g isBarrel bc && !decide (bc.position.z > 0) then 1 else 0)
        nBC1 := s.nBC1 + (if bcRetained g isBarrel bc && decide (bc.position.z > 0) then 1 else 0)
        lowMassCands := s.lowMassCands ++
          (if bcRetained g isBarrel bc && b then [(i, bc)] else []) } := by
  unfold bcBody
  simp only [hg, resolveId_some, regionMismatch_eq, bcRetained, bcCell] at *
  rw [hb]
  by_cases hr : retainedCell isBarrel (resolvedCell g bc.seed bc.position) = true
  · by_cases hz : bc.position.z > 0 <;> cases b <;> simp [hr, hz]
  · simp [hr]

theorem bcBody_not_retained (st : ClusterTask F) (isBarrel : Bool)
    (g : CaloSubdetectorGeometry F)
    (hg : (if isBarrel then st.ebGeometry else st.eeGeometry) = some g)
    (i : Nat) (bc : BasicCluster F) (s : BCLoop F) (hr : bcRetained g isBarrel bc = false) :
    bcBody st isBarrel i bc s = .ok s := by
  unfold bcBody
  simp only [hg, resolveId_some, regionMismatch_eq, bcRetained, bcCell] at *
  simp [hr]

theorem bcBody_ok (st : ClusterTask F) (isBarrel : Bool) (g : CaloSubdetectorGeometry F)
    (hg : (if isBarrel then st.ebGeometry else st.eeGeometry) = some g)
    (i : Nat) (bc : BasicCluster F) (s s1 : BCLoop F)
    (h : bcBody st isBarrel i bc s = .ok s1) : s1 = bcNext st isBarrel g i bc s := by
  cases hr : bcRetained g isBarrel bc
  · rw [bcBody_not_retained st isBarrel g hg i bc s hr] at h
    cases h
    simp [bcNext, hr]
  · cases hb : bcSelect st isBarrel (bcCell g bc) bc.energy with
    | error e =>
      exfalso
      unfold bcBody at h
      simp only [hg, resolveId_some, regionMismatch_eq, bcRetained, bcCell] at *
      simp [hr, hb] at h
    | ok b =>
      rw [bcBody_eq st isBarrel g hg i bc s b hb] at h
      cases h
      simp [bcNext, hr, bcSelected, hb]
      cases b <;> simp

theorem bcSelect_total (st : ClusterTask F) (isBarrel : Bool) (id : DetId) (energy : F)
    (hh : st.prescaled = true ∨ ∃ h, (if isBarrel then st.ebHits else st.eeHits) = some h) :
    ∃ b, bcSelect st isBarrel id energy = .ok b := by
  unfold bcSelect
  rcases hh with hp | ⟨h, hh⟩
  · simp [hp]
  · rw [hh]
    split
    · exact ⟨_, rfl⟩
    · split
      · exact ⟨_, rfl⟩
      · simp only
        split
        · exact ⟨_, rfl⟩
        · split
          · exact ⟨_, rfl⟩
          · split <;> exact ⟨_, rfl⟩

theorem bcFinal_cons (st : ClusterTask F) (isBarrel : Bool) (g : CaloSubdetectorGeometry F)
    (i : Nat) (bc : BasicCluster F) (bcs : List (BasicCluster F)) (s : BCLoop F) :
    bcFinal st isBarrel g (i + 1) bcs (bcNext st isBarrel g i bc s)
      = bcFinal st isBarrel g i (bc :: bcs) s := by
  simp only [bcFinal, bcNext, List.flatMap_cons, List.countP_cons, List.enumFrom_cons,
    List.filter_cons, List.append_assoc]
  congr 1
  · omega
  · omega
  · congr 1
    split <;> simp

theorem bcLoop_ok (st : ClusterTask F) (isBarrel : Bool) (g : CaloSubdetectorGeometry F)
    (hg : (if isBarrel then st.ebGeometry else st.eeGeometry) = some g)
    (bcs : List (BasicCluster F)) : ∀ (i : Nat) (s s1 : BCLoop F),
    bcLoop st isBarrel i bcs s = .ok s1 → s1 = bcFinal st isBarrel g i bcs s := by
  induction bcs with
  | nil =>
    intro i s s1 h
    simp only [bcLoop] at h
    cases h
    simp [bcFinal]
  | cons bc rest ih =>
    intro i s s1 h
    simp only [bcLoop] at h
    cases hb : bcBody st isBarrel i bc s with
    | error e => simp [hb] at h
    | ok s2 =>
      simp only [hb] at h
      rw [ih (i + 1) s2 s1 h, bcBody_ok st isBarrel g hg i bc s s2 hb, bcFinal_cons]

theorem bcLoop_total (st : ClusterTask F) (isBarrel : Bool) (g : CaloSubdetectorGeometry F)
    (hg : (if isBarrel then st.ebGeometry else st.eeGeometry) = some g)
    (hh : st.prescaled = true ∨ ∃ h, (if isBarrel then st.ebHits else st.eeHits) = some h)
    (bcs : List (BasicCluster F)) : ∀ (i : Nat) (s : BCLoop F),
    bcLoop st isBarrel i bcs s = .ok (bcFinal st isBarrel g i bcs s) := by
  induction bcs with
  | nil => intro i s; simp [bcLoop, bcFinal]
  | cons bc rest ih =>
    intro i s
    obtain ⟨b, hb⟩ := bcSelect_total st isBarrel (bcCell g bc) bc.energy hh
    have h1 := bcBody_eq st isBarrel g hg i bc s b hb
    have h2 := bcBody_ok st isBarrel g hg i bc s _ h1
    simp only [bcLoop, h1]
    rw [ih, h2, bcFinal_cons]

theorem scBody_eq (lib : Libm F)
    (e3x3 : BasicCluster F → EcalRecHitCollection F → Option CaloTopology → F)
    (st : ClusterTask F) (g : CaloSubdetectorGeometry F) (isBarrel : Bool)
    (hg : (if isBarrel then st.ebGeometry else st.eeGeometry) = some g)
    (hits : Option (EcalRecHitCollection F)) (size : Nat) (sc : SuperCluster F) (s : SCLoop F) :
    scBody lib e3x3 st isBarrel hits size sc s
      = .ok (scNext lib e3x3 st g isBarrel hits size sc s) := by
  unfold scBody
  simp only [hg, resolveId_some, regionMismatch_eq]
  by_cases hr : retainedCell isBarrel (resolvedCell g sc.seed.seed sc.position) = true
  · cases hits with
    | none => simp [scNext, scAllFills, scMatched, scSeedHit, scRetained, scCell, hr]
    | some h =>
      cases hf : h.find (resolvedCell g sc.seed.seed sc.position) with
      | none => simp [scNext, scAllFills, scMatched, scSeedHit, scRetained, scCell, hr, hf]
      | some hit =>
        by_cases hp : st.prescaled = true <;>
          simp [scNext, scAllFills, scMatched, scSeedHit, scRetained, scCell, hr, hf, hp,
            trackStep]
  · simp [scNext, scAllFills, scMatched, scRetained, scCell, hr]

theorem scLoop_eq (lib : Libm F)
    (e3x3 : BasicCluster F → EcalRecHitCollection F → Option CaloTopology → F)
    (st : ClusterTask F) (g : CaloSubdetectorGeometry F) (isBarrel : Bool)
    (hg : (if isBarrel then st.ebGeometry else st.eeGeometry) = some g)
    (hits : Option (EcalRecHitCollection F)) (size : Nat) (scs : List (SuperCluster F)) :
    ∀ s : SCLoop F, scLoop lib e3x3 st isBarrel hits size scs s
      = .ok (scFinal lib e3x3 st g isBarrel hits size scs s) := by
  induction scs with
  | nil => intro s; cases hp : st.prescaled <;> simp [scLoop, scFinal, hp]
  | cons sc rest ih =>
    intro s
    simp only [scLoop, scBody_eq lib e3x3 st g isBarrel hg, ih]
    congr 1
    cases hp : st.prescaled <;> cases hm : scMatched g isBarrel hits sc <;>
      simp [scFinal, scNext, hp, hm, List.filter_cons, List.countP_cons, List.append_assoc] <;>
      omega

end LoopLemmas

theorem foldl_append_flatMap {α β : Type} (f : α → List β) (l : List α) :
    ∀ acc : List β, l.foldl (fun acc x => acc ++ f x) acc = acc ++ l.flatMap f := by
  induction l with
  | nil => intro acc; simp
  | cons x xs ih => intro acc; simp [ih, List.append_assoc]

theorem countP_split {α : Type} (p q : α → Bool) (l : List α) :
    l.countP (fun a => p a && !q a) + l.countP (fun a => p a && q a) = l.countP p := by
  induction l with
  | nil => simp
  | cons x xs ih =>
    simp only [List.countP_cons]
    cases p x <;> cases q x <;> simp <;> omega

section FillLemmas

variable {F : Type} [LinearOrderedField F]

theorem pairLoop_eq_flatMap (lib : Libm F) (bcs : List (BasicCluster F))
    (cands : List (Nat × BasicCluster F)) :
    pairLoop lib bcs cands
      = cands.flatMap (fun c1 => cands.flatMap (fun c2 => pairFills lib bcs c1 c2)) := by
  unfold pairLoop
  have h : ∀ (l : List (Nat × BasicCluster F)) (acc : List (Fill F)),
      l.foldl (fun acc c1 => cands.foldl (fun acc c2 => acc ++ pairFills lib bcs c1 c2) acc) acc
        = acc ++ l.flatMap (fun c1 => cands.flatMap (fun c2 => pairFills lib bcs c1 c2)) := by
    intro l
    induction l with
    | nil => intro acc; simp
    | cons x xs ih =>
      intro acc
      simp [ih, foldl_append_flatMap, List.append_assoc]
  simpa using h cands []

theorem bcFills_me (id : DetId) (bc : BasicCluster F) :
    ∀ f ∈ bcFills id bc, f.me ≠ .kBCNum ∧ f.me.isMass = false := by
  intro f hf
  simp only [bcFills, List.mem_cons, List.mem_singleton, List.mem_nil_iff, or_false] at hf
  rcases hf with h | h | h | h | h | h | h | h | h | h | h <;> subst h <;> simp [MESets.isMass]

theorem pairFills_me (lib : Libm F) (bcs : List (BasicCluster F)) (c1 c2 : Nat × BasicCluster F) :
    ∀ f ∈ pairFills lib bcs c1 c2, f.me = .kPi0 ∨ f.me = .kJPsi := by
  intro f hf
  unfold pairFills at hf
  split at hf
  · simp only [List.mem_cons, List.mem_singleton, List.mem_nil_iff, or_false] at hf
    rcases hf with h | h <;> subst h <;> simp
  · simp at hf

theorem pairLoop_me (lib : Libm F) (bcs : List (BasicCluster F))
    (cands : List (Nat × BasicCluster F)) :
    ∀ f ∈ pairLoop lib bcs cands, f.me = .kPi0 ∨ f.me = .kJPsi := by
  intro f hf
  rw [pairLoop_eq_flatMap] at hf
  simp only [List.mem_flatMap] at hf
  obtain ⟨c1, _, c2, _, h⟩ := hf
  exact pairFills_me lib bcs c1 c2 f h

theorem bcFinal_fills_me (st : ClusterTask F) (isBarrel : Bool) (g : CaloSubdetectorGeometry F)
    (bcs : List (BasicCluster F)) :
    ∀ f ∈ (bcFinal st isBarrel g 0 bcs ⟨[], 0, 0, []⟩).fills,
      f.me ≠ .kBCNum ∧ f.me.isMass = false := by
  intro f hf
  simp only [bcFinal, List.nil_append, List.mem_flatMap] at hf
  obtain ⟨bc, _, h⟩ := hf
  split at h
  · exact bcFills_me _ _ f h
  · simp at h

/-- The value of `runOnBasicClusters` when the region's geometry is present and the hit
buffer is present or the event is prescaled away. -/
theorem runOnBasicClusters_eq (lib : Libm F) (st : ClusterTask F) (g : CaloSubdetectorGeometry F)
    (bcs : List (BasicCluster F)) (_collection : Collections)
    (hg : (if _collection = .kEBBasicCluster then st.ebGeometry else st.eeGeometry) = some g)
    (hh : st.prescaled = true ∨
      ∃ h, (if _collection = .kEBBasicCluster then st.ebHits else st.eeHits) = some h) :
    runOnBasicClusters lib st bcs _collection = .ok
      ((bcFinal st (decide (_collection = .kEBBasicCluster)) g 0 bcs ⟨[], 0, 0, []⟩).fills
        ++ bcNumFills (decide (_collection = .kEBBasicCluster))
            (bcFinal st (decide (_collection = .kEBBasicCluster)) g 0 bcs ⟨[], 0, 0, []⟩)
        ++ (if st.prescaled then [] else pairLoop lib bcs
            (bcFinal st (decide (_collection = .kEBBasicCluster)) g 0 bcs ⟨[], 0, 0, []⟩).lowMassCands)) := by
  unfold runOnBasicClusters
  have hg1 : (if decide (_collection = .kEBBasicCluster) = true then st.ebGeometry
      else st.eeGeometry) = some g := by simpa using hg
  have hh1 : st.prescaled = true ∨ ∃ h, (if decide (_collection = .kEBBasicCluster) = true
      then st.ebHits else st.eeHits) = some h := by simpa using hh
  simp only [bcLoop_total st _ g hg1 hh1 bcs 0 _]
  split <;> simp

/-- The value of `runOnBasicClusters` whenever it returns, the region's geometry being
present. -/
theorem runOnBasicClusters_ok (lib : Libm F) (st : ClusterTask F) (g : CaloSubdetectorGeometry F)
    (bcs : List (BasicCluster F)) (_collection : Collections)
    (hg : (if _collection = .kEBBasicCluster then st.ebGeometry else st.eeGeometry) = some g)
    (fills : List (Fill F)) (h : runOnBasicClusters lib st bcs _collection = .ok fills) :
    fills =
      (bcFinal st (decide (_collection = .kEBBasicCluster)) g 0 bcs ⟨[], 0, 0, []⟩).fills
        ++ bcNumFills (decide (_collection = .kEBBasicCluster))
            (bcFinal st (decide (_collection = .kEBBasicCluster)) g 0 bcs ⟨[], 0, 0, []⟩)
        ++ (if st.prescaled then [] else pairLoop lib bcs
            (bcFinal st (decide (_collection = .kEBBasicCluster)) g 0 bcs
              ⟨[], 0, 0, []⟩).lowMassCands) := by
  have hg1 : (if decide (_collection = .kEBBasicCluster) = true then st.ebGeometry
      else st.eeGeometry) = some g := by simpa using hg
  unfold runOnBasicClusters at h
  simp only at h
  cases hl : bcLoop st (decide (_collection = .kEBBasicCluster)) 0 bcs ⟨[], 0, 0, []⟩ with
  | error e => simp [hl] at h
  | ok s =>
    have hs := bcLoop_ok st _ g hg1 bcs 0 _ s hl
    simp only [hl] at h
    subst hs
    split at h <;> cases h <;> simp [*]

theorem regionMismatch_of_discarded (isBarrel : Bool) (id : DetId)
    (h : id.null = true ∨ id.subdetId = otherRegionTag isBarrel) :
    regionMismatch isBarrel id = true := by
  rw [regionMismatch_eq]
  rcases h with h | h <;> simp [retainedCell, h]

theorem trackStep_fst (lib : Libm F) (p : Option (SuperCluster F) × Option (SuperCluster F))
    (sc : SuperCluster F) :
    (trackStep lib p sc).1 = some sc ∨ (trackStep lib p sc).1 = p.1 := by
  unfold trackStep trackLeading
  simp only
  split
  · left; rfl
  · split <;> (right; rfl)

theorem trackStep_snd (lib : Libm F) (p : Option (SuperCluster F) × Option (SuperCluster F))
    (sc : SuperCluster F) :
    (trackStep lib p sc).2 = some sc ∨ (trackStep lib p sc).2 = p.1 ∨
      (trackStep lib p sc).2 = p.2 := by
  unfold trackStep trackLeading
  simp only
  split
  · right; left; rfl
  · split
    · left; rfl
    · right; right; rfl

theorem trackStep_foldl_mem (lib : Libm F) (l : List (SuperCluster F)) :
    ∀ (p : Option (SuperCluster F) × Option (SuperCluster F)) (sc : SuperCluster F),
      ((l.foldl (trackStep lib) p).1 = some sc ∨ (l.foldl (trackStep lib) p).2 = some sc) →
      sc ∈ l ∨ p.1 = some sc ∨ p.2 = some sc := by
  induction l with
  | nil => intro p sc h; right; simpa using h
  | cons x xs ih =>
    intro p sc h
    rw [List.foldl_cons] at h
    rcases ih _ sc h with h1 | h1 | h1
    · left; exact List.mem_cons_of_mem _ h1
    · rcases trackStep_fst lib p x with h2 | h2
      · rw [h2] at h1; cases h1; left; exact List.mem_cons_self _ _
      · rw [h2] at h1; right; left; exact h1
    · rcases trackStep_snd lib p x with h2 | h2 | h2
      · rw [h2] at h1; cases h1; left; exact List.mem_cons_self _ _
      · rw [h2] at h1; right; left; exact h1
      · rw [h2] at h1; right; right; exact h1

theorem scAllFills_me
    (e3x3 : BasicCluster F → EcalRecHitCollection F → Option CaloTopology → F)
    (st : ClusterTask F) (g : CaloSubdetectorGeometry F) (isBarrel : Bool)
    (hits : Option (EcalRecHitCollection F)) (size : Nat) (sc : SuperCluster F) :
    ∀ f ∈ scAllFills e3x3 st g isBarrel hits size sc, f.me ≠ .kSCNum ∧ f.me.isMass = false := by
  intro f hf
  unfold scAllFills at hf
  split at hf
  · rw [List.mem_append] at hf
    rcases hf with hf | hf
    · simp only [scFills, List.mem_cons, List.mem_singleton, List.mem_nil_iff, or_false] at hf
      rcases hf with h | h | h | h <;> subst h <;> simp [MESets.isMass]
    · split at hf
      · simp at hf
      · split at hf
        · simp at hf
        · simp only [scSeedFills, List.mem_append, List.mem_cons, List.mem_singleton,
            List.mem_nil_iff, or_false] at hf
          rcases hf with (((h | h | h) | h) | h)
          · subst h; simp [MESets.isMass]
          · subst h; simp [MESets.isMass]
          · subst h; simp [MESets.isMass]
          · split at h
            · simp only [List.mem_singleton] at h
              subst h; simp [MESets.isMass]
            · simp at h
          · subst h; simp [MESets.isMass]
  · simp at hf

theorem scMassFills_me (lib : Libm F) (s : SCLoop F) :
    ∀ f ∈ scMassFills lib s, f.me = .kZ ∨ f.me = .kHighMass := by
  intro f hf
  unfold scMassFills at hf
  split at hf
  · simp only [List.mem_cons, List.mem_singleton, List.mem_nil_iff, or_false] at hf
    rcases hf with h | h <;> subst h <;> simp
  · simp at hf

/-- The value of `runOnSuperClusters` when the region's geometry is present. -/
theorem runOnSuperClusters_eq (lib : Libm F)
    (e3x3 : BasicCluster F → EcalRecHitCollection F → Option CaloTopology → F)
    (st : ClusterTask F) (g : CaloSubdetectorGeometry F) (scs : List (SuperCluster F))
    (_collection : Collections)
    (hg : (if _collection = .kEBSuperCluster then st.ebGeometry else st.eeGeometry) = some g) :
    runOnSuperClusters lib e3x3 st scs _collection = .ok
      ((scFinal lib e3x3 st g (decide (_collection = .kEBSuperCluster))
          (if _collection = .kEBSuperCluster then st.ebHits else st.eeHits) scs.length scs
          ⟨[], 0, none, none⟩).fills
        ++ [⟨.kSCNum, .bin (if _collection = .kEBSuperCluster then .kEB else .kEE)
            (scs.countP (scMatched g (decide (_collection = .kEBSuperCluster))
              (if _collection = .kEBSuperCluster then st.ebHits else st.eeHits)))⟩]
        ++ (if st.prescaled then [] else scMassFills lib
            (scFinal lib e3x3 st g (decide (_collection = .kEBSuperCluster))
              (if _collection = .kEBSuperCluster then st.ebHits else st.eeHits) scs.length scs
              ⟨[], 0, none, none⟩))) := by
  unfold runOnSuperClusters
  have hg1 : (if decide (_collection = .kEBSuperCluster) = true then st.ebGeometry
      else st.eeGeometry) = some g := by simpa using hg
  simp only [scLoop_eq lib e3x3 st g _ hg1]
  by_cases hc : _collection = .kEBSuperCluster <;> cases hp : st.prescaled <;>
    simp [hc, hp, scFinal]

theorem bcSelected_prescaled (st : ClusterTask F) (isBarrel : Bool) (id : DetId) (energy : F)
    (hp : st.prescaled = true) : bcSelected st isBarrel id energy = false := by
  simp [bcSelected, bcSelect, hp]

theorem bcFinal_cands_prescaled (st : ClusterTask F) (isBarrel : Bool)
    (g : CaloSubdetectorGeometry F) (bcs : List (BasicCluster F)) (hp : st.prescaled = true) :
    (bcFinal st isBarrel g 0 bcs ⟨[], 0, 0, []⟩).lowMassCands = [] := by
  simp [bcFinal, bcSelected_prescaled st isBarrel _ _ hp]

theorem ptpair_comm (lib : Libm F) (bc1 bc2 : BasicCluster F) :
    ptpair lib bc1 bc2 = ptpair lib bc2 bc1 := by
  simp only [ptpair, add_comm (px lib bc1), add_comm (py lib bc1)]

theorem epair_comm (bc1 bc2 : BasicCluster F) : epair bc1 bc2 = epair bc2 bc1 := by
  simp only [epair, add_comm]

theorem pzpair_comm (lib : Libm F) (bc1 bc2 : BasicCluster F) :
    pzpair lib bc1 bc2 = pzpair lib bc2 bc1 := by
  simp only [pzpair, add_comm (pz lib bc1)]

theorem pairEta_comm (lib : Libm F) (bc1 bc2 : BasicCluster F) :
    pairEta lib bc1 bc2 = pairEta lib bc2 bc1 := by
  simp only [pairEta, epair_comm bc1 bc2, pzpair_comm lib bc1 bc2]

theorem pairPhi_comm (lib : Libm F) (bc1 bc2 : BasicCluster F) :
    pairPhi lib bc1 bc2 = pairPhi lib bc2 bc1 := by
  simp only [pairPhi, add_comm (px lib bc1), add_comm (py lib bc1)]

theorem pairIso_comm (lib : Libm F) (bcs : List (BasicCluster F)) (bc1 bc2 : BasicCluster F) :
    pairIso lib bcs bc1 bc2 = pairIso lib bcs bc2 bc1 := by
  simp only [pairIso, pairEta_comm lib bc1 bc2, pairPhi_comm lib bc1 bc2]

theorem pairMass_comm (lib : Libm F) (bc1 bc2 : BasicCluster F) :
    pairMass lib bc1 bc2 = pairMass lib bc2 bc1 := by
  simp only [pairMass, pairMassSq, epair_comm bc1 bc2, pzpair_comm lib bc1 bc2,
    ptpair_comm lib bc1 bc2]

theorem pairOutcome_comm (lib : Libm F) (bcs : List (BasicCluster F))
    (c1 c2 : Nat × BasicCluster F) :
    pairOutcome lib bcs c1 c2 = pairOutcome lib bcs c2 c1 := by
  unfold pairOutcome
  simp only [eq_comm (a := c1.1), ptpair_comm lib c1.2 c2.2, epair_comm c1.2 c2.2,
    pzpair_comm lib c1.2 c2.2, pairEta_comm lib c1.2 c2.2, pairPhi_comm lib c1.2 c2.2,
    pairIso_comm lib bcs c1.2 c2.2, pairMass_comm lib c1.2 c2.2]

theorem pairFills_self (lib : Libm F) (bcs : List (BasicCluster F))
    (c : Nat × BasicCluster F) : pairFills lib bcs c c = [] := by
  simp [pairFills, pairOutcome]

end FillLemmas

/-! ## The isolation sum, the two highest transverse energies, the geometry pointers -/

theorem resolveId_seed {G : Type} (subgeom : Option (CaloSubdetectorGeometry G)) (seed : DetId)
    (position : XYZPoint G) (h : seed.null = false) :
    resolveId subgeom seed position = .ok seed := by
  simp [resolveId, h]

theorem prescaled_congr {F : Type} (st1 st2 : ClusterTask F) (h : SameButGeometry st1 st2) :
    st1.prescaled = st2.prescaled := by
  obtain ⟨_, _, _, h4, h5⟩ := h
  simp [ClusterTask.prescaled, h4, h5]

theorem getElem?_snoc_cases {α : Type} (l : List α) (x y : α) (j : Nat)
    (h : (l ++ [x])[j]? = some y) :
    (j < l.length ∧ l[j]? = some y) ∨ (j = l.length ∧ y = x) := by
  by_cases hj : j < l.length
  · left
    rw [List.getElem?_append_left hj] at h
    exact ⟨hj, h⟩
  · right
    rw [List.getElem?_append_right (not_lt.mp hj)] at h
    have hlt : j - l.length < 1 := by
      by_contra hc
      rw [List.getElem?_eq_none (by simpa using not_lt.mp hc)] at h
      cases h
    have h0 : j - l.length = 0 := by omega
    rw [h0] at h
    simp at h
    exact ⟨by omega, h.symm⟩

theorem getElem?_snoc_left {α : Type} (l : List α) (x a : α) (i : Nat)
    (h : l[i]? = some a) : (l ++ [x])[i]? = some a := by
  have hi : i < l.length := by
    by_contra hc
    rw [List.getElem?_eq_none (not_lt.mp hc)] at h
    cases h
  rw [List.getElem?_append_left hi]
  exact h

theorem getElem?_snoc_last {α : Type} (l : List α) (x : α) :
    (l ++ [x])[l.length]? = some x := by
  simp

theorem getElem?_lt {α : Type} (l : List α) (a : α) (i : Nat) (h : l[i]? = some a) :
    i < l.length := by
  by_contra hc
  rw [List.getElem?_eq_none (not_lt.mp hc)] at h
  cases h

theorem existsUnique_entry {α β : Type} (t : List (α × β)) (h : (t.map Prod.snd).Nodup)
    (m : β) (hm : m ∈ t.map Prod.snd) : ∃! e, e ∈ t ∧ e.2 = m := by
  obtain ⟨e, he, hem⟩ := List.mem_map.1 hm
  refine ⟨e, ⟨he, hem⟩, ?_⟩
  rintro e' ⟨he', hem'⟩
  exact List.inj_on_of_nodup_map h he' he (hem'.trans hem.symm)

section TrackingLemmas

variable {F : Type} [LinearOrderedField F]

theorem trackStep_none (lib : Libm F) (x : SuperCluster F) :
    trackStep lib (none, none) x = (some x, none) := by
  simp [trackStep, trackLeading]

theorem trackStep_gt (lib : Libm F) (a x : SuperCluster F) (s : Option (SuperCluster F))
    (h : etFloat lib x > scEt lib a) : trackStep lib (some a, s) x = (some x, some a) := by
  simp [trackStep, trackLeading, h]

theorem trackStep_le_none (lib : Libm F) (a x : SuperCluster F)
    (h : ¬ etFloat lib x > scEt lib a) : trackStep lib (some a, none) x = (some a, some x) := by
  simp [trackStep, trackLeading, h]

theorem trackStep_le_gt (lib : Libm F) (a b x : SuperCluster F)
    (h : ¬ etFloat lib x > scEt lib a) (h2 : etFloat lib x > scEt lib b) :
    trackStep lib (some a, some b) x = (some a, some x) := by
  simp [trackStep, trackLeading, h, h2]

theorem trackStep_le_le (lib : Libm F) (a b x : SuperCluster F)
    (h : ¬ etFloat lib x > scEt lib a) (h2 : ¬ etFloat lib x > scEt lib b) :
    trackStep lib (some a, some b) x = (some a, some b) := by
  simp [trackStep, trackLeading, h, h2]

theorem isLeadingPair_snoc (lib : Libm F) (l : List (SuperCluster F))
    (p : Option (SuperCluster F) × Option (SuperCluster F)) (x : SuperCluster F)
    (hx : etFloat lib x = scEt lib x)
    (h : IsLeadingPair lib l p) : IsLeadingPair lib (l ++ [x]) (trackStep lib p x) := by
  obtain ⟨hnil, hcons⟩ := h
  refine ⟨fun hc => absurd hc (by simp), fun _ => ?_⟩
  by_cases hl : l = []
  · subst hl
    rw [hnil rfl, trackStep_none]
    refine ⟨0, x, by simp, rfl, ?_, ?_, fun _ => rfl, fun h2 => ?_⟩
    · intro j y hy
      rcases getElem?_snoc_cases [] x y j hy with ⟨hj, _⟩ | ⟨_, rfl⟩
      · simp at hj
      · exact le_refl _
    · intro j y hj _
      omega
    · simp at h2
  · obtain ⟨i, a, hia, hp1, hmax, hfirst, hshort, hlong⟩ := hcons hl
    have hi : i < l.length := getElem?_lt l a i hia
    obtain ⟨p1, p2⟩ := p
    simp only at hp1 hshort hlong
    subst hp1
    by_cases hgt : scEt lib x > scEt lib a
    · -- the new supercluster takes the lead
      rw [trackStep_gt lib a x p2 (by rw [hx]; exact hgt)]
      refine ⟨l.length, x, getElem?_snoc_last l x, rfl, ?_, ?_, ?_, fun _ => ?_⟩
      · intro j y hy
        rcases getElem?_snoc_cases l x y j hy with ⟨_, hy'⟩ | ⟨_, rfl⟩
        · exact le_of_lt (lt_of_le_of_lt (hmax j y hy') hgt)
        · exact le_refl _
      · intro j y hj hy
        rcases getElem?_snoc_cases l x y j hy with ⟨_, hy'⟩ | ⟨hj', _⟩
        · exact lt_of_le_of_lt (hmax j y hy') hgt
        · omega
      · intro h2
        simp at h2
        omega
      · refine ⟨i, a, by omega, getElem?_snoc_left l x a i hia, rfl, ?_, ?_⟩
        · intro j y hj hy
          rcases getElem?_snoc_cases l x y j hy with ⟨_, hy'⟩ | ⟨hj', _⟩
          · exact hmax j y hy'
          · exact absurd hj' hj
        · intro j y hj _ hy
          rcases getElem?_snoc_cases l x y j hy with ⟨_, hy'⟩ | ⟨hj', _⟩
          · exact hfirst j y hj hy'
          · omega
    · -- the lead is kept
      have hle : scEt lib x ≤ scEt lib a := not_lt.mp hgt
      have hmax' : ∀ (j : Nat) (y : SuperCluster F), (l ++ [x])[j]? = some y →
          scEt lib y ≤ scEt lib a := by
        intro j y hy
        rcases getElem?_snoc_cases l x y j hy with ⟨_, hy'⟩ | ⟨_, rfl⟩
        · exact hmax j y hy'
        · exact hle
      have hfirst' : ∀ (j : Nat) (y : SuperCluster F), j < i → (l ++ [x])[j]? = some y →
          scEt lib y < scEt lib a := by
        intro j y hj hy
        rcases getElem?_snoc_cases l x y j hy with ⟨_, hy'⟩ | ⟨hj', _⟩
        · exact hfirst j y hj hy'
        · omega
      have hlen2 : ¬ (l ++ [x]).length < 2 := by
        simp; omega
      by_cases hlen : l.length < 2
      · -- the second supercluster becomes sub-leading
        have hp2 : p2 = none := hshort hlen
        subst hp2
        rw [trackStep_le_none lib a x (by rw [hx]; exact hgt)]
        have hl1 : l.length = 1 := by omega
        have hi0 : i = 0 := by omega
        refine ⟨i, a, getElem?_snoc_left l x a i hia, rfl, hmax', hfirst',
          fun h2 => absurd h2 hlen2, fun _ => ?_⟩
        refine ⟨l.length, x, by omega, getElem?_snoc_last l x, rfl, ?_, ?_⟩
        · intro j y hj hy
          rcases getElem?_snoc_cases l x y j hy with ⟨hj', _⟩ | ⟨_, rfl⟩
          · omega
          · exact le_refl _
        · intro j y hj hj' _
          omega
      · obtain ⟨k, b, hki, hkb, hp2, hsmax, hsfirst⟩ := hlong (by omega)
        have hk : k < l.length := getElem?_lt l b k hkb
        subst hp2
        by_cases hgt2 : scEt lib x > scEt lib b
        · rw [trackStep_le_gt lib a b x (by rw [hx]; exact hgt) (by rw [hx]; exact hgt2)]
          refine ⟨i, a, getElem?_snoc_left l x a i hia, rfl, hmax', hfirst',
            fun h2 => absurd h2 hlen2, fun _ => ?_⟩
          refine ⟨l.length, x, by omega, getElem?_snoc_last l x, rfl, ?_, ?_⟩
          · intro j y hj hy
            rcases getElem?_snoc_cases l x y j hy with ⟨_, hy'⟩ | ⟨_, rfl⟩
            · exact le_of_lt (lt_of_le_of_lt (hsmax j y hj hy') hgt2)
            · exact le_refl _
          · intro j y hj hj' hy
            rcases getElem?_snoc_cases l x y j hy with ⟨_, hy'⟩ | ⟨hj'', _⟩
            · exact lt_of_le_of_lt (hsmax j y hj' hy') hgt2
            · omega
        · rw [trackStep_le_le lib a b x (by rw [hx]; exact hgt) (by rw [hx]; exact hgt2)]
          refine ⟨i, a, getElem?_snoc_left l x a i hia, rfl, hmax', hfirst',
            fun h2 => absurd h2 hlen2, fun _ => ?_⟩
          refine ⟨k, b, hki, getElem?_snoc_left l x b k hkb, rfl, ?_, ?_⟩
          · intro j y hj hy
            rcases getElem?_snoc_cases l x y j hy with ⟨_, hy'⟩ | ⟨_, rfl⟩
            · exact hsmax j y hj hy'
            · exact not_lt.mp hgt2
          · intro j y hj hj' hy
            rcases getElem?_snoc_cases l x y j hy with ⟨_, hy'⟩ | ⟨hj'', _⟩
            · exact hsfirst j y hj hj' hy'
            · omega

theorem isLeadingPair_foldl (lib : Libm F) (l : List (SuperCluster F))
    (hl : ∀ x ∈ l, etFloat lib x = scEt lib x) :
    IsLeadingPair lib l (l.foldl (trackStep lib) (none, none)) := by
  induction l using List.reverseRecOn with
  | nil =>
    refine ⟨fun _ => rfl, fun h => absurd rfl h⟩
  | append_singleton l x ih =>
    rw [List.foldl_append]
    exact isLeadingPair_snoc lib l _ x (hl x (by simp))
      (ih (fun y hy => hl y (List.mem_append_left _ hy)))

theorem trackStep_foldl_snd_none (lib : Libm F) (l : List (SuperCluster F))
    (h : l.length < 2) : (l.foldl (trackStep lib) (none, none)).2 = none := by
  match l, h with
  | [], _ => rfl
  | [x], _ => simp [trackStep_none]
  | _ :: _ :: _, h => exact absurd h (by simp)

theorem scFinal_fills_filter_mass
    (lib : Libm F) (e3x3 : BasicCluster F → EcalRecHitCollection F → Option CaloTopology → F)
    (st : ClusterTask F) (g : CaloSubdetectorGeometry F) (isBarrel : Bool)
    (hits : Option (EcalRecHitCollection F)) (size : Nat) (scs : List (SuperCluster F)) :
    List.filter (fun f : Fill F => f.me == .kZ || f.me == .kHighMass)
      (scFinal lib e3x3 st g isBarrel hits size scs ⟨[], 0, none, none⟩).fills = [] := by
  rw [List.filter_eq_nil_iff]
  intro f hf
  simp only [scFinal, List.nil_append, List.mem_flatMap] at hf
  obtain ⟨sc, _, h⟩ := hf
  have hm := (scAllFills_me e3x3 st g isBarrel hits size sc f h).2
  intro hc
  simp only [Bool.or_eq_true, beq_iff_eq] at hc
  rcases hc with hc | hc <;> simp [hc, MESets.isMass] at hm

theorem bcBody_congr (st1 st2 : ClusterTask F) (h : SameButGeometry st1 st2) (isBarrel : Bool)
    (i : Nat) (bc : BasicCluster F) (s : BCLoop F) (hseed : bc.seed.null = false) :
    bcBody st1 isBarrel i bc s = bcBody st2 isBarrel i bc s := by
  have hp := prescaled_congr st1 st2 h
  obtain ⟨_, h2, h3, _, _⟩ := h
  simp only [bcBody, bcSelect, resolveId_seed _ _ _ hseed, hp, h2, h3]

theorem bcLoop_congr (st1 st2 : ClusterTask F) (h : SameButGeometry st1 st2) (isBarrel : Bool)
    (bcs : List (BasicCluster F)) (hseed : ∀ bc ∈ bcs, bc.seed.null = false) :
    ∀ (i : Nat) (s : BCLoop F), bcLoop st1 isBarrel i bcs s = bcLoop st2 isBarrel i bcs s := by
  induction bcs with
  | nil => intro i s; rfl
  | cons bc rest ih =>
    intro i s
    simp only [bcLoop, bcBody_congr st1 st2 h isBarrel i bc s (hseed bc (List.mem_cons_self _ _))]
    cases bcBody st2 isBarrel i bc s with
    | error e => rfl
    | ok s1 => exact ih (fun b hb => hseed b (List.mem_cons_of_mem _ hb)) (i + 1) s1

theorem scBody_congr (lib : Libm F)
    (e3x3 : BasicCluster F → EcalRecHitCollection F → Option CaloTopology → F)
    (st1 st2 : ClusterTask F) (h : SameButGeometry st1 st2) (isBarrel : Bool)
    (hits : Option (EcalRecHitCollection F)) (size : Nat) (sc : SuperCluster F) (s : SCLoop F)
    (hseed : sc.seed.seed.null = false) :
    scBody lib e3x3 st1 isBarrel hits size sc s = scBody lib e3x3 st2 isBarrel hits size sc s := by
  have hp := prescaled_congr st1 st2 h
  obtain ⟨h1, _, _, _, _⟩ := h
  simp only [scBody, scSeedFills, resolveId_seed _ _ _ hseed, hp, h1]

theorem scLoop_congr (lib : Libm F)
    (e3x3 : BasicCluster F → EcalRecHitCollection F → Option CaloTopology → F)
    (st1 st2 : ClusterTask F) (h : SameButGeometry st1 st2) (isBarrel : Bool)
    (hits : Option (EcalRecHitCollection F)) (size : Nat) (scs : List (SuperCluster F))
    (hseed : ∀ sc ∈ scs, sc.seed.seed.null = false) :
    ∀ s : SCLoop F, scLoop lib e3x3 st1 isBarrel hits size scs s
      = scLoop lib e3x3 st2 isBarrel hits size scs s := by
  induction scs with
  | nil => intro s; rfl
  | cons sc rest ih =>
    intro s
    simp only [scLoop, scBody_congr lib e3x3 st1 st2 h isBarrel hits size sc s
      (hseed sc (List.mem_cons_self _ _))]
    cases scBody lib e3x3 st2 isBarrel hits size sc s with
    | error e => rfl
    | ok s1 => exact ih (fun b hb => hseed b (List.mem_cons_of_mem _ hb)) s1

end TrackingLemmas

/-! ## The metric ordering, evaluated -/

theorem setMEOrdering_nil :
    setMEOrdering [] =
      [("BCEMap", .kBCEMap), ("BCEMapProjEta", .kBCEMapProjEta),
       ("BCEMapProjPhi", .kBCEMapProjPhi), ("BCOccupancy", .kBCOccupancy),
       ("BCOccupancyProjEta", .kBCOccupancyProjEta),
       ("BCOccupancyProjPhi", .kBCOccupancyProjPhi), ("BCSizeMap", .kBCSizeMap),
       ("BCSizeMapProjEta", .kBCSizeMapProjEta), ("BCSizeMapProjPhi", .kBCSizeMapProjPhi),
       ("BCE", .kBCE), ("BCNum", .kBCNum), ("BCSize", .kBCSize), ("SCE", .kSCE),
       ("SCELow", .kSCELow), ("SCSeedEnergy", .kSCSeedEnergy),
       ("SCClusterVsSeed", .kSCClusterVsSeed), ("SCSeedOccupancy", .kSCSeedOccupancy),
       ("SingleCrystalCluster", .kSingleCrystalCluster), ("SCNum", .kSCNum),
       ("SCNBCs", .kSCNBCs), ("SCNcrystals", .kSCNcrystals), ("SCR9", .kSCR9),
       ("Pi0", .kPi0), ("JPsi", .kJPsi), ("Z", .kZ), ("HighMass", .kHighMass)] := by
  decide

theorem setMEOrdering_values : ∀ m : MESets, m ∈ (setMEOrdering []).map Prod.snd := by
  rw [setMEOrdering_nil]
  intro m
  cases m <;> decide

theorem setMEOrdering_values_nodup : ((setMEOrdering []).map Prod.snd).Nodup := by
  rw [setMEOrdering_nil]
  decide

/-! ## Exact real arithmetic -/

theorem pairMassSq_real (bc1 bc2 : BasicCluster ℝ) :
    pairMassSq realLibm bc1 bc2 =
      (bc1.energy + bc2.energy) ^ 2
      - (bc1.energy * Real.sin bc1.position.theta * Real.cos bc1.position.phi
          + bc2.energy * Real.sin bc2.position.theta * Real.cos bc2.position.phi) ^ 2
      - (bc1.energy * Real.sin bc1.position.theta * Real.sin bc1.position.phi
          + bc2.energy * Real.sin bc2.position.theta * Real.sin bc2.position.phi) ^ 2
      - (bc1.energy * Real.cos bc1.position.theta
          + bc2.energy * Real.cos bc2.position.theta) ^ 2 := by
  simp only [pairMassSq, pzpair, ptpair, epair, px, py, pz, realLibm, abs_mul_abs_self]
  rw [Real.mul_self_sqrt (add_nonneg (mul_self_nonneg _) (mul_self_nonneg _))]
  ring

/-- The radicand of the summed four-momentum of two massless particles of non-negative
energies is non-negative. -/
theorem fourMomentum_radicand_nonneg (e1 e2 t1 t2 f1 f2 : ℝ) (h1 : 0 ≤ e1) (h2 : 0 ≤ e2) :
    0 ≤ (e1 + e2) ^ 2
      - (e1 * Real.sin t1 * Real.cos f1 + e2 * Real.sin t2 * Real.cos f2) ^ 2
      - (e1 * Real.sin t1 * Real.sin f1 + e2 * Real.sin t2 * Real.sin f2) ^ 2
      - (e1 * Real.cos t1 + e2 * Real.cos t2) ^ 2 := by
  have hs1 := Real.sin_sq_add_cos_sq t1
  have hs2 := Real.sin_sq_add_cos_sq t2
  have hf1 := Real.sin_sq_add_cos_sq f1
  have hf2 := Real.sin_sq_add_cos_sq f2
  have hdot : 2 * (1 - (Real.sin t1 * Real.sin t2 * (Real.cos f1 * Real.cos f2
        + Real.sin f1 * Real.sin f2) + Real.cos t1 * Real.cos t2))
      = (Real.sin t1 * Real.cos f1 - Real.sin t2 * Real.cos f2) ^ 2
        + (Real.sin t1 * Real.sin f1 - Real.sin t2 * Real.sin f2) ^ 2
        + (Real.cos t1 - Real.cos t2) ^ 2 := by
    linear_combination (-(Real.sin t1) ^ 2) * hf1 + (-(Real.sin t2) ^ 2) * hf2 - hs1 - hs2
  have hnn : 0 ≤ 1 - (Real.sin t1 * Real.sin t2 * (Real.cos f1 * Real.cos f2
        + Real.sin f1 * Real.sin f2) + Real.cos t1 * Real.cos t2) := by
    nlinarith [sq_nonneg (Real.sin t1 * Real.cos f1 - Real.sin t2 * Real.cos f2),
      sq_nonneg (Real.sin t1 * Real.sin f1 - Real.sin t2 * Real.sin f2),
      sq_nonneg (Real.cos t1 - Real.cos t2)]
  have hrad : (e1 + e2) ^ 2
      - (e1 * Real.sin t1 * Real.cos f1 + e2 * Real.sin t2 * Real.cos f2) ^ 2
      - (e1 * Real.sin t1 * Real.sin f1 + e2 * Real.sin t2 * Real.sin f2) ^ 2
      - (e1 * Real.cos t1 + e2 * Real.cos t2) ^ 2
      = 2 * (e1 * e2) * (1 - (Real.sin t1 * Real.sin t2 * (Real.cos f1 * Real.cos f2
        + Real.sin f1 * Real.sin f2) + Real.cos t1 * Real.cos t2)) := by
    linear_combination e1 ^ 2 * ((-(Real.sin t1) ^ 2) * hf1 - hs1)
      + e2 ^ 2 * ((-(Real.sin t2) ^ 2) * hf2 - hs2)
  rw [hrad]
  exact mul_nonneg (mul_nonneg (by norm_num) (mul_nonneg h1 h2)) hnn

/-! ## The conversion to `float`, evaluated -/

/-- The value of `toBinary32` at a positive number `x` with `2 ^ e <= x < 2 ^ (e + 1)`:
the multiple `n * 2 ^ (e - 23)` that is less than half a unit away from `x`. -/
theorem toBinary32_eq (x : ℝ) (e n : ℤ) (hx : 0 < x) (he : -126 ≤ e)
    (hlo : (2:ℝ) ^ e ≤ x) (hhi : x < (2:ℝ) ^ (e + 1))
    (hn1 : (n:ℝ) - 1 / 2 < x / (2:ℝ) ^ (e - 23))
    (hn2 : x / (2:ℝ) ^ (e - 23) < n + 1 / 2) :
    toBinary32 x = n * (2:ℝ) ^ (e - 23) := by
  have hlog : Int.log 2 x = e := by
    have h1 : e ≤ Int.log 2 x := by
      rw [← Int.zpow_le_iff_le_log (by norm_num) hx]
      exact_mod_cast hlo
    have h2 : Int.log 2 x < e + 1 := by
      rw [← Int.lt_zpow_iff_log_lt (by norm_num) hx]
      exact_mod_cast hhi
    omega
  unfold toBinary32
  simp only [hlog, max_eq_left he, abs_of_pos hx, not_lt.mpr (le_of_lt hx), if_false]
  by_cases hq : (n:ℝ) ≤ x / (2:ℝ) ^ (e - 23)
  · have hf : ⌊x / (2:ℝ) ^ (e - 23)⌋ = n := by
      rw [Int.floor_eq_iff]
      constructor
      · exact hq
      · linarith
    rw [hf, if_pos (by linarith)]
  · have hf : ⌊x / (2:ℝ) ^ (e - 23)⌋ = n - 1 := by
      rw [Int.floor_eq_iff]
      push_cast
      constructor
      · linarith
      · linarith
    rw [hf]
    push_cast
    rw [if_neg (by linarith), if_pos (by linarith)]
    ring_nf

theorem toBinary32_three : toBinary32 3 = 3 := by
  rw [toBinary32_eq 3 1 12582912 (by norm_num) (by norm_num) (by norm_num) (by norm_num)
    (by norm_num) (by norm_num)]
  norm_num

theorem toBinary32_five : toBinary32 5 = 5 := by
  rw [toBinary32_eq 5 2 10485760 (by norm_num) (by norm_num) (by norm_num) (by norm_num)
    (by norm_num) (by norm_num)]
  norm_num

theorem toBinary32_ten : toBinary32 10 = 10 := by
  rw [toBinary32_eq 10 3 10485760 (by norm_num) (by norm_num) (by norm_num) (by norm_num)
    (by norm_num) (by norm_num)]
  norm_num

/-- The `float` nearest to 50.2 is `13159629 / 2 ^ 18 = 50.200000762939453125`. -/
theorem toBinary32_near : toBinary32 50.2 = 13159629 / 262144 ∧
    toBinary32 50.2000001 = 13159629 / 262144 ∧
    toBinary32 50.2000005 = 13159629 / 262144 ∧
    toBinary32 (13159629 / 262144) = 13159629 / 262144 := by
  refine ⟨?_, ?_, ?_, ?_⟩
  · rw [toBinary32_eq 50.2 5 13159629 (by norm_num) (by norm_num) (by norm_num)
      (by norm_num) (by norm_num) (by norm_num)]
    norm_num
  · rw [toBinary32_eq 50.2000001 5 13159629 (by norm_num) (by norm_num) (by norm_num)
      (by norm_num) (by norm_num) (by norm_num)]
    norm_num
  · rw [toBinary32_eq 50.2000005 5 13159629 (by norm_num) (by norm_num) (by norm_num)
      (by norm_num) (by norm_num) (by norm_num)]
    norm_num
  · rw [toBinary32_eq (13159629 / 262144) 5 13159629 (by norm_num) (by norm_num)
      (by norm_num) (by norm_num) (by norm_num) (by norm_num)]
    norm_num

/-! ## The sample event, evaluated -/

theorem ex_bcLoop :
    bcLoop (exTask 1 1 (some exHits) none) true 0 [exBC1, exBC3, exBC2] ⟨[], 0, 0, []⟩
      = .ok ⟨bcFills (ebCell 1) exBC1 ++ bcFills (ebCell 2) exBC2, 2, 0,
          [(0, exBC1), (2, exBC2)]⟩ := by
  simp [bcLoop, bcBody, resolveId, regionMismatch, bcSelect, exTask, exBC1, exBC2, exBC3,
    ebCell, eeCell, ClusterTask.prescaled, exHits,
    EcalRecHitCollection.find, quotientGt]
  norm_num

theorem exBC1_momentum : px realLibm exBC1 = 5 ∧ py realLibm exBC1 = 0 ∧ pz realLibm exBC1 = 0 := by
  simp [px, py, pz, realLibm, exBC1]

theorem exBC2_momentum : px realLibm exBC2 = -2 ∧ py realLibm exBC2 = 0 ∧ pz realLibm exBC2 = 0 := by
  simp [px, py, pz, realLibm, exBC2]

theorem ex_ptpair : ptpair realLibm exBC1 exBC2 = 3 := by
  simp only [ptpair, exBC1_momentum, exBC2_momentum]
  have : ((5:ℝ) + -2) * (5 + -2) + (0 + 0) * (0 + 0) = 3 ^ 2 := by norm_num
  simp only [realLibm]
  rw [this, Real.sqrt_sq (by norm_num)]

theorem ex_epair : epair exBC1 exBC2 = 7 := by
  simp [epair, exBC1, exBC2]; norm_num

theorem ex_pzpair : pzpair realLibm exBC1 exBC2 = 0 := by
  simp [pzpair, exBC1_momentum, exBC2_momentum]

theorem ex_pairEta : pairEta realLibm exBC1 exBC2 = 0 := by
  simp only [pairEta, ex_epair, ex_pzpair]
  simp [realLibm]

theorem ex_pairPhi : pairPhi realLibm exBC1 exBC2 = Real.pi / 2 := by
  simp only [pairPhi, exBC1_momentum, exBC2_momentum]
  simp only [realLibm]
  rw [Complex.arg_eq_pi_div_two_iff]
  norm_num

theorem far_of_sq (a b : ℝ) (h : (0.2:ℝ) ^ 2 ≤ a * a + b * b) :
    ¬ Real.sqrt (a * a + b * b) < 0.2 := by
  rw [not_lt]
  exact Real.le_sqrt_of_sq_le h

theorem ex_pairIso : pairIso realLibm [exBC1, exBC3, exBC2] exBC1 exBC2 = 0 := by
  have hpi := Real.pi_gt_three
  have h1 : ¬ Real.sqrt ((0 - 0) * (0 - 0) + (0 - Real.pi / 2) * (0 - Real.pi / 2)) < (0.2:ℝ) :=
    far_of_sq _ _ (by nlinarith)
  have h2 : ¬ Real.sqrt ((1 - 0) * (1 - 0) + (Real.pi / 2 - Real.pi / 2) * (Real.pi / 2 - Real.pi / 2)) < (0.2:ℝ) :=
    far_of_sq _ _ (by norm_num)
  have h3 : ¬ Real.sqrt ((0 - 0) * (0 - 0) + (Real.pi - Real.pi / 2) * (Real.pi - Real.pi / 2)) < (0.2:ℝ) :=
    far_of_sq _ _ (by nlinarith)
  simp only [pairIso, ex_pairEta, ex_pairPhi, List.foldl_cons, List.foldl_nil, isoStep]
  simp only [realLibm, exBC1, exBC2, exBC3]
  rw [if_neg h1, if_neg h2, if_neg h3]

theorem ex_pairMass : pairMass realLibm exBC1 exBC2 = Real.sqrt 40 := by
  simp only [pairMass, pairMassSq, ex_epair, ex_pzpair, ex_ptpair]
  simp only [realLibm]
  norm_num

theorem ex_pairOutcome :
    pairOutcome realLibm [exBC1, exBC3, exBC2] (0, exBC1) (2, exBC2)
      = .filled 0 (Real.pi / 2) 0 (Real.sqrt 40) := by
  simp only [pairOutcome, ex_ptpair, ex_epair, ex_pzpair, ex_pairEta, ex_pairPhi, ex_pairIso,
    ex_pairMass]
  norm_num

/-- Over the reals, `phi` of line 200 satisfies the relations of an azimuth with the roles
of the two components exchanged: `py = pt cos(phi)` and `px = pt sin(phi)`. -/
theorem pairPhi_real_exchanged (bc1 bc2 : BasicCluster ℝ)
    (hpt : ptpair realLibm bc1 bc2 ≠ 0) :
    py realLibm bc1 + py realLibm bc2
      = ptpair realLibm bc1 bc2 * Real.cos (pairPhi realLibm bc1 bc2) ∧
    px realLibm bc1 + px realLibm bc2
      = ptpair realLibm bc1 bc2 * Real.sin (pairPhi realLibm bc1 bc2) := by
  have habs : Complex.abs ⟨py realLibm bc1 + py realLibm bc2, px realLibm bc1 + px realLibm bc2⟩
      = ptpair realLibm bc1 bc2 := by
    rw [Complex.abs_apply, Complex.normSq_mk, add_comm]
    rfl
  have hz : (⟨py realLibm bc1 + py realLibm bc2, px realLibm bc1 + px realLibm bc2⟩ : ℂ) ≠ 0 := by
    intro h
    rw [h, map_zero] at habs
    exact hpt habs.symm
  have hphi : pairPhi realLibm bc1 bc2
      = Complex.arg ⟨py realLibm bc1 + py realLibm bc2, px realLibm bc1 + px realLibm bc2⟩ := rfl
  rw [hphi, Complex.cos_arg hz, Complex.sin_arg, habs]
  constructor
  · field_simp
  · field_simp

theorem exSC_et : scEt realLibm exSCa = 5 ∧ scEt realLibm exSCb = 10 ∧
    scEt realLibm exSCc = 3 := by
  simp [scEt, realLibm, exSCa, exSCb, exSCc]

theorem exSC_etFloat : etFloat realLibm exSCa = 5 ∧ etFloat realLibm exSCb = 10 ∧
    etFloat realLibm exSCc = 3 := by
  simp [etFloat, realLibm, exSCa, exSCb, exSCc, toBinary32_three, toBinary32_five,
    toBinary32_ten]

theorem exSCt_et : scEt realLibm exSCt1 = 50.2 ∧ scEt realLibm exSCt2 = 50.2 ∧
    scEt realLibm exSCn1 = 50.2000005 ∧ scEt realLibm exSCn2 = 50.2000001 ∧
    scEt realLibm exSCn3 = 50.2 := by
  simp [scEt, realLibm, exSCt1, exSCt2, exSCn1, exSCn2, exSCn3]

theorem exSCt_etFloat : etFloat realLibm exSCt1 = 13159629 / 262144 ∧
    etFloat realLibm exSCt2 = 13159629 / 262144 ∧
    etFloat realLibm exSCn1 = 13159629 / 262144 ∧
    etFloat realLibm exSCn2 = 13159629 / 262144 ∧
    etFloat realLibm exSCn3 = 13159629 / 262144 := by
  simp [etFloat, realLibm, exSCt1, exSCt2, exSCn1, exSCn2, exSCn3, toBinary32_near]

theorem exSC_matched :
    [exSCc, exSCa, exSC3, exSCb].filter (scMatched ⟨fun _ => ebCell 7⟩ true (some exHits3))
      = [exSCc, exSCa, exSCb] := by
  simp [scMatched, scRetained, scSeedHit, scCell, resolvedCell, retainedCell, otherRegionTag,
    exSCa, exSCb, exSCc, exSC3, exBC1, exBC2, exBC3, ebCell, eeCell, exHits3,
    EcalRecHitCollection.find]

theorem ex_runOnBasicClusters :
    runOnBasicClusters realLibm (exTask 1 1 (some exHits) none) [exBC1, exBC3, exBC2]
        .kEBBasicCluster
      = .ok (bcFills (ebCell 1) exBC1 ++ bcFills (ebCell 2) exBC2
          ++ [⟨.kBCNum, .bin .kEB 2⟩]
          ++ [⟨.kPi0, .x (Real.sqrt 40)⟩, ⟨.kJPsi, .x (Real.sqrt 40)⟩,
              ⟨.kPi0, .x (Real.sqrt 40)⟩, ⟨.kJPsi, .x (Real.sqrt 40)⟩]) := by
  have hp : (exTask 1 1 (some exHits) none).prescaled = false := rfl
  have h12 : pairFills realLibm [exBC1, exBC3, exBC2] (0, exBC1) (2, exBC2)
      = [⟨.kPi0, .x (Real.sqrt 40)⟩, ⟨.kJPsi, .x (Real.sqrt 40)⟩] := by
    simp [pairFills, ex_pairOutcome]
  have h21 : pairFills realLibm [exBC1, exBC3, exBC2] (2, exBC2) (0, exBC1)
      = [⟨.kPi0, .x (Real.sqrt 40)⟩, ⟨.kJPsi, .x (Real.sqrt 40)⟩] := by
    simp [pairFills, ← pairOutcome_comm realLibm _ (0, exBC1) (2, exBC2), ex_pairOutcome]
  simp only [runOnBasicClusters, decide_True, ex_bcLoop, hp, Bool.false_eq_true, if_false,
    pairLoop_eq_flatMap, List.flatMap_cons, List.flatMap_nil, pairFills_self, h12, h21]
  simp [bcNumFills]

theorem ex_runOnSuperClusters_single :
    runOnSuperClusters realLibm exE3x3 (exTask 1 1 (some exHits) none) [exSC1]
        .kEBSuperCluster
      = .ok (scFills (ebCell 1) exSC1
          ++ scSeedFills exE3x3 (exTask 1 1 (some exHits) none) exHits 1 (ebCell 1)
              ⟨ebCell 1, 1⟩ exSC1
          ++ [⟨.kSCNum, .bin .kEB 1⟩]) := by
  simp [runOnSuperClusters, scLoop, scBody, resolveId, regionMismatch, exTask, exSC1, exBC1,
    ebCell, ClusterTask.prescaled, EcalRecHitCollection.find, exHits, scMassFills,
    trackLeading]

theorem exSCt_matched :
    [exSCt1, exSCt2].filter (scMatched ⟨fun _ => ebCell 7⟩ true (some exHits3))
      = [exSCt1, exSCt2] ∧
    [exSCn1, exSCn2, exSCn3].filter (scMatched ⟨fun _ => ebCell 7⟩ true (some exHits3))
      = [exSCn1, exSCn2, exSCn3] := by
  simp [scMatched, scRetained, scSeedHit, scCell, resolvedCell, retainedCell, otherRegionTag,
    exSCt1, exSCt2, exSCn1, exSCn2, exSCn3, exBC1, exBC2, ebCell, exHits3,
    EcalRecHitCollection.find]

theorem exSCt_tracked :
    [exSCt1, exSCt2].foldl (trackStep realLibm) (none, none) = (some exSCt2, some exSCt1) ∧
    [exSCn1, exSCn2, exSCn3].foldl (trackStep realLibm) (none, none)
      = (some exSCn3, some exSCn2) := by
  have h21 : etFloat realLibm exSCt2 > scEt realLibm exSCt1 := by
    rw [exSCt_etFloat.2.1, exSCt_et.1]; norm_num
  have hn21 : etFloat realLibm exSCn2 > scEt realLibm exSCn1 := by
    rw [exSCt_etFloat.2.2.2.1, exSCt_et.2.2.1]; norm_num
  have hn32 : etFloat realLibm exSCn3 > scEt realLibm exSCn2 := by
    rw [exSCt_etFloat.2.2.2.2, exSCt_et.2.2.2.1]; norm_num
  simp only [List.foldl_cons, List.foldl_nil, trackStep_none]
  constructor
  · rw [trackStep_gt realLibm exSCt1 exSCt2 none h21]
  · rw [trackStep_gt realLibm exSCn1 exSCn2 none hn21,
      trackStep_gt realLibm exSCn2 exSCn3 _ hn32]

theorem ex3_tracked :
    ([exSCc, exSCa, exSC3, exSCb].filter
        (scMatched ⟨fun _ => ebCell 7⟩ true (some exHits3))).foldl
      (trackStep realLibm) (none, none) = (some exSCb, some exSCa) := by
  have hac : etFloat realLibm exSCa > scEt realLibm exSCc := by
    rw [exSC_etFloat.1, exSC_et.2.2]; norm_num
  have hba : etFloat realLibm exSCb > scEt realLibm exSCa := by
    rw [exSC_etFloat.2.1, exSC_et.1]; norm_num
  rw [exSC_matched]
  simp only [List.foldl_cons, List.foldl_nil, trackStep_none]
  rw [trackStep_gt realLibm exSCc exSCa none hac, trackStep_gt realLibm exSCa exSCb _ hba]

theorem ex3_scLoop (s : SCLoop ℝ)
    (h : scLoop realLibm exE3x3 (exTask 1 1 (some exHits3) none) true (some exHits3) 4
      [exSCc, exSCa, exSC3, exSCb] ⟨[], 0, none, none⟩ = .ok s) :
    s.leading = some exSCb ∧ s.subLeading = some exSCa := by
  have hp : (exTask 1 1 (some exHits3) none).prescaled = false := rfl
  rw [scLoop_eq realLibm exE3x3 (exTask 1 1 (some exHits3) none) ⟨fun _ => ebCell 7⟩ true rfl]
    at h
  cases h
  simp only [scFinal, hp, Bool.false_eq_true, if_false]
  exact ⟨congrArg Prod.fst ex3_tracked, congrArg Prod.snd ex3_tracked⟩

theorem ex3_runOnSuperClusters :
    ∃ fills, runOnSuperClusters realLibm exE3x3 (exTask 1 1 (some exHits3) none)
        [exSCc, exSCa, exSC3, exSCb] .kEBSuperCluster = .ok fills ∧
      fills.filter (fun f => f.me == .kZ || f.me == .kHighMass)
        = [⟨.kZ, .x (scMass realLibm exSCb exSCa)⟩,
           ⟨.kHighMass, .x (scMass realLibm exSCb exSCa)⟩] := by
  have hp : (exTask 1 1 (some exHits3) none).prescaled = false := rfl
  have h := ex3_tracked
  have hl : (scFinal realLibm exE3x3 (exTask 1 1 (some exHits3) none) ⟨fun _ => ebCell 7⟩
      (decide (Collections.kEBSuperCluster = .kEBSuperCluster))
      (if Collections.kEBSuperCluster = .kEBSuperCluster
        then (exTask 1 1 (some exHits3) none).ebHits
        else (exTask 1 1 (some exHits3) none).eeHits)
      [exSCc, exSCa, exSC3, exSCb].length [exSCc, exSCa, exSC3, exSCb]
      ⟨[], 0, none, none⟩).leading = some exSCb := by
    simp only [scFinal, hp, Bool.false_eq_true, if_false]
    exact congrArg Prod.fst h
  have hsl : (scFinal realLibm exE3x3 (exTask 1 1 (some exHits3) none) ⟨fun _ => ebCell 7⟩
      (decide (Collections.kEBSuperCluster = .kEBSuperCluster))
      (if Collections.kEBSuperCluster = .kEBSuperCluster
        then (exTask 1 1 (some exHits3) none).ebHits
        else (exTask 1 1 (some exHits3) none).eeHits)
      [exSCc, exSCa, exSC3, exSCb].length [exSCc, exSCa, exSC3, exSCb]
      ⟨[], 0, none, none⟩).subLeading = some exSCa := by
    simp only [scFinal, hp, Bool.false_eq_true, if_false]
    exact congrArg Prod.snd h
  refine ⟨_, runOnSuperClusters_eq realLibm exE3x3 (exTask 1 1 (some exHits3) none)
    ⟨fun _ => ebCell 7⟩ _ .kEBSuperCluster rfl, ?_⟩
  rw [List.filter_append, List.filter_append, scFinal_fills_filter_mass, hp]
  unfold scMassFills
  rw [hl, hsl]
  simp

theorem ex_bc_metrics :
    ∀ m ∈ [MESets.kBCE, .kBCEMap, .kBCEMapProjEta, .kBCEMapProjPhi, .kBCOccupancy,
        .kBCOccupancyProjEta, .kBCOccupancyProjPhi, .kBCSize, .kBCSizeMap, .kBCSizeMapProjEta,
        .kBCSizeMapProjPhi, .kBCNum, .kPi0, .kJPsi],
      ∃ fills, runOnBasicClusters realLibm (exTask 1 1 (some exHits) none)
          [exBC1, exBC3, exBC2] .kEBBasicCluster = .ok fills ∧ ∃ f ∈ fills, f.me = m := by
  intro m hm
  refine ⟨_, ex_runOnBasicClusters, ?_⟩
  simp only [List.mem_cons, List.mem_singleton, List.mem_nil_iff, or_false] at hm
  rcases hm with h | h | h | h | h | h | h | h | h | h | h | h | h | h <;> subst h <;>
    simp [bcFills]

theorem ex_sc_metrics :
    ∀ m ∈ [MESets.kSCE, .kSCELow, .kSCNBCs, .kSCNcrystals, .kSCSeedEnergy, .kSCClusterVsSeed,
        .kSCSeedOccupancy, .kSingleCrystalCluster, .kSCR9, .kSCNum],
      ∃ fills, runOnSuperClusters realLibm exE3x3 (exTask 1 1 (some exHits) none) [exSC1]
          .kEBSuperCluster = .ok fills ∧ ∃ f ∈ fills, f.me = m := by
  intro m hm
  refine ⟨_, ex_runOnSuperClusters_single, ?_⟩
  simp only [List.mem_cons, List.mem_singleton, List.mem_nil_iff, or_false] at hm
  rcases hm with h | h | h | h | h | h | h | h | h | h <;> subst h <;>
    simp [scFills, scSeedFills]

theorem ex_mass_metrics :
    ∀ m ∈ [MESets.kZ, .kHighMass],
      ∃ fills, runOnSuperClusters realLibm exE3x3 (exTask 1 1 (some exHits3) none)
          [exSCc, exSCa, exSC3, exSCb] .kEBSuperCluster = .ok fills ∧
        ∃ f ∈ fills, f.me = m := by
  intro m hm
  obtain ⟨fills, hrun, hfil⟩ := ex3_runOnSuperClusters
  refine ⟨fills, hrun, ?_⟩
  have hmem : ∀ f, f ∈ fills.filter (fun f => f.me == .kZ || f.me == .kHighMass) → f ∈ fills :=
    fun f hf => (List.mem_filter.1 hf).1
  rw [hfil] at hmem
  simp only [List.mem_cons, List.mem_singleton, List.mem_nil_iff, or_false] at hm
  rcases hm with h | h <;> subst h
  · exact ⟨⟨.kZ, .x (scMass realLibm exSCb exSCa)⟩, hmem _ (by simp), rfl⟩
  · exact ⟨⟨.kHighMass, .x (scMass realLibm exSCb exSCa)⟩, hmem _ (by simp), rfl⟩

/-! ## The properties -/

section Properties

variable {F : Type} [LinearOrderedField F]

/-- C1: the constructor fails with InvalidConfiguration when the configured prescale is 0
and succeeds, storing the prescale, for every nonzero value. -/
theorem C1_constructor_prescale (F : Type) (ps : ParameterSet) (n : Int)
    (h : ps "massCalcPrescale" = some n) :
    (n = 0 → ClusterTask.new F ps = .error .invalidConfiguration) ∧
    (n ≠ 0 → ∃ st, ClusterTask.new F ps = .ok st ∧ st.massCalcPrescale = n) := by
  constructor
  · intro h0
    simp [ClusterTask.new, ParameterSet.getUntrackedParameter, h, h0]
  · intro h0
    simp [ClusterTask.new, ParameterSet.getUntrackedParameter, h, h0]

/-- C1 at the prescales 0 (the constructor fails) and -3 (it succeeds). -/
theorem C1_constructor_prescale_witness :
    ((fun _ => some 0 : ParameterSet) "massCalcPrescale" = some 0 ∧
      ClusterTask.new ℚ (fun _ => some 0) = .error .invalidConfiguration) ∧
    ((fun _ => some (-3) : ParameterSet) "massCalcPrescale" = some (-3) ∧
      ∃ st, ClusterTask.new ℚ (fun _ => some (-3)) = .ok st ∧ st.massCalcPrescale = -3) :=
  ⟨⟨rfl, (C1_constructor_prescale ℚ (fun _ => some 0) 0 rfl).1 rfl⟩,
   ⟨rfl, (C1_constructor_prescale ℚ (fun _ => some (-3)) (-3) rfl).2 (by decide)⟩⟩

/-- C2: in both regions and in both analyses a cluster whose resolved cell is null or
carries the subdetector tag of the other region leaves every loop variable unchanged (no
fill, no count, no candidate, no leading or sub-leading update); no such cluster is among
the low-mass candidates after the loop, nor is it the leading or sub-leading
supercluster. -/
theorem C2_region_mismatch_discarded (lib : Libm F)
    (e3x3 : BasicCluster F → EcalRecHitCollection F → Option CaloTopology → F)
    (st : ClusterTask F) (isBarrel : Bool) :
    (∀ (i : Nat) (bc : BasicCluster F) (s : BCLoop F) (id : DetId),
      resolveId (if isBarrel then st.ebGeometry else st.eeGeometry) bc.seed bc.position = .ok id →
      (id.null = true ∨ id.subdetId = otherRegionTag isBarrel) →
      bcBody st isBarrel i bc s = .ok s) ∧
    (∀ (hits : Option (EcalRecHitCollection F)) (size : Nat) (sc : SuperCluster F)
      (s : SCLoop F) (id : DetId),
      resolveId (if isBarrel then st.ebGeometry else st.eeGeometry) sc.seed.seed sc.position
        = .ok id →
      (id.null = true ∨ id.subdetId = otherRegionTag isBarrel) →
      scBody lib e3x3 st isBarrel hits size sc s = .ok s) ∧
    (∀ (g : CaloSubdetectorGeometry F),
      (if isBarrel then st.ebGeometry else st.eeGeometry) = some g →
      ∀ (bcs : List (BasicCluster F)) (s1 : BCLoop F),
      bcLoop st isBarrel 0 bcs ⟨[], 0, 0, []⟩ = .ok s1 →
      ∀ p ∈ s1.lowMassCands,
        (bcCell g p.2).null = false ∧ (bcCell g p.2).subdetId ≠ otherRegionTag isBarrel) ∧
    (∀ (g : CaloSubdetectorGeometry F),
      (if isBarrel then st.ebGeometry else st.eeGeometry) = some g →
      ∀ (hits : Option (EcalRecHitCollection F)) (scs : List (SuperCluster F)) (s1 : SCLoop F),
      scLoop lib e3x3 st isBarrel hits scs.length scs ⟨[], 0, none, none⟩ = .ok s1 →
      ∀ sc, (s1.leading = some sc ∨ s1.subLeading = some sc) →
        (scCell g sc).null = false ∧ (scCell g sc).subdetId ≠ otherRegionTag isBarrel) := by
  refine ⟨?_, ?_, ?_, ?_⟩
  · intro i bc s id hres hd
    unfold bcBody
    simp [hres, regionMismatch_of_discarded isBarrel id hd]
  · intro hits size sc s id hres hd
    unfold scBody
    simp [hres, regionMismatch_of_discarded isBarrel id hd]
  · intro g hg bcs s1 hloop p hp
    rw [bcLoop_ok st isBarrel g hg bcs 0 _ s1 hloop] at hp
    simp only [bcFinal, List.nil_append, List.mem_filter, Bool.and_eq_true] at hp
    have hr := hp.2.1
    simpa [bcRetained, retainedCell] using hr
  · intro g hg hits scs s1 hloop sc hsc
    rw [scLoop_eq lib e3x3 st g isBarrel hg] at hloop
    cases hloop
    have hmem : sc ∈ scs.filter (scMatched g isBarrel hits) := by
      cases hp : st.prescaled
      · simp only [scFinal, hp] at hsc
        rcases trackStep_foldl_mem lib _ _ sc hsc with h | h | h
        · exact h
        · simp at h
        · simp at h
      · simp [scFinal, hp] at hsc
    have hr := (List.mem_filter.1 hmem).2
    simp only [scMatched, Bool.and_eq_true] at hr
    simpa [scRetained, retainedCell] using hr.1

/-- C2 on the sample barrel event: the endcap-seeded cluster `exBC3` and the supercluster
`exSC3` are passed over, and the candidate `exBC1` and the leading `exSC1` are retained;
in the endcap analysis the barrel-seeded cluster `exBC1` is passed over. -/
theorem C2_region_mismatch_discarded_witness :
    (resolveId (if true then (exTask 1 1 (some exHits) none).ebGeometry
        else (exTask 1 1 (some exHits) none).eeGeometry) exBC3.seed exBC3.position
        = .ok (eeCell 3) ∧
      ((eeCell 3).null = true ∨ (eeCell 3).subdetId = otherRegionTag true) ∧
      bcBody (exTask 1 1 (some exHits) none) true 1 exBC3 ⟨[], 1, 0, [(0, exBC1)]⟩
        = .ok ⟨[], 1, 0, [(0, exBC1)]⟩) ∧
    (resolveId (if true then (exTask 1 1 (some exHits) none).ebGeometry
        else (exTask 1 1 (some exHits) none).eeGeometry) exSC3.seed.seed exSC3.position
        = .ok (eeCell 3) ∧
      ((eeCell 3).null = true ∨ (eeCell 3).subdetId = otherRegionTag true) ∧
      scBody realLibm exE3x3 (exTask 1 1 (some exHits) none) true (some exHits) 2 exSC3
        ⟨[], 1, some exSC1, none⟩ = .ok ⟨[], 1, some exSC1, none⟩) ∧
    ((if true then (exTask 1 1 (some exHits) none).ebGeometry
        else (exTask 1 1 (some exHits) none).eeGeometry) = some ⟨fun _ => ebCell 7⟩ ∧
      bcLoop (exTask 1 1 (some exHits) none) true 0 [exBC1, exBC3, exBC2] ⟨[], 0, 0, []⟩
        = .ok ⟨bcFills (ebCell 1) exBC1 ++ bcFills (ebCell 2) exBC2, 2, 0,
            [(0, exBC1), (2, exBC2)]⟩ ∧
      (0, exBC1) ∈ [(0, exBC1), (2, exBC2)] ∧
      (bcCell ⟨fun _ => ebCell 7⟩ exBC1).null = false ∧
      (bcCell ⟨fun _ => ebCell 7⟩ exBC1).subdetId ≠ otherRegionTag true) ∧
    ((if true then (exTask 1 1 (some exHits) none).ebGeometry
        else (exTask 1 1 (some exHits) none).eeGeometry) = some ⟨fun _ => ebCell 7⟩ ∧
      scLoop realLibm exE3x3 (exTask 1 1 (some exHits) none) true (some exHits)
        [exSC3, exSC1].length [exSC3, exSC1] ⟨[], 0, none, none⟩
        = .ok ⟨scFills (ebCell 1) exSC1
            ++ scSeedFills exE3x3 (exTask 1 1 (some exHits) none) exHits 2 (ebCell 1)
                ⟨ebCell 1, 1⟩ exSC1, 1, some exSC1, none⟩ ∧
      (scCell ⟨fun _ => ebCell 7⟩ exSC1).null = false ∧
      (scCell ⟨fun _ => ebCell 7⟩ exSC1).subdetId ≠ otherRegionTag true) ∧
    (resolveId (if false then (exTask 1 1 none none).ebGeometry
        else (exTask 1 1 none none).eeGeometry) exBC1.seed exBC1.position = .ok (ebCell 1) ∧
      ((ebCell 1).null = true ∨ (ebCell 1).subdetId = otherRegionTag false) ∧
      bcBody (exTask 1 1 none none) false 0 exBC1 ⟨[], 0, 0, []⟩ = .ok ⟨[], 0, 0, []⟩) := by
  have hres1 : resolveId (if true then (exTask 1 1 (some exHits) none).ebGeometry
      else (exTask 1 1 (some exHits) none).eeGeometry) exBC3.seed exBC3.position
      = .ok (eeCell 3) := by
    simp [resolveId, exBC3, eeCell]
  have hres2 : resolveId (if true then (exTask 1 1 (some exHits) none).ebGeometry
      else (exTask 1 1 (some exHits) none).eeGeometry) exSC3.seed.seed exSC3.position
      = .ok (eeCell 3) := by
    simp [resolveId, exSC3, exBC3, eeCell]
  have htag : (eeCell 3).null = true ∨ (eeCell 3).subdetId = otherRegionTag true :=
    Or.inr rfl
  have hg : (if true then (exTask 1 1 (some exHits) none).ebGeometry
      else (exTask 1 1 (some exHits) none).eeGeometry) = some ⟨fun _ => ebCell 7⟩ := rfl
  have hbc : bcLoop (exTask 1 1 (some exHits) none) true 0 [exBC1, exBC3, exBC2] ⟨[], 0, 0, []⟩
      = .ok ⟨bcFills (ebCell 1) exBC1 ++ bcFills (ebCell 2) exBC2, 2, 0,
          [(0, exBC1), (2, exBC2)]⟩ := by
    simp [bcLoop, bcBody, resolveId, regionMismatch, bcSelect, exTask, exBC1, exBC2, exBC3,
      ebCell, eeCell, ClusterTask.prescaled, exHits,
      EcalRecHitCollection.find, quotientGt]
    norm_num
  have hsc : scLoop realLibm exE3x3 (exTask 1 1 (some exHits) none) true (some exHits)
      [exSC3, exSC1].length [exSC3, exSC1] ⟨[], 0, none, none⟩
      = .ok ⟨scFills (ebCell 1) exSC1
          ++ scSeedFills exE3x3 (exTask 1 1 (some exHits) none) exHits 2 (ebCell 1)
              ⟨ebCell 1, 1⟩ exSC1, 1, some exSC1, none⟩ := by
    simp [scLoop, scBody, resolveId, regionMismatch, exTask, exSC1, exSC3, exBC1, exBC3,
      ebCell, eeCell, ClusterTask.prescaled, exHits,
      EcalRecHitCollection.find, trackLeading]
  have h := C2_region_mismatch_discarded realLibm exE3x3 (exTask 1 1 (some exHits) none) true
  have hres3 : resolveId (if false then (exTask 1 1 none none).ebGeometry
      else (exTask 1 1 none none).eeGeometry) exBC1.seed exBC1.position = .ok (ebCell 1) := by
    simp [resolveId, exBC1, ebCell]
  have htag3 : (ebCell 1).null = true ∨ (ebCell 1).subdetId = otherRegionTag false :=
    Or.inr rfl
  exact ⟨⟨hres1, htag, h.1 1 exBC3 _ (eeCell 3) hres1 htag⟩,
    ⟨hres2, htag, h.2.1 (some exHits) 2 exSC3 _ (eeCell 3) hres2 htag⟩,
    ⟨hg, hbc, by simp, h.2.2.1 _ hg _ _ hbc (0, exBC1) (by simp)⟩,
    ⟨hg, hsc, h.2.2.2 _ hg (some exHits) _ _ hsc exSC1 (Or.inl rfl)⟩,
    ⟨hres3, htag3, (C2_region_mismatch_discarded realLibm exE3x3 (exTask 1 1 none none)
      false).1 0 exBC1 _ (ebCell 1) hres3 htag3⟩⟩

/-- C3: with the region's geometry set, `runOnBasicClusters` returns whenever the hit
buffer is present or the event is prescaled away, and whenever it returns its `kBCNum`
fills are: for the barrel one fill in the barrel bin with the number of retained clusters;
for the endcap a fill in the minus bin with the number of retained clusters with `z <= 0`
followed by a fill in the plus bin with the number of retained clusters with `z > 0`, the
two values adding up to the number of retained clusters. -/
theorem C3_bcnum_counts_retained (lib : Libm F) (st : ClusterTask F)
    (g : CaloSubdetectorGeometry F) (bcs : List (BasicCluster F)) (_collection : Collections)
    (hg : (if _collection = .kEBBasicCluster then st.ebGeometry else st.eeGeometry) = some g) :
    ((st.prescaled = true ∨
        ∃ h, (if _collection = .kEBBasicCluster then st.ebHits else st.eeHits) = some h) →
      ∃ fills, runOnBasicClusters lib st bcs _collection = .ok fills) ∧
    (∀ fills, runOnBasicClusters lib st bcs _collection = .ok fills →
      fills.filter (fun f => f.me == .kBCNum) =
        (if _collection = .kEBBasicCluster then
          [⟨.kBCNum, .bin .kEB (bcs.countP (bcRetained g true))⟩]
        else
          [⟨.kBCNum, .bin .kEEm
              (bcs.countP (fun bc => bcRetained g false bc && decide (bc.position.z ≤ 0)))⟩,
           ⟨.kBCNum, .bin .kEEp
              (bcs.countP (fun bc => bcRetained g false bc && decide (bc.position.z > 0)))⟩])) ∧
    bcs.countP (fun bc => bcRetained g false bc && decide (bc.position.z ≤ 0))
        + bcs.countP (fun bc => bcRetained g false bc && decide (bc.position.z > 0))
        = bcs.countP (bcRetained g false) := by
  have hle : ∀ b : Bool,
      (fun bc : BasicCluster F => bcRetained g b bc && decide (bc.position.z ≤ 0))
      = (fun bc => bcRetained g b bc && !decide (bc.position.z > 0)) := by
    intro b; funext bc
    by_cases h : bc.position.z > 0
    · simp [h, not_le.mpr h]
    · simp [h, not_lt.mp h]
  refine ⟨fun hh => ⟨_, runOnBasicClusters_eq lib st g bcs _collection hg hh⟩, ?_, ?_⟩
  · intro fills hrun
    rw [runOnBasicClusters_ok lib st g bcs _collection hg fills hrun]
    have h1 : List.filter (fun f : Fill F => f.me == .kBCNum)
        (bcFinal st (decide (_collection = .kEBBasicCluster)) g 0 bcs ⟨[], 0, 0, []⟩).fills
        = [] := by
      rw [List.filter_eq_nil_iff]
      intro f hf
      simpa using (bcFinal_fills_me st _ g bcs f hf).1
    have h2 : List.filter (fun f : Fill F => f.me == .kBCNum)
        (if st.prescaled then [] else pairLoop lib bcs
          (bcFinal st (decide (_collection = .kEBBasicCluster)) g 0 bcs
            ⟨[], 0, 0, []⟩).lowMassCands)
        = [] := by
      rw [List.filter_eq_nil_iff]
      intro f hf
      split at hf
      · simp at hf
      · rcases pairLoop_me lib bcs _ f hf with h | h <;> simp [h]
    rw [List.filter_append, List.filter_append, h1, h2]
    by_cases hc : _collection = .kEBBasicCluster
    · simp [hc, bcNumFills, bcFinal, ← countP_split (bcRetained g true)
        (fun bc => decide (bc.position.z > 0)) bcs]
    · simp [hc, bcNumFills, bcFinal, hle]
  · rw [hle]
    exact countP_split _ _ _

/-- C3 on the sample barrel event: three clusters, two retained, one `kBCNum` fill of 2. -/
theorem C3_bcnum_counts_retained_witness :
    (if Collections.kEBBasicCluster = .kEBBasicCluster
        then (exTask 1 1 (some exHits) none).ebGeometry
        else (exTask 1 1 (some exHits) none).eeGeometry) = some ⟨fun _ => ebCell 7⟩ ∧
    ((exTask 1 1 (some exHits) none).prescaled = true ∨
      ∃ h, (if Collections.kEBBasicCluster = .kEBBasicCluster
        then (exTask 1 1 (some exHits) none).ebHits
        else (exTask 1 1 (some exHits) none).eeHits) = some h) ∧
    ∃ fills, runOnBasicClusters realLibm (exTask 1 1 (some exHits) none)
        [exBC1, exBC3, exBC2] .kEBBasicCluster = .ok fills ∧
      fills.filter (fun f => f.me == .kBCNum) = [⟨.kBCNum, .bin .kEB 2⟩] := by
  have hg : (if Collections.kEBBasicCluster = .kEBBasicCluster
        then (exTask 1 1 (some exHits) none).ebGeometry
        else (exTask 1 1 (some exHits) none).eeGeometry) = some ⟨fun _ => ebCell 7⟩ := rfl
  have hh : (exTask 1 1 (some exHits) none).prescaled = true ∨
      ∃ h, (if Collections.kEBBasicCluster = .kEBBasicCluster
        then (exTask 1 1 (some exHits) none).ebHits
        else (exTask 1 1 (some exHits) none).eeHits) = some h := Or.inr ⟨exHits, rfl⟩
  have h := C3_bcnum_counts_retained realLibm
    (exTask 1 1 (some exHits) none) ⟨fun _ => ebCell 7⟩ [exBC1, exBC3, exBC2]
    .kEBBasicCluster hg
  obtain ⟨fills, h1⟩ := h.1 hh
  refine ⟨hg, hh, fills, h1, ?_⟩
  rw [h.2.1 fills h1]
  simp [bcRetained, bcCell, resolvedCell, retainedCell, otherRegionTag, exBC1, exBC2, exBC3,
    ebCell, eeCell]

/-- C4 (as amended): whenever the region's geometry is set, `runOnSuperClusters` returns
and fills `kSCNum` exactly once, in the bin of the region analysed, with the number of
superclusters that are retained after region-mismatch filtering and whose resolved cell
has a hit in the region's hit buffer (none when the buffer is absent). -/
theorem C4_scnum_counts_matched (lib : Libm F)
    (e3x3 : BasicCluster F → EcalRecHitCollection F → Option CaloTopology → F)
    (st : ClusterTask F) (g : CaloSubdetectorGeometry F) (scs : List (SuperCluster F))
    (_collection : Collections)
    (hg : (if _collection = .kEBSuperCluster then st.ebGeometry else st.eeGeometry) = some g) :
    ∃ fills, runOnSuperClusters lib e3x3 st scs _collection = .ok fills ∧
      fills.filter (fun f => f.me == .kSCNum) =
        [⟨.kSCNum, .bin (if _collection = .kEBSuperCluster then .kEB else .kEE)
          (scs.countP (fun sc =>
            scRetained g (decide (_collection = .kEBSuperCluster)) sc &&
            (scSeedHit g (if _collection = .kEBSuperCluster then st.ebHits else st.eeHits)
              sc).isSome))⟩] := by
  refine ⟨_, runOnSuperClusters_eq lib e3x3 st g scs _collection hg, ?_⟩
  have h1 : List.filter (fun f : Fill F => f.me == .kSCNum)
      (scFinal lib e3x3 st g (decide (_collection = .kEBSuperCluster))
        (if _collection = .kEBSuperCluster then st.ebHits else st.eeHits) scs.length scs
        ⟨[], 0, none, none⟩).fills = [] := by
    rw [List.filter_eq_nil_iff]
    intro f hf
    simp only [scFinal, List.nil_append, List.mem_flatMap] at hf
    obtain ⟨sc, _, h⟩ := hf
    simpa using (scAllFills_me e3x3 st g _ _ _ sc f h).1
  have h2 : List.filter (fun f : Fill F => f.me == .kSCNum)
      (if st.prescaled then [] else scMassFills lib
        (scFinal lib e3x3 st g (decide (_collection = .kEBSuperCluster))
          (if _collection = .kEBSuperCluster then st.ebHits else st.eeHits) scs.length scs
          ⟨[], 0, none, none⟩)) = [] := by
    rw [List.filter_eq_nil_iff]
    intro f hf
    split at hf
    · simp at hf
    · rcases scMassFills_me lib _ f hf with h | h <;> simp [h]
  rw [List.filter_append, List.filter_append, h1, h2]
  have h3 : scMatched g (decide (_collection = .kEBSuperCluster))
      (if _collection = .kEBSuperCluster then st.ebHits else st.eeHits)
      = (fun sc => scRetained g (decide (_collection = .kEBSuperCluster)) sc &&
          (scSeedHit g (if _collection = .kEBSuperCluster then st.ebHits else st.eeHits)
            sc).isSome) := by
    funext sc; rfl
  simp [h3]

/-- C4, as stated, fails: for the one-supercluster barrel collection `[exSC1]`, retained by
the region filter, and a hit buffer without a hit in its cell, the call fills `kSCNum`
with 0, not with the number 1 of retained superclusters. -/
theorem C4_scnum_counterexample :
    runOnSuperClusters realLibm exE3x3 (exTask 1 1 (some [⟨ebCell 2, 1⟩]) none) [exSC1]
        .kEBSuperCluster
      = .ok (scFills (ebCell 1) exSC1 ++ [⟨.kSCNum, .bin .kEB 0⟩]) ∧
    [exSC1].countP (scRetained ⟨fun _ => ebCell 7⟩ true) = 1 ∧
    ¬ ∃ fills, runOnSuperClusters realLibm exE3x3 (exTask 1 1 (some [⟨ebCell 2, 1⟩]) none)
        [exSC1] .kEBSuperCluster = .ok fills ∧
      fills.filter (fun f => f.me == .kSCNum)
        = [⟨.kSCNum, .bin .kEB ([exSC1].countP (scRetained ⟨fun _ => ebCell 7⟩ true))⟩] := by
  have hrun : runOnSuperClusters realLibm exE3x3 (exTask 1 1 (some [⟨ebCell 2, 1⟩]) none)
      [exSC1] .kEBSuperCluster
      = .ok (scFills (ebCell 1) exSC1 ++ [⟨.kSCNum, .bin .kEB 0⟩]) := by
    simp [runOnSuperClusters, scLoop, scBody, resolveId, regionMismatch, exTask, exSC1, exBC1,
      ebCell, ClusterTask.prescaled, EcalRecHitCollection.find,
      scMassFills]
  have hcount : [exSC1].countP (scRetained ⟨fun _ => ebCell 7⟩ true) = 1 := by
    simp [scRetained, scCell, resolvedCell, retainedCell, otherRegionTag, exSC1, exBC1, ebCell]
  refine ⟨hrun, hcount, ?_⟩
  rintro ⟨fills, h1, h2⟩
  rw [hrun] at h1
  cases h1
  rw [hcount] at h2
  simp [scFills] at h2

/-- C4 (as amended) on the sample barrel event: two superclusters, one of them retained and
with a seed hit, one `kSCNum` fill of 1. -/
theorem C4_scnum_counts_matched_witness :
    (if Collections.kEBSuperCluster = .kEBSuperCluster
        then (exTask 1 1 (some exHits) none).ebGeometry
        else (exTask 1 1 (some exHits) none).eeGeometry) = some ⟨fun _ => ebCell 7⟩ ∧
    ∃ fills, runOnSuperClusters realLibm exE3x3 (exTask 1 1 (some exHits) none)
        [exSC3, exSC1] .kEBSuperCluster = .ok fills ∧
      fills.filter (fun f => f.me == .kSCNum) = [⟨.kSCNum, .bin .kEB 1⟩] := by
  have hg : (if Collections.kEBSuperCluster = .kEBSuperCluster
        then (exTask 1 1 (some exHits) none).ebGeometry
        else (exTask 1 1 (some exHits) none).eeGeometry) = some ⟨fun _ => ebCell 7⟩ := rfl
  obtain ⟨fills, h1, h2⟩ := C4_scnum_counts_matched realLibm exE3x3
    (exTask 1 1 (some exHits) none) ⟨fun _ => ebCell 7⟩ [exSC3, exSC1] .kEBSuperCluster hg
  refine ⟨hg, fills, h1, ?_⟩
  rw [h2]
  simp [scRetained, scSeedHit, scCell, resolvedCell, retainedCell, otherRegionTag, exSC1,
    exSC3, exBC1, exBC3, ebCell, eeCell, exTask, exHits,
    EcalRecHitCollection.find]

/-- C5: on an event whose counter is not divisible by the prescale, `runOnBasicClusters`
selects no candidate and makes no `kPi0`/`kJPsi` fill, `runOnSuperClusters` makes no
`kZ`/`kHighMass` fill, and the fills of each call are exactly the fills, other than those of
the mass metrics, that the same call makes on the same input when the event counter passes
the prescale gate. -/
theorem C5_prescaled_event (lib : Libm F)
    (e3x3 : BasicCluster F → EcalRecHitCollection F → Option CaloTopology → F)
    (st : ClusterTask F) (k : Int) (gB gS : CaloSubdetectorGeometry F)
    (hB : EcalRecHitCollection F)
    (bcs : List (BasicCluster F)) (scs : List (SuperCluster F)) (cB cS : Collections)
    (hclosed : st.prescaled = true)
    (hopen : ({ st with ievt := k } : ClusterTask F).prescaled = false)
    (hgB : (if cB = .kEBBasicCluster then st.ebGeometry else st.eeGeometry) = some gB)
    (hhB : (if cB = .kEBBasicCluster then st.ebHits else st.eeHits) = some hB)
    (hgS : (if cS = .kEBSuperCluster then st.ebGeometry else st.eeGeometry) = some gS) :
    (∃ s, bcLoop st (decide (cB = .kEBBasicCluster)) 0 bcs ⟨[], 0, 0, []⟩ = .ok s ∧
      s.lowMassCands = []) ∧
    (∃ fills fills',
      runOnBasicClusters lib st bcs cB = .ok fills ∧
      runOnBasicClusters lib { st with ievt := k } bcs cB = .ok fills' ∧
      (∀ f ∈ fills, f.me ≠ .kPi0 ∧ f.me ≠ .kJPsi) ∧
      fills = fills'.filter (fun f => !f.me.isMass)) ∧
    (∃ fills fills',
      runOnSuperClusters lib e3x3 st scs cS = .ok fills ∧
      runOnSuperClusters lib e3x3 { st with ievt := k } scs cS = .ok fills' ∧
      (∀ f ∈ fills, f.me ≠ .kZ ∧ f.me ≠ .kHighMass) ∧
      fills = fills'.filter (fun f => !f.me.isMass)) := by
  have hgB1 : (if decide (cB = .kEBBasicCluster) = true then st.ebGeometry
      else st.eeGeometry) = some gB := by simpa using hgB
  refine ⟨⟨_, bcLoop_total st _ gB hgB1 (Or.inl hclosed) bcs 0 _,
    bcFinal_cands_prescaled st _ gB bcs hclosed⟩, ?_, ?_⟩
  · refine ⟨_, _, runOnBasicClusters_eq lib st gB bcs cB hgB (Or.inl hclosed),
      runOnBasicClusters_eq lib { st with ievt := k } gB bcs cB hgB (Or.inr ⟨hB, hhB⟩), ?_, ?_⟩
    · intro f hf
      simp only [hclosed, if_true, List.append_nil, List.mem_append] at hf
      rcases hf with hf | hf
      · have h := (bcFinal_fills_me st _ gB bcs f hf).2
        constructor <;> intro h' <;> simp [h', MESets.isMass] at h
      · by_cases hc : cB = .kEBBasicCluster <;>
          simp only [bcNumFills, hc, decide_True, decide_False, if_true, Bool.false_eq_true,
            if_false, List.mem_cons, List.mem_singleton, List.mem_nil_iff, or_false] at hf
        · subst hf; simp
        · rcases hf with hf | hf <;> subst hf <;> simp
    · simp only [hclosed, hopen, if_true, List.append_nil, Bool.false_eq_true, if_false,
        List.filter_append]
      have h1 : ∀ st' : ClusterTask F,
          List.filter (fun f : Fill F => !f.me.isMass)
            (bcFinal st' (decide (cB = .kEBBasicCluster)) gB 0 bcs ⟨[], 0, 0, []⟩).fills
          = (bcFinal st (decide (cB = .kEBBasicCluster)) gB 0 bcs ⟨[], 0, 0, []⟩).fills := by
        intro st'
        have : (bcFinal st' (decide (cB = .kEBBasicCluster)) gB 0 bcs ⟨[], 0, 0, []⟩).fills
            = (bcFinal st (decide (cB = .kEBBasicCluster)) gB 0 bcs ⟨[], 0, 0, []⟩).fills := rfl
        rw [this, List.filter_eq_self]
        intro f hf
        simp [(bcFinal_fills_me st _ gB bcs f hf).2]
      have h2 : ∀ st' : ClusterTask F,
          List.filter (fun f : Fill F => !f.me.isMass)
            (bcNumFills (decide (cB = .kEBBasicCluster))
              (bcFinal st' (decide (cB = .kEBBasicCluster)) gB 0 bcs ⟨[], 0, 0, []⟩))
          = bcNumFills (decide (cB = .kEBBasicCluster))
              (bcFinal st (decide (cB = .kEBBasicCluster)) gB 0 bcs ⟨[], 0, 0, []⟩) := by
        intro st'
        by_cases hc : cB = .kEBBasicCluster <;> simp [bcNumFills, hc, bcFinal, MESets.isMass]
      have h3 : ∀ cands, List.filter (fun f : Fill F => !f.me.isMass) (pairLoop lib bcs cands)
          = [] := by
        intro cands
        rw [List.filter_eq_nil_iff]
        intro f hf
        rcases pairLoop_me lib bcs cands f hf with h | h <;> simp [h, MESets.isMass]
      rw [h1, h2, h3, List.append_nil]
  · refine ⟨_, _, runOnSuperClusters_eq lib e3x3 st gS scs cS hgS,
      runOnSuperClusters_eq lib e3x3 { st with ievt := k } gS scs cS hgS, ?_, ?_⟩
    · intro f hf
      simp only [hclosed, if_true, List.append_nil, List.mem_append, List.mem_singleton] at hf
      rcases hf with hf | hf
      · simp only [scFinal, List.nil_append, List.mem_flatMap] at hf
        obtain ⟨sc, _, h⟩ := hf
        have h := (scAllFills_me e3x3 st gS _ _ _ sc f h).2
        constructor <;> intro h' <;> simp [h', MESets.isMass] at h
      · subst hf; simp
    · simp only [hclosed, hopen, if_true, List.append_nil, Bool.false_eq_true, if_false,
        List.filter_append]
      have h1 : ∀ st' : ClusterTask F, st'.topology = st.topology →
          List.filter (fun f : Fill F => !f.me.isMass)
            (scFinal lib e3x3 st' gS (decide (cS = .kEBSuperCluster))
              (if cS = .kEBSuperCluster then st.ebHits else st.eeHits) scs.length scs
              ⟨[], 0, none, none⟩).fills
          = (scFinal lib e3x3 st gS (decide (cS = .kEBSuperCluster))
              (if cS = .kEBSuperCluster then st.ebHits else st.eeHits) scs.length scs
              ⟨[], 0, none, none⟩).fills := by
        intro st' htopo
        have : (scFinal lib e3x3 st' gS (decide (cS = .kEBSuperCluster))
              (if cS = .kEBSuperCluster then st.ebHits else st.eeHits) scs.length scs
              ⟨[], 0, none, none⟩).fills
            = (scFinal lib e3x3 st gS (decide (cS = .kEBSuperCluster))
              (if cS = .kEBSuperCluster then st.ebHits else st.eeHits) scs.length scs
              ⟨[], 0, none, none⟩).fills := by
          simp only [scFinal]
          congr 2
          funext sc
          simp only [scAllFills, scSeedFills, htopo]
        rw [this, List.filter_eq_self]
        intro f hf
        simp only [scFinal, List.nil_append, List.mem_flatMap] at hf
        obtain ⟨sc, _, h⟩ := hf
        simp [(scAllFills_me e3x3 st gS _ _ _ sc f h).2]
      have h3 : ∀ s, List.filter (fun f : Fill F => !f.me.isMass) (scMassFills lib s) = [] := by
        intro s
        rw [List.filter_eq_nil_iff]
        intro f hf
        rcases scMassFills_me lib s f hf with h | h <;> simp [h, MESets.isMass]
      rw [h1 { st with ievt := k } rfl, h3, List.append_nil]
      simp [MESets.isMass]

/-- C5 on the sample barrel event with prescale 2: event 1 is prescaled away, event 2 is not. -/
theorem C5_prescaled_event_witness :
    (exTask 1 2 (some exHits) none).prescaled = true ∧
    ({ exTask 1 2 (some exHits) none with ievt := 2 } : ClusterTask ℝ).prescaled = false ∧
    (if Collections.kEBBasicCluster = .kEBBasicCluster
      then (exTask 1 2 (some exHits) none).ebGeometry
      else (exTask 1 2 (some exHits) none).eeGeometry) = some ⟨fun _ => ebCell 7⟩ ∧
    (if Collections.kEBBasicCluster = .kEBBasicCluster
      then (exTask 1 2 (some exHits) none).ebHits
      else (exTask 1 2 (some exHits) none).eeHits) = some exHits ∧
    (if Collections.kEBSuperCluster = .kEBSuperCluster
      then (exTask 1 2 (some exHits) none).ebGeometry
      else (exTask 1 2 (some exHits) none).eeGeometry) = some ⟨fun _ => ebCell 7⟩ ∧
    (∃ s, bcLoop (exTask 1 2 (some exHits) none) (decide (Collections.kEBBasicCluster
        = .kEBBasicCluster)) 0 [exBC1, exBC3, exBC2] ⟨[], 0, 0, []⟩ = .ok s ∧
      s.lowMassCands = []) ∧
    (∃ fills fills',
      runOnBasicClusters realLibm (exTask 1 2 (some exHits) none) [exBC1, exBC3, exBC2]
        .kEBBasicCluster = .ok fills ∧
      runOnBasicClusters realLibm { exTask 1 2 (some exHits) none with ievt := 2 }
        [exBC1, exBC3, exBC2] .kEBBasicCluster = .ok fills' ∧
      (∀ f ∈ fills, f.me ≠ .kPi0 ∧ f.me ≠ .kJPsi) ∧
      fills = fills'.filter (fun f => !f.me.isMass)) ∧
    (∃ fills fills',
      runOnSuperClusters realLibm exE3x3 (exTask 1 2 (some exHits) none) [exSC3, exSC1]
        .kEBSuperCluster = .ok fills ∧
      runOnSuperClusters realLibm exE3x3 { exTask 1 2 (some exHits) none with ievt := 2 }
        [exSC3, exSC1] .kEBSuperCluster = .ok fills' ∧
      (∀ f ∈ fills, f.me ≠ .kZ ∧ f.me ≠ .kHighMass) ∧
      fills = fills'.filter (fun f => !f.me.isMass)) :=
  ⟨rfl, rfl, rfl, rfl, rfl,
    C5_prescaled_event realLibm exE3x3 (exTask 1 2 (some exHits) none) 2
      ⟨fun _ => ebCell 7⟩ ⟨fun _ => ebCell 7⟩ exHits [exBC1, exBC3, exBC2] [exSC3, exSC1]
      .kEBBasicCluster .kEBSuperCluster rfl rfl rfl rfl rfl⟩

/-- C7: the body of the pair loop gives the same outcome, with the same mass, for an
ordered pair of candidates and for the reversed pair; hence on an event with prescale 1
whose candidates are exactly `c1` and `c2`, if the pair `(c1, c2)` passes the cuts and
fills the mass `m`, the call makes, after the per-cluster and multiplicity fills, exactly
the four fills `kPi0 m`, `kJPsi m`, `kPi0 m`, `kJPsi m`. -/
theorem C7_pair_order_symmetric (lib : Libm F) (bcs : List (BasicCluster F)) :
    (∀ c1 c2 : Nat × BasicCluster F,
      pairOutcome lib bcs c1 c2 = pairOutcome lib bcs c2 c1 ∧
      pairFills lib bcs c1 c2 = pairFills lib bcs c2 c1) ∧
    (∀ (st : ClusterTask F) (_collection : Collections) (s : BCLoop F)
      (c1 c2 : Nat × BasicCluster F) (eta phi iso m : F),
      st.massCalcPrescale = 1 →
      bcLoop st (decide (_collection = .kEBBasicCluster)) 0 bcs ⟨[], 0, 0, []⟩ = .ok s →
      s.lowMassCands = [c1, c2] →
      pairOutcome lib bcs c1 c2 = .filled eta phi iso m →
      runOnBasicClusters lib st bcs _collection = .ok
        (s.fills ++ bcNumFills (decide (_collection = .kEBBasicCluster)) s ++
          [⟨.kPi0, .x m⟩, ⟨.kJPsi, .x m⟩, ⟨.kPi0, .x m⟩, ⟨.kJPsi, .x m⟩])) := by
  constructor
  · intro c1 c2
    exact ⟨pairOutcome_comm lib bcs c1 c2, by
      simp only [pairFills, pairOutcome_comm lib bcs c1 c2]⟩
  · intro st _collection s c1 c2 eta phi iso m hpre hloop hc hout
    have hopen : st.prescaled = false := by
      simp [ClusterTask.prescaled, hpre]
    have h12 : pairFills lib bcs c1 c2 = [⟨.kPi0, .x m⟩, ⟨.kJPsi, .x m⟩] := by
      simp [pairFills, hout]
    have h21 : pairFills lib bcs c2 c1 = [⟨.kPi0, .x m⟩, ⟨.kJPsi, .x m⟩] := by
      simp [pairFills, ← pairOutcome_comm lib bcs c1 c2, hout]
    simp only [runOnBasicClusters, hloop, hopen, Bool.false_eq_true, if_false, hc,
      pairLoop_eq_flatMap, List.flatMap_cons, List.flatMap_nil, pairFills_self, h12, h21]
    simp

/-- C7 on the sample barrel event: the back-to-back clusters of energies 5 and 2 pass the
cuts in both orders and the mass `sqrt 40` is filled twice into each of `kPi0` and `kJPsi`. -/
theorem C7_pair_order_symmetric_witness :
    (exTask 1 1 (some exHits) none).massCalcPrescale = 1 ∧
    bcLoop (exTask 1 1 (some exHits) none) (decide (Collections.kEBBasicCluster
        = .kEBBasicCluster)) 0 [exBC1, exBC3, exBC2] ⟨[], 0, 0, []⟩
      = .ok ⟨bcFills (ebCell 1) exBC1 ++ bcFills (ebCell 2) exBC2, 2, 0,
          [(0, exBC1), (2, exBC2)]⟩ ∧
    pairOutcome realLibm [exBC1, exBC3, exBC2] (0, exBC1) (2, exBC2)
      = .filled 0 (Real.pi / 2) 0 (Real.sqrt 40) ∧
    pairOutcome realLibm [exBC1, exBC3, exBC2] (2, exBC2) (0, exBC1)
      = .filled 0 (Real.pi / 2) 0 (Real.sqrt 40) ∧
    runOnBasicClusters realLibm (exTask 1 1 (some exHits) none) [exBC1, exBC3, exBC2]
        .kEBBasicCluster
      = .ok (bcFills (ebCell 1) exBC1 ++ bcFills (ebCell 2) exBC2
          ++ [⟨.kBCNum, .bin .kEB 2⟩]
          ++ [⟨.kPi0, .x (Real.sqrt 40)⟩, ⟨.kJPsi, .x (Real.sqrt 40)⟩,
              ⟨.kPi0, .x (Real.sqrt 40)⟩, ⟨.kJPsi, .x (Real.sqrt 40)⟩]) := by
  have h := C7_pair_order_symmetric realLibm [exBC1, exBC3, exBC2]
  refine ⟨rfl, ex_bcLoop, ex_pairOutcome, ?_, ?_⟩
  · rw [← (h.1 (0, exBC1) (2, exBC2)).1]
    exact ex_pairOutcome
  · exact h.2 (exTask 1 1 (some exHits) none) .kEBBasicCluster _ (0, exBC1) (2, exBC2) 0
      (Real.pi / 2) 0 (Real.sqrt 40) rfl ex_bcLoop rfl ex_pairOutcome

/-- C8: the mass that the pair loop fills for a pair that passes all cuts is the closed
form `sqrt(e^2 - px^2 - py^2 - pz^2)` of the summed four-momenta
`(E, E sin(theta) cos(phi), E sin(theta) sin(phi), E cos(theta))` of the two candidates,
and it is this value that goes into `kPi0` and `kJPsi`. -/
theorem C8_mass_closed_form (bcs : List (BasicCluster ℝ)) (c1 c2 : Nat × BasicCluster ℝ)
    (eta phi iso m : ℝ) (h : pairOutcome realLibm bcs c1 c2 = .filled eta phi iso m) :
    m = Real.sqrt
      ((c1.2.energy + c2.2.energy) ^ 2
        - (c1.2.energy * Real.sin c1.2.position.theta * Real.cos c1.2.position.phi
            + c2.2.energy * Real.sin c2.2.position.theta * Real.cos c2.2.position.phi) ^ 2
        - (c1.2.energy * Real.sin c1.2.position.theta * Real.sin c1.2.position.phi
            + c2.2.energy * Real.sin c2.2.position.theta * Real.sin c2.2.position.phi) ^ 2
        - (c1.2.energy * Real.cos c1.2.position.theta
            + c2.2.energy * Real.cos c2.2.position.theta) ^ 2) ∧
    pairFills realLibm bcs c1 c2 = [⟨.kPi0, .x m⟩, ⟨.kJPsi, .x m⟩] := by
  have hm : m = pairMass realLibm c1.2 c2.2 := by
    unfold pairOutcome at h
    split at h
    · cases h
    · split at h
      · cases h
      · split at h
        · cases h
        · simp only at h
          split at h
          · cases h
          · cases h; rfl
  refine ⟨?_, by simp [pairFills, h]⟩
  rw [hm, pairMass, pairMassSq_real]
  rfl

/-- C8 on the sample pair: the filled mass `sqrt 40` is the closed form. -/
theorem C8_mass_closed_form_witness :
    pairOutcome realLibm [exBC1, exBC3, exBC2] (0, exBC1) (2, exBC2)
      = .filled 0 (Real.pi / 2) 0 (Real.sqrt 40) ∧
    Real.sqrt 40 = Real.sqrt
      ((exBC1.energy + exBC2.energy) ^ 2
        - (exBC1.energy * Real.sin exBC1.position.theta * Real.cos exBC1.position.phi
            + exBC2.energy * Real.sin exBC2.position.theta * Real.cos exBC2.position.phi) ^ 2
        - (exBC1.energy * Real.sin exBC1.position.theta * Real.sin exBC1.position.phi
            + exBC2.energy * Real.sin exBC2.position.theta * Real.sin exBC2.position.phi) ^ 2
        - (exBC1.energy * Real.cos exBC1.position.theta
            + exBC2.energy * Real.cos exBC2.position.theta) ^ 2) ∧
    pairFills realLibm [exBC1, exBC3, exBC2] (0, exBC1) (2, exBC2)
      = [⟨.kPi0, .x (Real.sqrt 40)⟩, ⟨.kJPsi, .x (Real.sqrt 40)⟩] :=
  ⟨ex_pairOutcome,
    C8_mass_closed_form [exBC1, exBC3, exBC2] (0, exBC1) (2, exBC2) 0 (Real.pi / 2) 0
      (Real.sqrt 40) ex_pairOutcome⟩

/-- C9: a candidate pair whose combined energy is at most the absolute value of its
combined longitudinal momentum leaves the body of the pair loop before `eta` is computed
(at the pointer test, the transverse-momentum cut or the energy guard) and fills no mass;
and whenever the body gets as far as `eta`, the denominator `epair - pzpair` of the
quotient under the logarithm is positive. -/
theorem C9_energy_guard (lib : Libm F) (bcs : List (BasicCluster F))
    (c1 c2 : Nat × BasicCluster F) :
    (epair c1.2 c2.2 ≤ |pz lib c1.2 + pz lib c2.2| →
      (pairOutcome lib bcs c1 c2 = .samePointer ∨ pairOutcome lib bcs c1 c2 = .lowPt ∨
        pairOutcome lib bcs c1 c2 = .energyBelowPz) ∧
      pairFills lib bcs c1 c2 = []) ∧
    (∀ eta phi iso : F,
      (pairOutcome lib bcs c1 c2 = .notIsolated eta phi iso ∨
        ∃ m, pairOutcome lib bcs c1 c2 = .filled eta phi iso m) →
      0 < epair c1.2 c2.2 - pzpair lib c1.2 c2.2 ∧
      eta = 0.5 * lib.log ((epair c1.2 c2.2 + pzpair lib c1.2 c2.2)
        / (epair c1.2 c2.2 - pzpair lib c1.2 c2.2))) := by
  constructor
  · intro hle
    have hlt : epair c1.2 c2.2 < pzpair lib c1.2 c2.2 + 1e-10 := by
      have h0 : (0:F) < 1e-10 := by norm_num
      have : epair c1.2 c2.2 ≤ pzpair lib c1.2 c2.2 := hle
      linarith
    have hout : pairOutcome lib bcs c1 c2 = .samePointer ∨ pairOutcome lib bcs c1 c2 = .lowPt ∨
        pairOutcome lib bcs c1 c2 = .energyBelowPz := by
      unfold pairOutcome
      by_cases h1 : c1.1 = c2.1
      · left; simp [h1]
      · by_cases h2 : ptpair lib c1.2 c2.2 < 2.5
        · right; left; simp [h1, h2]
        · right; right; simp [h1, h2, hlt]
    refine ⟨hout, ?_⟩
    unfold pairFills
    rcases hout with h | h | h <;> rw [h]
  · intro eta phi iso hout
    unfold pairOutcome at hout
    by_cases h1 : c1.1 = c2.1
    · simp [h1] at hout
    · by_cases h2 : ptpair lib c1.2 c2.2 < 2.5
      · simp [h1, h2] at hout
      · by_cases h3 : epair c1.2 c2.2 < pzpair lib c1.2 c2.2 + 1e-10
        · simp [h1, h2, h3] at hout
        · have h0 : (0:F) < 1e-10 := by norm_num
          have hpos : 0 < epair c1.2 c2.2 - pzpair lib c1.2 c2.2 := by
            have := not_lt.mp h3
            linarith
          refine ⟨hpos, ?_⟩
          simp only [h1, h2, h3, if_false] at hout
          by_cases h4 : pairIso lib bcs c1.2 c2.2 > 0.5
          · simp only [h4, if_true] at hout
            rcases hout with h | ⟨m, h⟩
            · cases h; rfl
            · cases h
          · simp only [h4, if_false] at hout
            rcases hout with h | ⟨m, h⟩
            · cases h
            · cases h; rfl

/-- C9 on two clusters along the z axis (combined energy 5, combined longitudinal momentum
5), which fill nothing, and on the sample pair, which reaches `eta` with denominator 7. -/
theorem C9_energy_guard_witness :
    (epair exBCz1 exBCz2 ≤ |pz realLibm exBCz1 + pz realLibm exBCz2| ∧
      (pairOutcome realLibm [exBCz1, exBCz2] (0, exBCz1) (1, exBCz2) = .samePointer ∨
        pairOutcome realLibm [exBCz1, exBCz2] (0, exBCz1) (1, exBCz2) = .lowPt ∨
        pairOutcome realLibm [exBCz1, exBCz2] (0, exBCz1) (1, exBCz2) = .energyBelowPz) ∧
      pairFills realLibm [exBCz1, exBCz2] (0, exBCz1) (1, exBCz2) = []) ∧
    ((pairOutcome realLibm [exBC1, exBC3, exBC2] (0, exBC1) (2, exBC2)
          = .notIsolated 0 (Real.pi / 2) 0 ∨
        ∃ m, pairOutcome realLibm [exBC1, exBC3, exBC2] (0, exBC1) (2, exBC2)
          = .filled 0 (Real.pi / 2) 0 m) ∧
      0 < epair exBC1 exBC2 - pzpair realLibm exBC1 exBC2 ∧
      (0:ℝ) = 0.5 * realLibm.log ((epair exBC1 exBC2 + pzpair realLibm exBC1 exBC2)
        / (epair exBC1 exBC2 - pzpair realLibm exBC1 exBC2))) := by
  have hle : epair exBCz1 exBCz2 ≤ |pz realLibm exBCz1 + pz realLibm exBCz2| := by
    simp only [epair, pz, realLibm, exBCz1, exBCz2, Real.cos_zero, mul_one]
    exact le_abs_self _
  have hout : pairOutcome realLibm [exBC1, exBC3, exBC2] (0, exBC1) (2, exBC2)
        = .notIsolated 0 (Real.pi / 2) 0 ∨
      ∃ m, pairOutcome realLibm [exBC1, exBC3, exBC2] (0, exBC1) (2, exBC2)
        = .filled 0 (Real.pi / 2) 0 m := Or.inr ⟨_, ex_pairOutcome⟩
  exact ⟨⟨hle, (C9_energy_guard realLibm [exBCz1, exBCz2] (0, exBCz1) (1, exBCz2)).1 hle⟩,
    ⟨hout, (C9_energy_guard realLibm [exBC1, exBC3, exBC2] (0, exBC1) (2, exBC2)).2
      0 (Real.pi / 2) 0 hout⟩⟩

/-- C10: for clusters of non-negative energy the argument of the square root of the mass
is non-negative, both for a pair of basic clusters (where it equals
`e^2 - px^2 - py^2 - pz^2` of the summed four-momentum) and for the leading and
sub-leading superclusters. -/
theorem C10_radicand_nonneg (bc1 bc2 : BasicCluster ℝ) (leading subLeading : SuperCluster ℝ)
    (h1 : 0 ≤ bc1.energy) (h2 : 0 ≤ bc2.energy)
    (h3 : 0 ≤ leading.energy) (h4 : 0 ≤ subLeading.energy) :
    0 ≤ pairMassSq realLibm bc1 bc2 ∧
    pairMassSq realLibm bc1 bc2 =
      (bc1.energy + bc2.energy) ^ 2
      - (bc1.energy * Real.sin bc1.position.theta * Real.cos bc1.position.phi
          + bc2.energy * Real.sin bc2.position.theta * Real.cos bc2.position.phi) ^ 2
      - (bc1.energy * Real.sin bc1.position.theta * Real.sin bc1.position.phi
          + bc2.energy * Real.sin bc2.position.theta * Real.sin bc2.position.phi) ^ 2
      - (bc1.energy * Real.cos bc1.position.theta
          + bc2.energy * Real.cos bc2.position.theta) ^ 2 ∧
    0 ≤ scMassSq realLibm leading subLeading ∧
    scMass realLibm leading subLeading = Real.sqrt (scMassSq realLibm leading subLeading) := by
  refine ⟨?_, pairMassSq_real bc1 bc2, ?_, rfl⟩
  · rw [pairMassSq_real]
    exact fourMomentum_radicand_nonneg _ _ _ _ _ _ h1 h2
  · have h := fourMomentum_radicand_nonneg leading.energy subLeading.energy
      leading.position.theta subLeading.position.theta leading.position.phi
      subLeading.position.phi h3 h4
    simp only [scMassSq, realLibm]
    nlinarith [h]

/-- C10 on the sample clusters and superclusters, all of non-negative energy. -/
theorem C10_radicand_nonneg_witness :
    (0:ℝ) ≤ exBC1.energy ∧ (0:ℝ) ≤ exBC2.energy ∧ (0:ℝ) ≤ exSC1.energy ∧
    (0:ℝ) ≤ exSC3.energy ∧
    0 ≤ pairMassSq realLibm exBC1 exBC2 ∧
    0 ≤ scMassSq realLibm exSC1 exSC3 := by
  have h1 : (0:ℝ) ≤ exBC1.energy := by simp [exBC1]
  have h2 : (0:ℝ) ≤ exBC2.energy := by simp [exBC2]
  have h3 : (0:ℝ) ≤ exSC1.energy := by simp [exSC1]
  have h4 : (0:ℝ) ≤ exSC3.energy := by simp [exSC3]
  have h := C10_radicand_nonneg exBC1 exBC2 exSC1 exSC3 h1 h2 h3 h4
  exact ⟨h1, h2, h3, h4, h.1, h.2.2.1⟩

/-- C12 fails on the sample pair: the combined momentum is `px = 3`, `py = 0`, of azimuth
0, the pair reaches the isolation step, and the `phi` about which the cone is drawn is
`pi/2`, for which `pt * cos(phi) = 0` is not `px` and `pt * sin(phi) = 3` is not `py`. -/
theorem C12_phi_arguments_exchanged :
    px realLibm exBC1 + px realLibm exBC2 = 3 ∧
    py realLibm exBC1 + py realLibm exBC2 = 0 ∧
    ptpair realLibm exBC1 exBC2 = 3 ∧
    pairOutcome realLibm [exBC1, exBC3, exBC2] (0, exBC1) (2, exBC2)
      = .filled 0 (Real.pi / 2) 0 (Real.sqrt 40) ∧
    pairPhi realLibm exBC1 exBC2 = Real.pi / 2 ∧
    px realLibm exBC1 + px realLibm exBC2
      ≠ ptpair realLibm exBC1 exBC2 * Real.cos (pairPhi realLibm exBC1 exBC2) ∧
    py realLibm exBC1 + py realLibm exBC2
      ≠ ptpair realLibm exBC1 exBC2 * Real.sin (pairPhi realLibm exBC1 exBC2) := by
  refine ⟨?_, ?_, ex_ptpair, ex_pairOutcome, ex_pairPhi, ?_, ?_⟩
  · rw [exBC1_momentum.1, exBC2_momentum.1]; norm_num
  · rw [exBC1_momentum.2.1, exBC2_momentum.2.1]; norm_num
  · rw [exBC1_momentum.1, exBC2_momentum.1, ex_ptpair, ex_pairPhi, Real.cos_pi_div_two]
    norm_num
  · rw [exBC1_momentum.2.1, exBC2_momentum.2.1, ex_ptpair, ex_pairPhi, Real.sin_pi_div_two]
    norm_num

/-- C13 fails on two superclusters of equal transverse energy 50.2, both with a seed hit,
on an event that passes the prescale gate: the `float` value `et` of the second,
50.200000762939453125, is above the `double` value 50.2 recomputed for the first, so the
loop ends with the second one leading and the first one sub-leading, which is not the
earliest one on a tie.  On three superclusters of transverse energies 50.2000005,
50.2000001 and 50.2, in this order, the loop ends with the one of 50.2 leading and the one
of 50.2000001 sub-leading, the two lowest. -/
theorem C13_narrowed_comparison :
    (exTask 1 1 (some exHits3) none).prescaled = false ∧
    scEt realLibm exSCt1 = 50.2 ∧ scEt realLibm exSCt2 = 50.2 ∧
    etFloat realLibm exSCt2 = 13159629 / 262144 ∧
    (∃ s, scLoop realLibm exE3x3 (exTask 1 1 (some exHits3) none) true (some exHits3)
        [exSCt1, exSCt2].length [exSCt1, exSCt2] ⟨[], 0, none, none⟩ = .ok s ∧
      s.leading = some exSCt2 ∧ s.subLeading = some exSCt1) ∧
    ¬ IsLeadingPair realLibm [exSCt1, exSCt2] (some exSCt2, some exSCt1) ∧
    scEt realLibm exSCn1 = 50.2000005 ∧ scEt realLibm exSCn2 = 50.2000001 ∧
    scEt realLibm exSCn3 = 50.2 ∧
    (∃ s, scLoop realLibm exE3x3 (exTask 1 1 (some exHits3) none) true (some exHits3)
        [exSCn1, exSCn2, exSCn3].length [exSCn1, exSCn2, exSCn3] ⟨[], 0, none, none⟩
        = .ok s ∧
      s.leading = some exSCn3 ∧ s.subLeading = some exSCn2) := by
  have hp : (exTask 1 1 (some exHits3) none).prescaled = false := rfl
  refine ⟨rfl, exSCt_et.1, exSCt_et.2.1, exSCt_etFloat.2.1, ?_, ?_, exSCt_et.2.2.1,
    exSCt_et.2.2.2.1, exSCt_et.2.2.2.2, ?_⟩
  · refine ⟨_, scLoop_eq realLibm exE3x3 (exTask 1 1 (some exHits3) none)
      ⟨fun _ => ebCell 7⟩ true rfl (some exHits3) _ _ _, ?_, ?_⟩
    · simp only [scFinal, hp, Bool.false_eq_true, if_false]
      rw [exSCt_matched.1, exSCt_tracked.1]
    · simp only [scFinal, hp, Bool.false_eq_true, if_false]
      rw [exSCt_matched.1, exSCt_tracked.1]
  · rintro ⟨_, hcons⟩
    obtain ⟨i, a, hia, hp1, _, hfirst, _⟩ := hcons (by simp)
    have ha : a = exSCt2 := (Option.some.inj hp1).symm
    subst ha
    match i, hia, hfirst with
    | 0, hia, _ =>
      have h12 : exSCt1 = exSCt2 := by simpa using hia
      have hx : exSCt1.position.x = exSCt2.position.x := by rw [h12]
      simp only [exSCt1, exSCt2] at hx
      norm_num at hx
    | 1, _, hfirst =>
      have hlt := hfirst 0 exSCt1 (by decide) (by simp)
      rw [exSCt_et.1, exSCt_et.2.1] at hlt
      exact lt_irrefl _ hlt
    | n + 2, hia, _ => simp at hia
  · refine ⟨_, scLoop_eq realLibm exE3x3 (exTask 1 1 (some exHits3) none)
      ⟨fun _ => ebCell 7⟩ true rfl (some exHits3) _ _ _, ?_, ?_⟩
    · simp only [scFinal, hp, Bool.false_eq_true, if_false]
      rw [exSCt_matched.2, exSCt_tracked.2]
    · simp only [scFinal, hp, Bool.false_eq_true, if_false]
      rw [exSCt_matched.2, exSCt_tracked.2]

/-- C14 (as amended): on an event that passes the prescale gate the tracking of
`runOnSuperClusters` ranges over the superclusters that are retained after the
region-mismatch filter and whose resolved cell has a hit in the region's hit buffer:
`leading` and `subLeading` after the loop are the result of the selection step of lines
277-284 applied, in the order of the collection, to exactly these; each of the two is
retained and has a seed hit; they are the two of highest transverse energy among exactly
these whenever the narrowing to `float` leaves the transverse energy of each of these
unchanged; and both are absent when the hit buffer is absent. -/
theorem C14_tracking_over_matched (lib : Libm F)
    (e3x3 : BasicCluster F → EcalRecHitCollection F → Option CaloTopology → F)
    (st : ClusterTask F) (g : CaloSubdetectorGeometry F) (isBarrel : Bool)
    (hits : Option (EcalRecHitCollection F)) (scs : List (SuperCluster F))
    (hopen : st.prescaled = false)
    (hg : (if isBarrel then st.ebGeometry else st.eeGeometry) = some g) :
    ∃ s, scLoop lib e3x3 st isBarrel hits scs.length scs ⟨[], 0, none, none⟩ = .ok s ∧
      (s.leading, s.subLeading)
        = (scs.filter (fun sc => scRetained g isBarrel sc && (scSeedHit g hits sc).isSome)).foldl
            (trackStep lib) (none, none) ∧
      (∀ sc, (s.leading = some sc ∨ s.subLeading = some sc) →
        sc ∈ scs ∧ scRetained g isBarrel sc = true ∧ (scSeedHit g hits sc).isSome = true) ∧
      ((∀ sc ∈ scs, scRetained g isBarrel sc = true → (scSeedHit g hits sc).isSome = true →
          etFloat lib sc = scEt lib sc) →
        IsLeadingPair lib
          (scs.filter (fun sc => scRetained g isBarrel sc && (scSeedHit g hits sc).isSome))
          (s.leading, s.subLeading)) ∧
      (hits = none → s.leading = none ∧ s.subLeading = none) := by
  have hfun : (fun sc => scRetained g isBarrel sc && (scSeedHit g hits sc).isSome)
      = scMatched g isBarrel hits := by
    funext sc; rfl
  rw [hfun]
  have hfold : ((scFinal lib e3x3 st g isBarrel hits scs.length scs ⟨[], 0, none, none⟩).leading,
      (scFinal lib e3x3 st g isBarrel hits scs.length scs ⟨[], 0, none, none⟩).subLeading)
      = (scs.filter (scMatched g isBarrel hits)).foldl (trackStep lib) (none, none) := by
    simp [scFinal, hopen]
  refine ⟨_, scLoop_eq lib e3x3 st g isBarrel hg hits scs.length scs _, hfold, ?_, ?_, ?_⟩
  · intro sc hsc
    have hsc2 : ((scs.filter (scMatched g isBarrel hits)).foldl (trackStep lib) (none, none)).1
          = some sc ∨
        ((scs.filter (scMatched g isBarrel hits)).foldl (trackStep lib) (none, none)).2
          = some sc := by
      rw [← hfold]; exact hsc
    rcases trackStep_foldl_mem lib _ _ sc hsc2 with h | h | h
    · have hm := List.mem_filter.1 h
      have hr := hm.2
      simp only [scMatched, Bool.and_eq_true] at hr
      exact ⟨hm.1, hr.1, hr.2⟩
    · simp at h
    · simp at h
  · intro hexact
    rw [hfold]
    apply isLeadingPair_foldl
    intro sc hsc
    have hm := List.mem_filter.1 hsc
    have hr := hm.2
    simp only [scMatched, Bool.and_eq_true] at hr
    exact hexact sc hm.1 hr.1 hr.2
  · intro hnone
    subst hnone
    have hempty : scs.filter (scMatched g isBarrel none) = [] := by
      rw [List.filter_eq_nil_iff]
      intro sc _
      simp [scMatched, scSeedHit]
    rw [hempty] at hfold
    simp only [List.foldl_nil, Prod.mk.injEq] at hfold
    exact hfold

/-- C14, as stated, fails: on a barrel event that passes the prescale gate, with the
retained superclusters `exSC1` (transverse energy 50, no hit in its cell) and `exSCb`
(transverse energy 10, with a hit), the loop ends with `exSCb` leading and no sub-leading
supercluster, which are not the two highest transverse energies of the retained
superclusters. -/
theorem C14_tracking_counterexample :
    (exTask 1 1 (some [⟨ebCell 2, 1⟩]) none).prescaled = false ∧
    [exSC1, exSCb].filter (scRetained ⟨fun _ => ebCell 7⟩ true) = [exSC1, exSCb] ∧
    scEt realLibm exSC1 = 50 ∧ scEt realLibm exSCb = 10 ∧
    (∃ s, scLoop realLibm exE3x3 (exTask 1 1 (some [⟨ebCell 2, 1⟩]) none) true
        (some [⟨ebCell 2, 1⟩]) [exSC1, exSCb].length [exSC1, exSCb] ⟨[], 0, none, none⟩
        = .ok s ∧ s.leading = some exSCb ∧ s.subLeading = none) ∧
    ¬ IsLeadingPair realLibm ([exSC1, exSCb].filter (scRetained ⟨fun _ => ebCell 7⟩ true))
        (some exSCb, none) := by
  have hret : [exSC1, exSCb].filter (scRetained ⟨fun _ => ebCell 7⟩ true) = [exSC1, exSCb] := by
    simp [scRetained, scCell, resolvedCell, retainedCell, otherRegionTag, exSC1, exSCb, exBC1,
      exBC2, ebCell]
  refine ⟨rfl, hret, ?_, ?_, ?_, ?_⟩
  · simp [scEt, realLibm, exSC1]
  · simp [scEt, realLibm, exSCb]
  · refine ⟨_, scLoop_eq realLibm exE3x3 (exTask 1 1 (some [⟨ebCell 2, 1⟩]) none)
      ⟨fun _ => ebCell 7⟩ true rfl (some [⟨ebCell 2, 1⟩]) _ _ _, ?_, ?_⟩
    · simp [scFinal, ClusterTask.prescaled, exTask, scMatched, scRetained, scSeedHit, scCell, resolvedCell, retainedCell,
        otherRegionTag, exSC1, exSCb, exBC1, exBC2, ebCell, EcalRecHitCollection.find,
        trackStep, trackLeading]
    · simp [scFinal, ClusterTask.prescaled, exTask, scMatched, scRetained, scSeedHit, scCell, resolvedCell, retainedCell,
        otherRegionTag, exSC1, exSCb, exBC1, exBC2, ebCell, EcalRecHitCollection.find,
        trackStep, trackLeading]
  · rw [hret]
    rintro ⟨_, hcons⟩
    obtain ⟨i, a, _, _, _, _, _, hlong⟩ := hcons (by simp)
    obtain ⟨k, b, _, _, hb, _⟩ := hlong (by simp)
    cases hb

/-- C14 (as amended) on the same event: the supercluster with a seed hit leads, the one
without takes no part, and the narrowing to `float` leaves the transverse energy 10 of the
one that is tracked unchanged. -/
theorem C14_tracking_over_matched_witness :
    (exTask 1 1 (some [⟨ebCell 2, 1⟩]) none).prescaled = false ∧
    (if true then (exTask 1 1 (some [⟨ebCell 2, 1⟩]) none).ebGeometry
      else (exTask 1 1 (some [⟨ebCell 2, 1⟩]) none).eeGeometry) = some ⟨fun _ => ebCell 7⟩ ∧
    ∃ s, scLoop realLibm exE3x3 (exTask 1 1 (some [⟨ebCell 2, 1⟩]) none) true
        (some [⟨ebCell 2, 1⟩]) [exSC1, exSCb].length [exSC1, exSCb] ⟨[], 0, none, none⟩
        = .ok s ∧ s.leading = some exSCb ∧ s.subLeading = none ∧
      IsLeadingPair realLibm
        ([exSC1, exSCb].filter (fun sc => scRetained ⟨fun _ => ebCell 7⟩ true sc &&
          (scSeedHit ⟨fun _ => ebCell 7⟩ (some [⟨ebCell 2, 1⟩]) sc).isSome))
        (s.leading, s.subLeading) := by
  obtain ⟨s, hs, hfold, _, hlead, _⟩ := C14_tracking_over_matched realLibm exE3x3
    (exTask 1 1 (some [⟨ebCell 2, 1⟩]) none) ⟨fun _ => ebCell 7⟩ true
    (some [⟨ebCell 2, 1⟩]) [exSC1, exSCb] rfl rfl
  have hexact : ∀ sc ∈ [exSC1, exSCb], scRetained ⟨fun _ => ebCell 7⟩ true sc = true →
      (scSeedHit ⟨fun _ => ebCell 7⟩ (some [⟨ebCell 2, 1⟩]) sc).isSome = true →
      etFloat realLibm sc = scEt realLibm sc := by
    intro sc hsc _ hhit
    simp only [List.mem_cons, List.mem_singleton, List.mem_nil_iff, or_false] at hsc
    rcases hsc with h | h <;> subst h
    · simp [scSeedHit, scCell, resolvedCell, exSC1, exBC1, ebCell,
        EcalRecHitCollection.find] at hhit
    · rw [exSC_etFloat.2.1, exSC_et.2.1]
  have hm : [exSC1, exSCb].filter (fun sc => scRetained ⟨fun _ => ebCell 7⟩ true sc &&
      (scSeedHit ⟨fun _ => ebCell 7⟩ (some [⟨ebCell 2, 1⟩]) sc).isSome) = [exSCb] := by
    simp [scRetained, scSeedHit, scCell, resolvedCell, retainedCell, otherRegionTag, exSC1,
      exSCb, exBC1, exBC2, ebCell, EcalRecHitCollection.find]
  have hpair := hlead hexact
  rw [hm] at hfold
  simp only [List.foldl_cons, List.foldl_nil, trackStep_none] at hfold
  exact ⟨rfl, rfl, s, hs, congrArg Prod.fst hfold, congrArg Prod.snd hfold, hpair⟩

/-- C15: with the region's geometry set, `runOnSuperClusters` returns, and its `kZ` and
`kHighMass` fills are: none on an event that does not pass the prescale gate, none when
`leading` or `subLeading` is absent after the loop, and otherwise exactly one `kZ` fill
followed by one `kHighMass` fill, both with the mass of the leading and sub-leading
superclusters; a collection of fewer than two superclusters gives none. -/
theorem C15_two_body_mass_fills (lib : Libm F)
    (e3x3 : BasicCluster F → EcalRecHitCollection F → Option CaloTopology → F)
    (st : ClusterTask F) (g : CaloSubdetectorGeometry F) (scs : List (SuperCluster F))
    (_collection : Collections)
    (hg : (if _collection = .kEBSuperCluster then st.ebGeometry else st.eeGeometry) = some g) :
    ∃ fills s,
      scLoop lib e3x3 st (decide (_collection = .kEBSuperCluster))
        (if _collection = .kEBSuperCluster then st.ebHits else st.eeHits) scs.length scs
        ⟨[], 0, none, none⟩ = .ok s ∧
      runOnSuperClusters lib e3x3 st scs _collection = .ok fills ∧
      (st.prescaled = true →
        fills.filter (fun f => f.me == .kZ || f.me == .kHighMass) = []) ∧
      ((s.leading = none ∨ s.subLeading = none) →
        fills.filter (fun f => f.me == .kZ || f.me == .kHighMass) = []) ∧
      (∀ leading subLeading : SuperCluster F, st.prescaled = false →
        s.leading = some leading → s.subLeading = some subLeading →
        fills.filter (fun f => f.me == .kZ || f.me == .kHighMass)
          = [⟨.kZ, .x (scMass lib leading subLeading)⟩,
             ⟨.kHighMass, .x (scMass lib leading subLeading)⟩]) ∧
      (scs.length < 2 →
        fills.filter (fun f => f.me == .kZ || f.me == .kHighMass) = []) := by
  have hg1 : (if decide (_collection = .kEBSuperCluster) = true then st.ebGeometry
      else st.eeGeometry) = some g := by simpa using hg
  have hfilter : ∀ tail : List (Fill F),
      List.filter (fun f : Fill F => f.me == .kZ || f.me == .kHighMass)
        ((scFinal lib e3x3 st g (decide (_collection = .kEBSuperCluster))
            (if _collection = .kEBSuperCluster then st.ebHits else st.eeHits) scs.length scs
            ⟨[], 0, none, none⟩).fills
          ++ [⟨.kSCNum, .bin (if _collection = .kEBSuperCluster then .kEB else .kEE)
              (scs.countP (scMatched g (decide (_collection = .kEBSuperCluster))
                (if _collection = .kEBSuperCluster then st.ebHits else st.eeHits)))⟩]
          ++ tail)
      = List.filter (fun f : Fill F => f.me == .kZ || f.me == .kHighMass) tail := by
    intro tail
    rw [List.filter_append, List.filter_append, scFinal_fills_filter_mass]
    simp
  have hnone : ∀ s : SCLoop F, (s.leading = none ∨ s.subLeading = none) →
      scMassFills lib s = [] := by
    intro s h
    unfold scMassFills
    rcases h with h | h
    · rw [h]
    · rw [h]; cases s.leading <;> rfl
  refine ⟨_, _, scLoop_eq lib e3x3 st g _ hg1 _ scs.length scs _,
    runOnSuperClusters_eq lib e3x3 st g scs _collection hg, ?_, ?_, ?_, ?_⟩
  · intro hp
    rw [hfilter]
    simp [hp]
  · intro h
    rw [hfilter, hnone _ h]
    simp
  · intro leading subLeading hp hl hsl
    rw [hfilter]
    simp [hp, scMassFills, hl, hsl]
  · intro hlen
    rw [hfilter]
    cases hp : st.prescaled
    · have hsl : (scFinal lib e3x3 st g (decide (_collection = .kEBSuperCluster))
          (if _collection = .kEBSuperCluster then st.ebHits else st.eeHits) scs.length scs
          ⟨[], 0, none, none⟩).subLeading = none := by
        simp only [scFinal, hp, Bool.false_eq_true, if_false]
        apply trackStep_foldl_snd_none
        exact lt_of_le_of_lt (List.length_filter_le _ _) hlen
      rw [hnone _ (Or.inr hsl)]
      simp
    · simp

/-- C15 on the sample barrel event with superclusters of transverse energies 3, 5 and 10:
one `kZ` fill and one `kHighMass` fill, with the mass of the two highest. -/
theorem C15_two_body_mass_fills_witness :
    (if Collections.kEBSuperCluster = .kEBSuperCluster
      then (exTask 1 1 (some exHits3) none).ebGeometry
      else (exTask 1 1 (some exHits3) none).eeGeometry) = some ⟨fun _ => ebCell 7⟩ ∧
    ∃ fills, runOnSuperClusters realLibm exE3x3 (exTask 1 1 (some exHits3) none)
        [exSCc, exSCa, exSC3, exSCb] .kEBSuperCluster = .ok fills ∧
      fills.filter (fun f => f.me == .kZ || f.me == .kHighMass)
        = [⟨.kZ, .x (scMass realLibm exSCb exSCa)⟩,
           ⟨.kHighMass, .x (scMass realLibm exSCb exSCa)⟩] := by
  obtain ⟨fills, s, hs, hrun, _, _, h3, _⟩ := C15_two_body_mass_fills realLibm exE3x3
    (exTask 1 1 (some exHits3) none) ⟨fun _ => ebCell 7⟩ [exSCc, exSCa, exSC3, exSCb]
    .kEBSuperCluster rfl
  have hlead := ex3_scLoop s hs
  exact ⟨rfl, fills, hrun, h3 exSCb exSCa rfl hlead.1 hlead.2⟩

/-- C16: with the region's geometry set, the fills of `runOnSuperClusters` are the fills
made for each supercluster of the collection, in order, followed by `kSCNum` and the mass
fills.  For a retained supercluster whose resolved cell has no hit in the region's hit
buffer (or whose region has no hit buffer) they are exactly `kSCE`, `kSCELow`, `kSCNBCs`,
`kSCNcrystals`; for a retained supercluster with a hit they are these four, then
`kSCSeedEnergy`, `kSCClusterVsSeed`, `kSCSeedOccupancy`, then `kSingleCrystalCluster`
exactly when the collection has size one, then `kSCR9`. -/
theorem C16_supercluster_fills (lib : Libm F)
    (e3x3 : BasicCluster F → EcalRecHitCollection F → Option CaloTopology → F)
    (st : ClusterTask F) (g : CaloSubdetectorGeometry F) (scs : List (SuperCluster F))
    (_collection : Collections)
    (hg : (if _collection = .kEBSuperCluster then st.ebGeometry else st.eeGeometry) = some g) :
    (∃ fills tail, runOnSuperClusters lib e3x3 st scs _collection = .ok fills ∧
      fills = scs.flatMap (scAllFills e3x3 st g (decide (_collection = .kEBSuperCluster))
          (if _collection = .kEBSuperCluster then st.ebHits else st.eeHits) scs.length)
        ++ tail ∧
      ∀ f ∈ tail, f.me = .kSCNum ∨ f.me = .kZ ∨ f.me = .kHighMass) ∧
    (∀ sc ∈ scs, scRetained g (decide (_collection = .kEBSuperCluster)) sc = true →
      scSeedHit g (if _collection = .kEBSuperCluster then st.ebHits else st.eeHits) sc = none →
      scAllFills e3x3 st g (decide (_collection = .kEBSuperCluster))
          (if _collection = .kEBSuperCluster then st.ebHits else st.eeHits) scs.length sc
        = [ ⟨.kSCE, .idW (scCell g sc) sc.energy⟩,
            ⟨.kSCELow, .idW (scCell g sc) sc.energy⟩,
            ⟨.kSCNBCs, .idW (scCell g sc) (sc.clustersSize : F)⟩,
            ⟨.kSCNcrystals, .idW (scCell g sc) (sc.size : F)⟩ ]) ∧
    (∀ sc ∈ scs, ∀ (hits : EcalRecHitCollection F) (seedHit : EcalRecHit F),
      scRetained g (decide (_collection = .kEBSuperCluster)) sc = true →
      (if _collection = .kEBSuperCluster then st.ebHits else st.eeHits) = some hits →
      hits.find (scCell g sc) = some seedHit →
      scAllFills e3x3 st g (decide (_collection = .kEBSuperCluster))
          (if _collection = .kEBSuperCluster then st.ebHits else st.eeHits) scs.length sc
        = [ ⟨.kSCE, .idW (scCell g sc) sc.energy⟩,
            ⟨.kSCELow, .idW (scCell g sc) sc.energy⟩,
            ⟨.kSCNBCs, .idW (scCell g sc) (sc.clustersSize : F)⟩,
            ⟨.kSCNcrystals, .idW (scCell g sc) (sc.size : F)⟩,
            ⟨.kSCSeedEnergy, .idW (scCell g sc) seedHit.energy⟩,
            ⟨.kSCClusterVsSeed, .idXY (scCell g sc) seedHit.energy sc.energy⟩,
            ⟨.kSCSeedOccupancy, .id (scCell g sc)⟩ ]
          ++ (if scs.length = 1 then [⟨.kSingleCrystalCluster, .id (scCell g sc)⟩] else [])
          ++ [ ⟨.kSCR9, .idW (scCell g sc) (e3x3 sc.seed hits st.topology / sc.energy)⟩ ]) := by
  refine ⟨?_, ?_, ?_⟩
  · refine ⟨_,
      [⟨.kSCNum, .bin (if _collection = .kEBSuperCluster then .kEB else .kEE)
          (scs.countP (scMatched g (decide (_collection = .kEBSuperCluster))
            (if _collection = .kEBSuperCluster then st.ebHits else st.eeHits)))⟩]
        ++ (if st.prescaled then [] else scMassFills lib
            (scFinal lib e3x3 st g (decide (_collection = .kEBSuperCluster))
              (if _collection = .kEBSuperCluster then st.ebHits else st.eeHits) scs.length scs
              ⟨[], 0, none, none⟩)),
      runOnSuperClusters_eq lib e3x3 st g scs _collection hg, ?_, ?_⟩
    · simp only [scFinal, List.nil_append, List.append_assoc]
    · intro f hf
      rw [List.mem_append] at hf
      rcases hf with hf | hf
      · simp only [List.mem_singleton] at hf
        subst hf; left; rfl
      · split at hf
        · simp at hf
        · right; exact scMassFills_me lib _ f hf
  · intro sc _ hr hnone
    unfold scAllFills scSeedHit at *
    rw [if_pos hr]
    cases hh : (if _collection = .kEBSuperCluster then st.ebHits else st.eeHits) with
    | none => simp [scFills]
    | some h =>
      rw [hh] at hnone
      simp only at hnone
      simp [scFills, hnone]
  · intro sc _ hits seedHit hr hh hfind
    unfold scAllFills
    rw [if_pos hr, hh]
    simp [scFills, scSeedFills, hfind]

/-- C16 on a barrel event with the retained superclusters `exSC1`, whose cell has no hit,
and `exSCb`, whose cell has one. -/
theorem C16_supercluster_fills_witness :
    (if Collections.kEBSuperCluster = .kEBSuperCluster
      then (exTask 1 1 (some [⟨ebCell 2, 1⟩]) none).ebGeometry
      else (exTask 1 1 (some [⟨ebCell 2, 1⟩]) none).eeGeometry) = some ⟨fun _ => ebCell 7⟩ ∧
    scAllFills exE3x3 (exTask 1 1 (some [⟨ebCell 2, 1⟩]) none) ⟨fun _ => ebCell 7⟩
        (decide (Collections.kEBSuperCluster = .kEBSuperCluster))
        (if Collections.kEBSuperCluster = .kEBSuperCluster
          then (exTask 1 1 (some [⟨ebCell 2, 1⟩]) none).ebHits
          else (exTask 1 1 (some [⟨ebCell 2, 1⟩]) none).eeHits) [exSC1, exSCb].length exSC1
      = [ ⟨.kSCE, .idW (ebCell 1) 50⟩, ⟨.kSCELow, .idW (ebCell 1) 50⟩,
          ⟨.kSCNBCs, .idW (ebCell 1) 2⟩, ⟨.kSCNcrystals, .idW (ebCell 1) 20⟩ ] ∧
    scAllFills exE3x3 (exTask 1 1 (some [⟨ebCell 2, 1⟩]) none) ⟨fun _ => ebCell 7⟩
        (decide (Collections.kEBSuperCluster = .kEBSuperCluster))
        (if Collections.kEBSuperCluster = .kEBSuperCluster
          then (exTask 1 1 (some [⟨ebCell 2, 1⟩]) none).ebHits
          else (exTask 1 1 (some [⟨ebCell 2, 1⟩]) none).eeHits) [exSC1, exSCb].length exSCb
      = [ ⟨.kSCE, .idW (ebCell 2) 10⟩, ⟨.kSCELow, .idW (ebCell 2) 10⟩,
          ⟨.kSCNBCs, .idW (ebCell 2) 3⟩, ⟨.kSCNcrystals, .idW (ebCell 2) 25⟩,
          ⟨.kSCSeedEnergy, .idW (ebCell 2) 1⟩, ⟨.kSCClusterVsSeed, .idXY (ebCell 2) 1 10⟩,
          ⟨.kSCSeedOccupancy, .id (ebCell 2)⟩,
          ⟨.kSCR9, .idW (ebCell 2) (2 / 10)⟩ ] := by
  have h := C16_supercluster_fills realLibm exE3x3 (exTask 1 1 (some [⟨ebCell 2, 1⟩]) none)
    ⟨fun _ => ebCell 7⟩ [exSC1, exSCb] .kEBSuperCluster rfl
  have hr1 : scRetained ⟨fun _ => ebCell 7⟩
      (decide (Collections.kEBSuperCluster = .kEBSuperCluster)) exSC1 = true := by
    simp [scRetained, scCell, resolvedCell, retainedCell, otherRegionTag, exSC1, exBC1, ebCell]
  have hrb : scRetained ⟨fun _ => ebCell 7⟩
      (decide (Collections.kEBSuperCluster = .kEBSuperCluster)) exSCb = true := by
    simp [scRetained, scCell, resolvedCell, retainedCell, otherRegionTag, exSCb, exBC2, ebCell]
  have hn1 : scSeedHit ⟨fun _ => ebCell 7⟩
      (if Collections.kEBSuperCluster = .kEBSuperCluster
        then (exTask 1 1 (some [⟨ebCell 2, 1⟩]) none).ebHits
        else (exTask 1 1 (some [⟨ebCell 2, 1⟩]) none).eeHits) exSC1 = none := by
    simp [scSeedHit, scCell, resolvedCell, exTask, exSC1, exBC1, ebCell,
      EcalRecHitCollection.find]
  have hfb : EcalRecHitCollection.find [⟨ebCell 2, (1:ℝ)⟩]
      (scCell ⟨fun _ => ebCell 7⟩ exSCb) = some ⟨ebCell 2, 1⟩ := by
    simp [scCell, resolvedCell, exSCb, exBC2, ebCell, EcalRecHitCollection.find]
  refine ⟨rfl, ?_, ?_⟩
  · rw [h.2.1 exSC1 (by simp) hr1 hn1]
    simp [scCell, resolvedCell, exSC1, exBC1, ebCell]
  · rw [h.2.2 exSCb (by simp) [⟨ebCell 2, 1⟩] ⟨ebCell 2, 1⟩ hrb rfl hfb]
    simp [scCell, resolvedCell, exSCb, exBC2, ebCell, exE3x3, exTask]

/-- C17: when every cluster of the collection has a non-null seed, the result of
`runOnBasicClusters`, and likewise of `runOnSuperClusters`, is the same whatever the two
geometry pointers of the worker are (two different resolvers, or null pointers), and the
cell resolved for each cluster is its seed. -/
theorem C17_seed_takes_precedence (lib : Libm F)
    (e3x3 : BasicCluster F → EcalRecHitCollection F → Option CaloTopology → F)
    (st : ClusterTask F)
    (ebGeometry eeGeometry ebGeometry' eeGeometry' : Option (CaloSubdetectorGeometry F))
    (bcs : List (BasicCluster F)) (scs : List (SuperCluster F)) (cB cS : Collections)
    (hbc : ∀ bc ∈ bcs, bc.seed.null = false)
    (hsc : ∀ sc ∈ scs, sc.seed.seed.null = false) :
    runOnBasicClusters lib { st with ebGeometry := ebGeometry, eeGeometry := eeGeometry } bcs cB
      = runOnBasicClusters lib
          { st with ebGeometry := ebGeometry', eeGeometry := eeGeometry' } bcs cB ∧
    runOnSuperClusters lib e3x3
        { st with ebGeometry := ebGeometry, eeGeometry := eeGeometry } scs cS
      = runOnSuperClusters lib e3x3
          { st with ebGeometry := ebGeometry', eeGeometry := eeGeometry' } scs cS ∧
    (∀ bc ∈ bcs, ∀ subgeom : Option (CaloSubdetectorGeometry F),
      resolveId subgeom bc.seed bc.position = .ok bc.seed) ∧
    (∀ sc ∈ scs, ∀ subgeom : Option (CaloSubdetectorGeometry F),
      resolveId subgeom sc.seed.seed sc.position = .ok sc.seed.seed) := by
  have hsame : SameButGeometry
      ({ st with ebGeometry := ebGeometry, eeGeometry := eeGeometry } : ClusterTask F)
      { st with ebGeometry := ebGeometry', eeGeometry := eeGeometry' } :=
    ⟨rfl, rfl, rfl, rfl, rfl⟩
  refine ⟨?_, ?_, ?_, ?_⟩
  · simp only [runOnBasicClusters, bcLoop_congr _ _ hsame _ bcs hbc,
      prescaled_congr _ _ hsame]
  · simp only [runOnSuperClusters, scLoop_congr lib e3x3 _ _ hsame _ _ _ scs hsc,
      prescaled_congr _ _ hsame]
  · intro bc hb subgeom
    exact resolveId_seed subgeom _ _ (hbc bc hb)
  · intro sc hs subgeom
    exact resolveId_seed subgeom _ _ (hsc sc hs)

/-- C17 on the sample barrel event, all of whose clusters carry a seed: the fills are the
same with the sample geometry and with null geometry pointers. -/
theorem C17_seed_takes_precedence_witness :
    (∀ bc ∈ [exBC1, exBC3, exBC2], bc.seed.null = false) ∧
    (∀ sc ∈ [exSC3, exSC1], sc.seed.seed.null = false) ∧
    runOnBasicClusters realLibm
        { exTask 1 1 (some exHits) none with
          ebGeometry := some ⟨fun _ => ebCell 7⟩, eeGeometry := some ⟨fun _ => eeCell 8⟩ }
        [exBC1, exBC3, exBC2] .kEBBasicCluster
      = runOnBasicClusters realLibm
          { exTask 1 1 (some exHits) none with ebGeometry := none, eeGeometry := none }
          [exBC1, exBC3, exBC2] .kEBBasicCluster ∧
    runOnSuperClusters realLibm exE3x3
        { exTask 1 1 (some exHits) none with
          ebGeometry := some ⟨fun _ => ebCell 7⟩, eeGeometry := some ⟨fun _ => eeCell 8⟩ }
        [exSC3, exSC1] .kEBSuperCluster
      = runOnSuperClusters realLibm exE3x3
          { exTask 1 1 (some exHits) none with ebGeometry := none, eeGeometry := none }
          [exSC3, exSC1] .kEBSuperCluster := by
  have hbc : ∀ bc ∈ [exBC1, exBC3, exBC2], bc.seed.null = false := by
    simp [exBC1, exBC2, exBC3, ebCell, eeCell]
  have hsc : ∀ sc ∈ [exSC3, exSC1], sc.seed.seed.null = false := by
    simp [exSC1, exSC3, exBC1, exBC3, ebCell, eeCell]
  have h := C17_seed_takes_precedence realLibm exE3x3 (exTask 1 1 (some exHits) none)
    (some ⟨fun _ => ebCell 7⟩) (some ⟨fun _ => eeCell 8⟩) none none
    [exBC1, exBC3, exBC2] [exSC3, exSC1] .kEBBasicCluster .kEBSuperCluster hbc hsc
  exact ⟨hbc, hsc, h.1, h.2.1⟩

/-- C18: applied to an empty map `setMEOrdering` yields 26 entries with pairwise distinct
names; every metric filled by a call of `runOnBasicClusters` or `runOnSuperClusters` is the
value of exactly one entry; and the value of every entry is filled by some call of one of
the two. -/
theorem C18_me_ordering_one_to_one (lib : Libm F)
    (e3x3 : BasicCluster F → EcalRecHitCollection F → Option CaloTopology → F) :
    (setMEOrdering []).length = 26 ∧
    ((setMEOrdering []).map Prod.fst).Nodup ∧
    (∀ (st : ClusterTask F) (bcs : List (BasicCluster F)) (c : Collections)
      (fills : List (Fill F)), runOnBasicClusters lib st bcs c = .ok fills →
      ∀ f ∈ fills, ∃! e, e ∈ setMEOrdering [] ∧ e.2 = f.me) ∧
    (∀ (st : ClusterTask F) (scs : List (SuperCluster F)) (c : Collections)
      (fills : List (Fill F)), runOnSuperClusters lib e3x3 st scs c = .ok fills →
      ∀ f ∈ fills, ∃! e, e ∈ setMEOrdering [] ∧ e.2 = f.me) ∧
    (∀ e ∈ setMEOrdering [],
      (∃ (st : ClusterTask ℝ) (bcs : List (BasicCluster ℝ)) (c : Collections)
        (fills : List (Fill ℝ)), runOnBasicClusters realLibm st bcs c = .ok fills ∧
        ∃ f ∈ fills, f.me = e.2) ∨
      (∃ (st : ClusterTask ℝ) (scs : List (SuperCluster ℝ)) (c : Collections)
        (fills : List (Fill ℝ)), runOnSuperClusters realLibm exE3x3 st scs c = .ok fills ∧
        ∃ f ∈ fills, f.me = e.2)) := by
  refine ⟨?_, ?_, ?_, ?_, ?_⟩
  · rw [setMEOrdering_nil]; rfl
  · rw [setMEOrdering_nil]; decide
  · intro st bcs c fills _ f _
    exact existsUnique_entry _ setMEOrdering_values_nodup _ (setMEOrdering_values f.me)
  · intro st scs c fills _ f _
    exact existsUnique_entry _ setMEOrdering_values_nodup _ (setMEOrdering_values f.me)
  · intro e he
    have hcases : e.2 ∈ [MESets.kBCE, .kBCEMap, .kBCEMapProjEta, .kBCEMapProjPhi,
          .kBCOccupancy, .kBCOccupancyProjEta, .kBCOccupancyProjPhi, .kBCSize, .kBCSizeMap,
          .kBCSizeMapProjEta, .kBCSizeMapProjPhi, .kBCNum, .kPi0, .kJPsi] ∨
        e.2 ∈ [MESets.kSCE, .kSCELow, .kSCNBCs, .kSCNcrystals, .kSCSeedEnergy,
          .kSCClusterVsSeed, .kSCSeedOccupancy, .kSingleCrystalCluster, .kSCR9, .kSCNum] ∨
        e.2 ∈ [MESets.kZ, .kHighMass] := by
      cases e.2 <;> decide
    rcases hcases with h | h | h
    · obtain ⟨fills, hrun, hf⟩ := ex_bc_metrics e.2 h
      exact Or.inl ⟨_, _, _, fills, hrun, hf⟩
    · obtain ⟨fills, hrun, hf⟩ := ex_sc_metrics e.2 h
      exact Or.inr ⟨_, _, _, fills, hrun, hf⟩
    · obtain ⟨fills, hrun, hf⟩ := ex_mass_metrics e.2 h
      exact Or.inr ⟨_, _, _, fills, hrun, hf⟩

/-- C18 on the sample barrel event: the metric `kBCNum` that the call fills is the value of
exactly one entry of the table, and the value of the entry named `HighMass` is filled by
the call on the sample superclusters. -/
theorem C18_me_ordering_one_to_one_witness :
    (∃ fills, runOnBasicClusters realLibm (exTask 1 1 (some exHits) none)
        [exBC1, exBC3, exBC2] .kEBBasicCluster = .ok fills ∧
      (⟨.kBCNum, .bin .kEB 2⟩ : Fill ℝ) ∈ fills ∧
      ∃! e, e ∈ setMEOrdering [] ∧ e.2 = MESets.kBCNum) ∧
    (("HighMass", MESets.kHighMass) ∈ setMEOrdering [] ∧
      ((∃ (st : ClusterTask ℝ) (bcs : List (BasicCluster ℝ)) (c : Collections)
        (fills : List (Fill ℝ)), runOnBasicClusters realLibm st bcs c = .ok fills ∧
        ∃ f ∈ fills, f.me = MESets.kHighMass) ∨
      (∃ (st : ClusterTask ℝ) (scs : List (SuperCluster ℝ)) (c : Collections)
        (fills : List (Fill ℝ)), runOnSuperClusters realLibm exE3x3 st scs c = .ok fills ∧
        ∃ f ∈ fills, f.me = MESets.kHighMass))) := by
  have h := C18_me_ordering_one_to_one realLibm exE3x3
  have hmem : (⟨.kBCNum, .bin .kEB 2⟩ : Fill ℝ) ∈
      bcFills (ebCell 1) exBC1 ++ bcFills (ebCell 2) exBC2
          ++ [⟨.kBCNum, .bin .kEB 2⟩]
          ++ [⟨.kPi0, .x (Real.sqrt 40)⟩, ⟨.kJPsi, .x (Real.sqrt 40)⟩,
              ⟨.kPi0, .x (Real.sqrt 40)⟩, ⟨.kJPsi, .x (Real.sqrt 40)⟩] := by
    simp
  have hentry : ("HighMass", MESets.kHighMass) ∈ setMEOrdering [] := by
    rw [setMEOrdering_nil]; decide
  exact ⟨⟨_, ex_runOnBasicClusters, hmem,
      h.2.2.1 _ _ _ _ ex_runOnBasicClusters _ hmem⟩,
    ⟨hentry, h.2.2.2.2 _ hentry⟩⟩

/-- C19 fails on the first event of a run in which no barrel hits were handed over: the
worker is constructed with prescale 1, `beginRun` and `beginEvent` succeed and leave the
barrel hit buffer null, no dependency of the basic clusters on the hits is declared, and
`runOnBasicClusters` on the one-cluster barrel collection `[exBC1]` dereferences the null
buffer, where `runOnSuperClusters` in the same state returns. -/
theorem C19_absent_hit_buffer_dereferenced :
    ∃ st0 st1 : ClusterTask ℝ,
      ClusterTask.new ℝ exParams = .ok st0 ∧
      st0.beginRun exSetup = .ok st1 ∧
      st1.beginEvent.ebHits = none ∧
      st1.beginEvent.prescaled = false ∧
      setDependencies [] = [(.kEBSuperCluster, .kEBRecHit), (.kEESuperCluster, .kEERecHit)] ∧
      runOnBasicClusters realLibm st1.beginEvent [exBC1] .kEBBasicCluster
        = .error .nullDereference ∧
      runOnSuperClusters realLibm exE3x3 st1.beginEvent [exSC1] .kEBSuperCluster
        = .ok (scFills (ebCell 1) exSC1 ++ [⟨.kSCNum, .bin .kEB 0⟩]) := by
  refine ⟨_, _, rfl, rfl, rfl, rfl, rfl, ?_, ?_⟩
  · simp [runOnBasicClusters, bcLoop, bcBody, bcSelect, resolveId, regionMismatch,
      ClusterTask.beginEvent, ClusterTask.prescaled, exBC1, ebCell]
    norm_num
  · simp [runOnSuperClusters, scLoop, scBody, resolveId, regionMismatch,
      ClusterTask.beginEvent, ClusterTask.prescaled, exSC1, exBC1, ebCell, scMassFills]

/-- C20: for every pair that reaches the isolation step, `eta` is half the logarithm of
`(epair + |pz1 + pz2|) / (epair - |pz1 + pz2|)` and is non-negative, and the pair of the
two clusters reflected by `z -> -z` has the same combined energy, the opposite combined
longitudinal momentum and the same `eta`. -/
theorem C20_eta_nonneg (bcs : List (BasicCluster ℝ)) (c1 c2 : Nat × BasicCluster ℝ)
    (eta phi iso : ℝ)
    (h : pairOutcome realLibm bcs c1 c2 = .notIsolated eta phi iso ∨
      ∃ m, pairOutcome realLibm bcs c1 c2 = .filled eta phi iso m) :
    eta = 0.5 * Real.log
      ((c1.2.energy + c2.2.energy + |pz realLibm c1.2 + pz realLibm c2.2|)
        / (c1.2.energy + c2.2.energy - |pz realLibm c1.2 + pz realLibm c2.2|)) ∧
    0 ≤ eta ∧
    epair (mirrorZ c1.2) (mirrorZ c2.2) = epair c1.2 c2.2 ∧
    pz realLibm (mirrorZ c1.2) + pz realLibm (mirrorZ c2.2)
      = -(pz realLibm c1.2 + pz realLibm c2.2) ∧
    pairEta realLibm (mirrorZ c1.2) (mirrorZ c2.2) = eta := by
  have hreach : ¬ epair c1.2 c2.2 < pzpair realLibm c1.2 c2.2 + 1e-10 ∧
      eta = pairEta realLibm c1.2 c2.2 := by
    unfold pairOutcome at h
    by_cases h1 : c1.1 = c2.1
    · simp [h1] at h
    · by_cases h2 : ptpair realLibm c1.2 c2.2 < 2.5
      · simp [h1, h2] at h
      · by_cases h3 : epair c1.2 c2.2 < pzpair realLibm c1.2 c2.2 + 1e-10
        · simp [h1, h2, h3] at h
        · refine ⟨h3, ?_⟩
          simp only [h1, h2, h3, if_false] at h
          by_cases h4 : pairIso realLibm bcs c1.2 c2.2 > 0.5
          · simp only [h4, if_true] at h
            rcases h with h | ⟨m, h⟩
            · cases h; rfl
            · cases h
          · simp only [h4, if_false] at h
            rcases h with h | ⟨m, h⟩
            · cases h
            · cases h; rfl
  obtain ⟨hguard, heta⟩ := hreach
  have hpz : pz realLibm (mirrorZ c1.2) + pz realLibm (mirrorZ c2.2)
      = -(pz realLibm c1.2 + pz realLibm c2.2) := by
    simp only [pz, mirrorZ, realLibm, Real.cos_pi_sub]
    ring
  have hep : epair (mirrorZ c1.2) (mirrorZ c2.2) = epair c1.2 c2.2 := rfl
  have hpzpair : pzpair realLibm (mirrorZ c1.2) (mirrorZ c2.2) = pzpair realLibm c1.2 c2.2 := by
    unfold pzpair
    rw [hpz, abs_neg]
  have hden : 0 < epair c1.2 c2.2 - pzpair realLibm c1.2 c2.2 := by
    have := not_lt.mp hguard
    have h0 : (0:ℝ) < 1e-10 := by norm_num
    linarith
  have hp0 : 0 ≤ pzpair realLibm c1.2 c2.2 := abs_nonneg _
  refine ⟨heta, ?_, hep, hpz, ?_⟩
  · rw [heta, pairEta]
    apply mul_nonneg (by norm_num)
    apply Real.log_nonneg
    rw [le_div_iff₀ hden]
    show 1 * (epair c1.2 c2.2 - pzpair realLibm c1.2 c2.2)
      ≤ epair c1.2 c2.2 + pzpair realLibm c1.2 c2.2
    linarith
  · rw [heta]
    simp only [pairEta, hep, hpzpair]

/-- C20 on the sample pair, which reaches the isolation step with `eta = 0`. -/
theorem C20_eta_nonneg_witness :
    (pairOutcome realLibm [exBC1, exBC3, exBC2] (0, exBC1) (2, exBC2)
        = .notIsolated 0 (Real.pi / 2) 0 ∨
      ∃ m, pairOutcome realLibm [exBC1, exBC3, exBC2] (0, exBC1) (2, exBC2)
        = .filled 0 (Real.pi / 2) 0 m) ∧
    (0:ℝ) ≤ 0 ∧
    pairEta realLibm (mirrorZ exBC1) (mirrorZ exBC2) = 0 := by
  have hout : pairOutcome realLibm [exBC1, exBC3, exBC2] (0, exBC1) (2, exBC2)
        = .notIsolated 0 (Real.pi / 2) 0 ∨
      ∃ m, pairOutcome realLibm [exBC1, exBC3, exBC2] (0, exBC1) (2, exBC2)
        = .filled 0 (Real.pi / 2) 0 m := Or.inr ⟨_, ex_pairOutcome⟩
  have h := C20_eta_nonneg [exBC1, exBC3, exBC2] (0, exBC1) (2, exBC2) 0 (Real.pi / 2) 0 hout
  exact ⟨hout, h.2.1, h.2.2.2.2⟩

end Properties

end ecaldqm
